import Mathlib

/-!
Verification development for the `mse_fmp4` crate: a shallow embedding of the
fragmented-MP4 authoring pipeline (box model, elementary-stream adapters and
the TS-to-fMP4 assembler) together with theorems about its behaviour.

Conventions of the embedding:
* Bytes are `Nat` values in `[0, 256)`; byte buffers are `List Nat`.
* Machine-integer casts that can wrap (`as u32`, `as i32`, wrapping `u16`
  subtraction in release builds) are modelled with explicit `% 2 ^ w`
  arithmetic; quantities the Rust code keeps exact are `Nat`.
* Fallible Rust code (`Result`) becomes `Except Err`; a Rust panic
  (out-of-bounds slice, arithmetic overflow that aborts) is the separate
  outcome `Err.panicked`, distinct from every `ErrorKind` the crate returns.
* The MPEG-TS/PES demultiplexer is an external crate (`mpeg2ts`); per the
  specification it is abstracted as a pull-style source of PES packets, each
  carrying a stream classification, optional PTS/DTS and a payload.
-/

deriving instance DecidableEq for Except

namespace MseFmp4

/-- Error outcomes: the crate's three `ErrorKind`s plus a distinguished
`panicked` outcome modelling a Rust panic (which is not an `ErrorKind`). -/
inductive Err where
  | invalidInput
  | unsupported
  | other
  | panicked
deriving DecidableEq, Repr

/-- Big-endian byte list of `n`, `k` bytes long; the encoded value is
`n % 2 ^ (8 * k)` (this is exactly what `byteorder`'s big-endian writers
emit for a `k`-byte integer). -/
def beBytes : Nat → Nat → List Nat
  | 0, _ => []
  | k + 1, n => beBytes k (n / 256) ++ [n % 256]

theorem beBytes_length (k n : Nat) : (beBytes k n).length = k := by
  induction k generalizing n with
  | zero => rfl
  | succ k ih => simp [beBytes, ih]

/-- Two's-complement 32-bit encoding of a signed value (what `write_i32`
emits). -/
def i32be (x : Int) : List Nat := beBytes 4 (x % (2 ^ 32)).toNat

/-- Two's-complement 16-bit encoding of a signed value (what `write_i16`
emits). -/
def i16be (x : Int) : List Nat := beBytes 2 (x % (2 ^ 16)).toNat

theorem i32be_length (x : Int) : (i32be x).length = 4 := beBytes_length _ _

theorem i16be_length (x : Int) : (i16be x).length = 2 := beBytes_length _ _

/-- Interpretation of a `u64` count as an `i32` (Rust `as i32` cast:
two's-complement truncation). -/
def i32OfNat (n : Nat) : Int :=
  if n % 2 ^ 32 < 2 ^ 31 then ((n % 2 ^ 32 : Nat) : Int)
  else ((n % 2 ^ 32 : Nat) : Int) - 2 ^ 32

/-- Wrapping `i32` interpretation of an arbitrary integer (used for the
`(pts - dts) as i32` cast and for `i32` addition). -/
def i32OfInt (x : Int) : Int :=
  if x % 2 ^ 32 < 2 ^ 31 then x % 2 ^ 32 else x % 2 ^ 32 - 2 ^ 32

/-- Reads one byte from a byte list; an exhausted reader is the `byteorder`
`UnexpectedEof` I/O error, which the crate wraps as `ErrorKind::Other`. -/
def readU8 : List Nat → Except Err (Nat × List Nat)
  | [] => .error .other
  | b :: rest => .ok (b, rest)

/-- Reads a big-endian `u16` from a byte list. -/
def readU16 (bytes : List Nat) : Except Err (Nat × List Nat) := do
  let (hi, r1) ← readU8 bytes
  let (lo, r2) ← readU8 r1
  .ok (hi * 256 + lo, r2)

theorem readU8_length {bytes : List Nat} {b : Nat} {rest : List Nat}
    (h : readU8 bytes = .ok (b, rest)) : rest.length + 1 = bytes.length := by
  cases bytes with
  | nil => simp [readU8] at h
  | cons x xs => simp [readU8] at h; simp [h.2]

theorem readU16_length {bytes : List Nat} {n : Nat} {rest : List Nat}
    (h : readU16 bytes = .ok (n, rest)) : rest.length + 2 = bytes.length := by
  cases bytes with
  | nil => simp [readU16, readU8, Bind.bind, Except.bind] at h
  | cons x xs =>
    cases xs with
    | nil => simp [readU16, readU8, Bind.bind, Except.bind] at h
    | cons y ys =>
      simp [readU16, readU8, Bind.bind, Except.bind] at h
      simp [h.2]

/-! ### `aac.rs`: the ADTS header parser -/

/-- AAC profile (`aac.rs`), discriminants 0..3. -/
inductive AacProfile where
  | main
  | lc
  | ssr
  | ltp
deriving DecidableEq, Repr

/-- Rust enum discriminant of an `AacProfile`. -/
def AacProfile.toNat : AacProfile → Nat
  | .main => 0
  | .lc => 1
  | .ssr => 2
  | .ltp => 3

/-- Decode of the 2-bit ADTS profile field (`n >> 6` of the third header
byte); the value is at most 3, so the Rust `unreachable!` arm never fires. -/
def AacProfile.fromTwoBits : Nat → AacProfile
  | 0 => .main
  | 1 => .lc
  | 2 => .ssr
  | _ => .ltp

/-- Sampling frequency (`aac.rs`), discriminants 0..12. -/
inductive SamplingFrequency where
  | hz96000
  | hz88200
  | hz64000
  | hz48000
  | hz44100
  | hz32000
  | hz24000
  | hz22050
  | hz16000
  | hz12000
  | hz11025
  | hz8000
  | hz7350
deriving DecidableEq, Repr

/-- `SamplingFrequency::as_u32`: the frequency in Hz. -/
def SamplingFrequency.as_u32 : SamplingFrequency → Nat
  | .hz96000 => 96000
  | .hz88200 => 88200
  | .hz64000 => 64000
  | .hz48000 => 48000
  | .hz44100 => 44100
  | .hz32000 => 32000
  | .hz24000 => 24000
  | .hz22050 => 22050
  | .hz16000 => 16000
  | .hz12000 => 12000
  | .hz11025 => 11025
  | .hz8000 => 8000
  | .hz7350 => 7350

/-- `SamplingFrequency::as_index`: the enum discriminant. -/
def SamplingFrequency.as_index : SamplingFrequency → Nat
  | .hz96000 => 0
  | .hz88200 => 1
  | .hz64000 => 2
  | .hz48000 => 3
  | .hz44100 => 4
  | .hz32000 => 5
  | .hz24000 => 6
  | .hz22050 => 7
  | .hz16000 => 8
  | .hz12000 => 9
  | .hz11025 => 10
  | .hz8000 => 11
  | .hz7350 => 12

/-- `SamplingFrequency::from_index`: indices 13/14 are reserved and 15 is
forbidden; all three are `InvalidInput`. -/
def SamplingFrequency.from_index : Nat → Except Err SamplingFrequency
  | 0 => .ok .hz96000
  | 1 => .ok .hz88200
  | 2 => .ok .hz64000
  | 3 => .ok .hz48000
  | 4 => .ok .hz44100
  | 5 => .ok .hz32000
  | 6 => .ok .hz24000
  | 7 => .ok .hz22050
  | 8 => .ok .hz16000
  | 9 => .ok .hz12000
  | 10 => .ok .hz11025
  | 11 => .ok .hz8000
  | 12 => .ok .hz7350
  | _ => .error .invalidInput

/-- Channel configuration (`aac.rs`), discriminants 0..7. -/
inductive ChannelConfiguration where
  | sentViaInbandPce
  | oneChannel
  | twoChannels
  | threeChannels
  | fourChannels
  | fiveChannels
  | sixChannels
  | eightChannels
deriving DecidableEq, Repr

/-- Rust enum discriminant of a `ChannelConfiguration`. -/
def ChannelConfiguration.toNat : ChannelConfiguration → Nat
  | .sentViaInbandPce => 0
  | .oneChannel => 1
  | .twoChannels => 2
  | .threeChannels => 3
  | .fourChannels => 4
  | .fiveChannels => 5
  | .sixChannels => 6
  | .eightChannels => 7

/-- `ChannelConfiguration::from_u8` (the argument is 3 bits wide, so the
`unreachable!` arm never fires and the error case is dead code). -/
def ChannelConfiguration.from_u8 : Nat → Except Err ChannelConfiguration
  | 0 => .ok .sentViaInbandPce
  | 1 => .ok .oneChannel
  | 2 => .ok .twoChannels
  | 3 => .ok .threeChannels
  | 4 => .ok .fourChannels
  | 5 => .ok .fiveChannels
  | 6 => .ok .sixChannels
  | 7 => .ok .eightChannels
  | _ => .error .invalidInput

/-- ADTS header (`aac.rs`); `privateFlag` renders the Rust field `private`
(a reserved word in Lean). -/
structure AdtsHeader where
  profile : AacProfile
  sampling_frequency : SamplingFrequency
  privateFlag : Bool
  channel_configuration : ChannelConfiguration
  frame_len : Nat
  buffer_fullness : Nat
deriving DecidableEq, Repr

/-- `AdtsHeader::raw_data_blocks_len`: `frame_len - 7` on `u16`.  The
subtraction is unchecked; when `frame_len < 7` a release build wraps modulo
`2 ^ 16` (a debug build aborts at the subtraction instead, and the wrapped
value still drives an out-of-range slice further on, so both builds crash). -/
def AdtsHeader.raw_data_blocks_len (h : AdtsHeader) : Nat :=
  (h.frame_len + 2 ^ 16 - 7) % 2 ^ 16

/-- `AdtsHeader::read_from`: parses the seven-byte CRC-less ADTS header,
consuming exactly seven bytes from the reader on success. -/
def AdtsHeader.read_from (bytes : List Nat) : Except Err (AdtsHeader × List Nat) := do
  let (n1, r1) ← readU16 bytes
  if n1 >>> 4 ≠ 0xFFF then .error .invalidInput else
  let mpegVersion := (n1 >>> 3) &&& 1
  let layer := (n1 >>> 1) &&& 3
  let crcProtectionAbsent := n1 &&& 1 ≠ 0
  if mpegVersion ≠ 0 then .error .unsupported else
  if layer ≠ 0 then .error .invalidInput else do
  let (n2, r2) ← readU8 r1
  let profile := AacProfile.fromTwoBits (n2 >>> 6)
  let sampling_frequency ← SamplingFrequency.from_index ((n2 >>> 2) &&& 0xF)
  let privateFlag := n2 &&& 2 ≠ 0
  let channelMsb := n2 &&& 1
  let (n3, r3) ← readU8 r2
  let channel_configuration ← ChannelConfiguration.from_u8 ((channelMsb <<< 2) ||| (n3 >>> 6))
  let originality := n3 &&& 0x20 ≠ 0
  let home := n3 &&& 0x10 ≠ 0
  let copyrighted := n3 &&& 0x8 ≠ 0
  let copyrightIdStart := n3 &&& 0x4 ≠ 0
  if originality then .error .unsupported else
  if home then .error .unsupported else
  if copyrighted then .error .unsupported else
  if copyrightIdStart then .error .unsupported else
  let frameLenMsb2 := n3 &&& 3
  do
  let (n4, r4) ← readU16 r3
  let frame_len := (frameLenMsb2 <<< 11) ||| (n4 >>> 5)
  let bufferFullnessMsb5 := n4 &&& 0x1F
  let (n5, r5) ← readU8 r4
  let buffer_fullness := (bufferFullnessMsb5 <<< 5) ||| (n5 >>> 2)
  let rawDataBlocksMinus1 := n5 &&& 3
  if rawDataBlocksMinus1 ≠ 0 then .error .unsupported else
  if ¬ crcProtectionAbsent then .error .unsupported else
  .ok ({ profile, sampling_frequency, privateFlag, channel_configuration,
         frame_len, buffer_fullness }, r5)

set_option maxHeartbeats 1600000 in
theorem adts_read_from_length {bytes : List Nat} {hd : AdtsHeader} {rest : List Nat}
    (h : AdtsHeader.read_from bytes = .ok (hd, rest)) :
    rest.length + 7 = bytes.length := by
  match bytes with
  | [] | [_] | [_, _] | [_, _, _] | [_, _, _, _] | [_, _, _, _, _] | [_, _, _, _, _, _] =>
    simp only [AdtsHeader.read_from, readU16, readU8, Bind.bind, Except.bind] at h <;>
      (repeat' split at h) <;> simp_all
  | b0 :: b1 :: b2 :: b3 :: b4 :: b5 :: b6 :: tl =>
    simp only [AdtsHeader.read_from, readU16, readU8, Bind.bind, Except.bind] at h
    (repeat' split at h) <;> simp_all

/-- `SAMPLES_IN_FRAME` (`aac.rs`): AAC samples per frame. -/
def SAMPLES_IN_FRAME : Nat := 1024

/-! ### `avc.rs`: bit reader, exponential Golomb, SPS summary, NAL units

The Rust `BitReader` pulls one byte at a time from its underlying reader and
serves its bits MSB-first.  Since whole bytes are consumed, its observable
behaviour is exactly that of popping bits from the MSB-first bit expansion of
the byte stream, which is how we model it: `bitsOf` flattens the bytes and the
readers below consume the resulting `List Bool`.  Running out of bits is the
underlying reader's EOF, i.e. `ErrorKind::Other`. -/

/-- MSB-first bits of one byte. -/
def byteBits (b : Nat) : List Bool :=
  [b >>> 7 &&& 1 = 1, b >>> 6 &&& 1 = 1, b >>> 5 &&& 1 = 1, b >>> 4 &&& 1 = 1,
   b >>> 3 &&& 1 = 1, b >>> 2 &&& 1 = 1, b >>> 1 &&& 1 = 1, b &&& 1 = 1]

/-- MSB-first bit expansion of a byte stream. -/
def bitsOf (bytes : List Nat) : List Bool := (bytes.map byteBits).flatten

/-- `BitReader::read_bit` (as a bit, 0 or 1). -/
def readBit : List Bool → Except Err (Nat × List Bool)
  | [] => .error .other
  | b :: rest => .ok (if b then 1 else 0, rest)

/-- The leading-zero count of `read_exp_golomb_code`: consumes zero bits up
to and including the terminating one bit, returning the count of zeros. -/
def countZeroBits : List Bool → Except Err (Nat × List Bool)
  | [] => .error .other
  | b :: rest =>
    if b then .ok (0, rest)
    else do
      let (k, r) ← countZeroBits rest
      .ok (k + 1, r)

/-- Reads `k` bits MSB-first into an accumulator (`n = (n << 1) | bit`). -/
def readNBits : Nat → Nat → List Bool → Except Err (Nat × List Bool)
  | 0, acc, bits => .ok (acc, bits)
  | _ + 1, _, [] => .error .other
  | k + 1, acc, b :: rest => readNBits k (acc * 2 + (if b then 1 else 0)) rest

/-- `BitReader::read_ue` / `read_exp_golomb_code`: the decoded value is
`2 ^ k - 1 + v` for `k` leading zeros and `k` following value bits. -/
def read_ue (bits : List Bool) : Except Err (Nat × List Bool) := do
  let (k, r) ← countZeroBits bits
  let (v, r') ← readNBits k 0 r
  .ok (2 ^ k - 1 + v, r')

/-- Skips `n` exp-Golomb values (the `offset_for_ref_frame` table). -/
def skipUes : Nat → List Bool → Except Err (List Bool)
  | 0, bits => .ok bits
  | n + 1, bits => do
    let (_, r) ← read_ue bits
    skipUes n r

/-- SPS summary (`avc.rs`, `SequenceParameterSet`): the fields the parser
actually stores.  `mpeg2_ts.rs` refers to this parser as `SpsSummary`; the
definition in `avc.rs` names it `SequenceParameterSet` with an identical
field and method interface. -/
structure SequenceParameterSet where
  profile_idc : Nat
  constraint_set_flag : Nat
  level_idc : Nat
  seq_parameter_set_id : Nat
  log2_max_frame_num_minus4 : Nat
  pic_order_cnt_type : Nat
  num_ref_frames : Nat
  gaps_in_frame_num_value_allowed_flag : Nat
  pic_width_in_mbs_minus_1 : Nat
  pic_height_in_map_units_minus_1 : Nat
deriving DecidableEq, Repr

/-- `SequenceParameterSet::width`: the source computes the uncropped width
(its own comment records the crop-aware formula as a TODO). -/
def SequenceParameterSet.width (s : SequenceParameterSet) : Nat :=
  (s.pic_width_in_mbs_minus_1 + 1) * 16

/-- `SequenceParameterSet::height`: the source computes the uncropped,
frame-mbs-only height (its own comment records the full formula as a TODO). -/
def SequenceParameterSet.height (s : SequenceParameterSet) : Nat :=
  (s.pic_height_in_map_units_minus_1 + 1) * 16

/-- `SequenceParameterSet::read_from`: three plain bytes, then a bit stream.
Profiles with chroma-format extensions are rejected as `Unsupported`;
`pic_order_cnt_type` 0 and 1 are handled, anything else is `InvalidInput`.
Parsing stops after `pic_height_in_map_units_minus_1` (the remaining SPS
fields, from `frame_mbs_only_flag` on, are commented out in the source). -/
def SequenceParameterSet.read_from (bytes : List Nat) :
    Except Err SequenceParameterSet := do
  let (profile_idc, r1) ← readU8 bytes
  let (constraint_set_flag, r2) ← readU8 r1
  let (level_idc, r3) ← readU8 r2
  let bits0 := bitsOf r3
  let (seq_parameter_set_id, bits1) ← read_ue bits0
  if profile_idc = 100 ∨ profile_idc = 110 ∨ profile_idc = 122 ∨
     profile_idc = 244 ∨ profile_idc = 44 ∨ profile_idc = 83 ∨
     profile_idc = 86 ∨ profile_idc = 118 ∨ profile_idc = 128 then
    .error .unsupported
  else do
  let (log2_max_frame_num_minus4, bits2) ← read_ue bits1
  let (pic_order_cnt_type, bits3) ← read_ue bits2
  let bits4 ← (match pic_order_cnt_type with
    | 0 => do
      let (_, b) ← read_ue bits3
      pure b
    | 1 => do
      let (_, b1) ← readBit bits3
      let (_, b2) ← read_ue b1
      let (_, b3) ← read_ue b2
      let (cnt, b4) ← read_ue b3
      skipUes cnt b4
    | _ => .error .invalidInput)
  let (num_ref_frames, bits5) ← read_ue bits4
  let (gaps_in_frame_num_value_allowed_flag, bits6) ← readBit bits5
  let (pic_width_in_mbs_minus_1, bits7) ← read_ue bits6
  let (pic_height_in_map_units_minus_1, _) ← read_ue bits7
  .ok { profile_idc, constraint_set_flag, level_idc, seq_parameter_set_id,
        log2_max_frame_num_minus4, pic_order_cnt_type, num_ref_frames,
        gaps_in_frame_num_value_allowed_flag, pic_width_in_mbs_minus_1,
        pic_height_in_map_units_minus_1 }

/-- AVC decoder configuration record (`avc.rs`). -/
structure AvcDecoderConfigurationRecord where
  profile_idc : Nat
  constraint_set_flag : Nat
  level_idc : Nat
  sequence_parameter_set : List Nat
  picture_parameter_set : List Nat
deriving DecidableEq, Repr

/-- `AvcDecoderConfigurationRecord::write_to`: the serialized `avcC`
payload.  Profiles 100/110/122/144 are rejected (after the version byte has
already been emitted; the pure model returns the error without the partial
output, which is indistinguishable to a caller that drops output on error). -/
def AvcDecoderConfigurationRecord.write_to (r : AvcDecoderConfigurationRecord) :
    Except Err (List Nat) := do
  if r.profile_idc = 100 ∨ r.profile_idc = 110 ∨ r.profile_idc = 122 ∨
     r.profile_idc = 144 then .error .unsupported else
  .ok ([1] ++ [r.profile_idc % 256] ++ [r.constraint_set_flag % 256] ++
       [r.level_idc % 256] ++ [0xFF] ++ [0xE1] ++
       beBytes 2 r.sequence_parameter_set.length ++ r.sequence_parameter_set ++
       [0x01] ++
       beBytes 2 r.picture_parameter_set.length ++ r.picture_parameter_set)

/-- NAL unit type (`avc.rs`); unknown values are `InvalidInput`. -/
inductive NalUnitType where
  | codedSliceOfANonIdrPicture
  | codedSliceDataPartitionA
  | codedSliceDataPartitionB
  | codedSliceDataPartitionC
  | codedSliceOfAnIdrPicture
  | supplementalEnhancementInformation
  | sequenceParameterSet
  | pictureParameterSet
  | accessUnitDelimiter
  | endOfSequence
  | endOfStream
  | filterData
  | sequenceParameterSetExtension
  | prefixNalUnit
  | subsetSequenceParameterSet
  | codedSliceOfAnAuxiliaryCodedPictureWithoutPartitioning
  | codedSliceExtension
deriving DecidableEq, Repr

/-- `NalUnitType::from_u8`. -/
def NalUnitType.from_u8 : Nat → Except Err NalUnitType
  | 1 => .ok .codedSliceOfANonIdrPicture
  | 2 => .ok .codedSliceDataPartitionA
  | 3 => .ok .codedSliceDataPartitionB
  | 4 => .ok .codedSliceDataPartitionC
  | 5 => .ok .codedSliceOfAnIdrPicture
  | 6 => .ok .supplementalEnhancementInformation
  | 7 => .ok .sequenceParameterSet
  | 8 => .ok .pictureParameterSet
  | 9 => .ok .accessUnitDelimiter
  | 10 => .ok .endOfSequence
  | 11 => .ok .endOfStream
  | 12 => .ok .filterData
  | 13 => .ok .sequenceParameterSetExtension
  | 14 => .ok .prefixNalUnit
  | 15 => .ok .subsetSequenceParameterSet
  | 19 => .ok .codedSliceOfAnAuxiliaryCodedPictureWithoutPartitioning
  | 20 => .ok .codedSliceExtension
  | _ => .error .invalidInput

/-- NAL unit header (`avc.rs`). -/
structure NalUnit where
  nal_ref_idc : Nat
  nal_unit_type : NalUnitType
deriving DecidableEq, Repr

/-- `NalUnit::read_from`: decodes the one-byte NAL header. -/
def NalUnit.read_from (bytes : List Nat) : Except Err NalUnit := do
  let (b, _) ← readU8 bytes
  let t ← NalUnitType.from_u8 (b &&& 0x1F)
  .ok { nal_ref_idc := (b >>> 5) &&& 0b11, nal_unit_type := t }

/-! ### `avc.rs`: the Annex-B byte-stream splitter -/

/-- One step of the `Iterator::next` scan: walk `i` upward looking for a
4-byte start code first, then a 3-byte one; returns `(end, next_start)`,
defaulting to `(len, len)` when no start code occurs. -/
def nalBoundary : List Nat → Nat × Nat
  | [] => (0, 0)
  | xs@(_ :: rest) =>
    if ([0, 0, 0, 1] : List Nat).isPrefixOf xs then (0, 4)
    else if ([0, 0, 1] : List Nat).isPrefixOf xs then (0, 3)
    else
      let (e, n) := nalBoundary rest
      (e + 1, n + 1)

theorem nalBoundary_pos {bytes : List Nat} (h : bytes ≠ []) :
    0 < (nalBoundary bytes).2 := by
  cases bytes with
  | nil => exact absurd rfl h
  | cons x xs =>
    rw [nalBoundary]
    split
    · exact Nat.succ_pos _
    · split
      · exact Nat.succ_pos _
      · simp only []
        exact Nat.succ_pos _

theorem nalBoundary_le (bytes : List Nat) :
    (nalBoundary bytes).2 ≤ bytes.length := by
  induction bytes with
  | nil => simp [nalBoundary]
  | cons x xs ih =>
    rw [nalBoundary]
    split
    · next hp =>
      have := List.IsPrefix.length_le (List.isPrefixOf_iff_prefix.mp hp)
      simpa using this
    · split
      · next hp =>
        have := List.IsPrefix.length_le (List.isPrefixOf_iff_prefix.mp hp)
        have h3 : (3 : Nat) ≤ (x :: xs).length := by simpa using this
        exact h3
      · simpa using ih

/-- The body of `ByteStreamFormatNalUnits::next` plus the driving loop, with
an explicit fuel argument so the recursion is structural (each iteration of
the Rust loop strictly shrinks the slice, so `length + 1` fuel — what the
wrapper below supplies — is never exhausted; the fuel-out branch is
unreachable then). -/
def nalUnitsFromFuel : Nat → List Nat → List (List Nat)
  | 0, _ => []
  | fuel + 1, bytes =>
    if bytes = [] then []
    else
      bytes.take (nalBoundary bytes).1 ::
        nalUnitsFromFuel fuel (bytes.drop (nalBoundary bytes).2)

/-- Iterator exhaustion of `ByteStreamFormatNalUnits` on an already
unprefixed stream. -/
def nalUnitsFrom (bytes : List Nat) : List (List Nat) :=
  nalUnitsFromFuel (bytes.length + 1) bytes

/-- `ByteStreamFormatNalUnits::new` followed by iterator exhaustion: strips
the leading start code (3-byte checked first) or fails with `InvalidInput`,
then yields all NAL-unit slices. -/
def byteStreamFormatNalUnits (bytes : List Nat) : Except Err (List (List Nat)) :=
  if ([0, 0, 1] : List Nat).isPrefixOf bytes then .ok (nalUnitsFrom (bytes.drop 3))
  else if ([0, 0, 0, 1] : List Nat).isPrefixOf bytes then .ok (nalUnitsFrom (bytes.drop 4))
  else .error .invalidInput

/-! ### `fmp4/common.rs`: the `Mp4Box` trait

Every concrete box supplies a 4-byte type, a payload-size computation,
optional version/flags (either present promotes the box to a full box) and a
payload writer.  `box_size` and `write_box` are the trait's provided
methods, reproduced generically below. -/

/-- `Mp4Box::box_size`: 8 header bytes, plus 4 for a full box, plus the
payload size, accumulated in a `u32` (the `size += ...` additions wrap at
`2^32`). -/
def mp4BoxSize (version flags : Option Nat) (payloadSize : Except Err Nat) :
    Except Err Nat := do
  let p ← payloadSize
  .ok (((if version.isSome || flags.isSome then 12 else 8) + p) % 2 ^ 32)

/-- `Mp4Box::write_box`: total size, type, optional
`version << 24 | flags` word, then the payload. -/
def mp4WriteBox (btype : List Nat) (version flags : Option Nat)
    (payloadSize : Except Err Nat) (payload : Except Err (List Nat)) :
    Except Err (List Nat) := do
  let sz ← mp4BoxSize version flags payloadSize
  let body ← payload
  .ok (beBytes 4 sz ++ btype ++
       (if version.isSome || flags.isSome then
          beBytes 4 ((version.getD 0 <<< 24) ||| flags.getD 0)
        else []) ++ body)

/-- `ByteCounter::calculate`: run a writer against the counting sink and
return the number of bytes it emitted (failures propagate). -/
def byteCounterCalculate (w : Except Err (List Nat)) : Except Err Nat :=
  w.map List.length

/-- Agreement of a `u32` size computation with a writer: whenever the writer
succeeds, the size computation succeeds with the emitted byte count reduced
modulo `2^32` (the sizes are `u32` in the source). -/
def sizeAgrees (size : Except Err Nat) (write : Except Err (List Nat)) : Prop :=
  ∀ bs, write = .ok bs → size = .ok (bs.length % 2 ^ 32)

/-- Congruent agreement: the size computation succeeds with a value congruent
to the byte count modulo `2^32` (the running `u32` sums wrap step by step). -/
def sizeAgreesMod (size : Except Err Nat) (write : Except Err (List Nat)) : Prop :=
  ∀ bs, write = .ok bs → ∃ n, size = .ok n ∧ n % 2 ^ 32 = bs.length % 2 ^ 32

theorem agrees_toMod {s : Except Err Nat} {w : Except Err (List Nat)}
    (h : sizeAgrees s w) : sizeAgreesMod s w := by
  intro bs hb
  exact ⟨bs.length % 2 ^ 32, h bs hb, Nat.mod_mod_of_dvd _ dvd_rfl⟩

/-- `Ok(counter.count() as u32)`: a dry run against the byte-counting sink,
truncated from the counter's `u64` to `u32`. -/
theorem dryRun_agrees (w : Except Err (List Nat)) :
    sizeAgrees (do let size ← byteCounterCalculate w; .ok (size % 2 ^ 32)) w := by
  intro bs h
  simp [byteCounterCalculate, h, Except.map, Bind.bind, Except.bind]

theorem mp4Box_agrees {btype : List Nat} {version flags : Option Nat}
    {pSize : Except Err Nat} {pW : Except Err (List Nat)}
    (ht : btype.length = 4) (hp : sizeAgrees pSize pW) :
    sizeAgrees (mp4BoxSize version flags pSize)
      (mp4WriteBox btype version flags pSize pW) := by
  intro bs h
  rw [mp4WriteBox] at h
  cases hsz : mp4BoxSize version flags pSize with
  | error e => rw [hsz] at h; simp [Bind.bind, Except.bind] at h
  | ok sz =>
    rw [hsz] at h
    cases hw : pW with
    | error e => rw [hw] at h; simp [Bind.bind, Except.bind] at h
    | ok body =>
      rw [hw] at h
      simp only [Bind.bind, Except.bind, Except.ok.injEq] at h
      have hps := hp body hw
      simp only [mp4BoxSize, hps, Bind.bind, Except.bind, Except.ok.injEq] at hsz
      simp only [mp4BoxSize, hps, Bind.bind, Except.bind, Except.ok.injEq]
      subst h
      by_cases hfull : version.isSome = true ∨ flags.isSome = true
      · simp [hfull, beBytes_length, ht] at hsz ⊢
        omega
      · simp [hfull, beBytes_length, ht] at hsz ⊢
        omega

/-- Sequential serialization of a list of boxes (`write_boxes!`). -/
def writeBoxList (f : α → Except Err (List Nat)) : List α → Except Err (List Nat)
  | [] => .ok []
  | x :: xs => do
    let b ← f x
    let r ← writeBoxList f xs
    .ok (b ++ r)

/-- Summed sizes of a list of boxes (`boxes_size!`). -/
def boxSizeList (g : α → Except Err Nat) : List α → Except Err Nat
  | [] => .ok 0
  | x :: xs => do
    let n ← g x
    let m ← boxSizeList g xs
    .ok (n + m)

theorem boxList_agrees {f : α → Except Err (List Nat)} {g : α → Except Err Nat}
    {l : List α} (h : ∀ a ∈ l, sizeAgrees (g a) (f a)) :
    sizeAgreesMod (boxSizeList g l) (writeBoxList f l) := by
  induction l with
  | nil =>
    intro bs hb
    simp [writeBoxList] at hb
    exact ⟨0, rfl, by simp [hb]⟩
  | cons x xs ih =>
    intro bs hb
    rw [writeBoxList] at hb
    cases hx : f x with
    | error e => rw [hx] at hb; simp [Bind.bind, Except.bind] at hb
    | ok b =>
      rw [hx] at hb
      cases hxs : writeBoxList f xs with
      | error e => rw [hxs] at hb; simp [Bind.bind, Except.bind] at hb
      | ok r =>
        rw [hxs] at hb
        simp only [Bind.bind, Except.bind, Except.ok.injEq] at hb
        have h1 := h x (List.mem_cons_self x xs) b hx
        obtain ⟨n2, hs2, hm2⟩ := ih (fun a ha => h a (List.mem_cons_of_mem _ ha)) r hxs
        refine ⟨b.length % 2 ^ 32 + n2, ?_, ?_⟩
        · rw [boxSizeList, h1, hs2]
          simp [Bind.bind, Except.bind]
        · rw [← hb]
          simp only [List.length_append]
          omega

/-- Serialization of an optional child box (`optional_box_size!` /
the `if let Some` write). -/
def writeOptBox (f : α → Except Err (List Nat)) : Option α → Except Err (List Nat)
  | none => .ok []
  | some x => f x

/-- Size of an optional child box. -/
def optBoxSize (g : α → Except Err Nat) : Option α → Except Err Nat
  | none => .ok 0
  | some x => g x

theorem optBox_agrees {f : α → Except Err (List Nat)} {g : α → Except Err Nat}
    {o : Option α} (h : ∀ a, o = some a → sizeAgrees (g a) (f a)) :
    sizeAgreesMod (optBoxSize g o) (writeOptBox f o) := by
  cases o with
  | none =>
    intro bs hb
    simp [writeOptBox] at hb
    exact ⟨0, rfl, by simp [hb]⟩
  | some x => exact agrees_toMod (h x rfl)

/-! ### `fmp4/mod.rs` track-id constants

Modelled from the spec: the crate's `fmp4` module root (which re-exports the
box types and defines the two track-id constants) is not among the sources;
spec §3 fixes the identities: video track id 1, audio track id 2. -/

/-- Modelled from the spec: `VIDEO_TRACK_ID`. -/
def VIDEO_TRACK_ID : Nat := 1

/-- Modelled from the spec: `AUDIO_TRACK_ID`. -/
def AUDIO_TRACK_ID : Nat := 2

/-! ### `fmp4/media.rs`: media-segment boxes -/

/-- Sample flags (`fmp4/media.rs`); the misspelled field name
`sample_is_depdended_on` is the source's. -/
structure SampleFlags where
  is_leading : Nat
  sample_depends_on : Nat
  sample_is_depdended_on : Nat
  sample_has_redundancy : Nat
  sample_padding_value : Nat
  sample_is_non_sync_sample : Bool
  sample_degradation_priority : Nat
deriving DecidableEq, Repr

/-- `SampleFlags::to_u32`. -/
def SampleFlags.to_u32 (f : SampleFlags) : Nat :=
  (f.is_leading <<< 26) ||| (f.sample_depends_on <<< 24) |||
  (f.sample_is_depdended_on <<< 22) ||| (f.sample_has_redundancy <<< 20) |||
  (f.sample_padding_value <<< 17) |||
  ((if f.sample_is_non_sync_sample then 1 else 0) <<< 16) |||
  f.sample_degradation_priority

/-- A `trun` sample (`fmp4/media.rs`): four optional fields. -/
structure Sample where
  duration : Option Nat
  size : Option Nat
  flags : Option SampleFlags
  composition_time_offset : Option Int
deriving DecidableEq, Repr

/-- `Sample::default()`: all fields absent. -/
def Sample.default : Sample :=
  { duration := none, size := none, flags := none, composition_time_offset := none }

/-- `Sample::to_box_flags`: which optional fields are present, as `trun`
flag bits. -/
def Sample.to_box_flags (s : Sample) : Nat :=
  (if s.duration.isSome then 0x000100 else 0) |||
  (if s.size.isSome then 0x000200 else 0) |||
  (if s.flags.isSome then 0x000400 else 0) |||
  (if s.composition_time_offset.isSome then 0x000800 else 0)

/-- Field bytes of one `trun` sample row. -/
def sampleFieldBytes (s : Sample) : List Nat :=
  (match s.duration with | some x => beBytes 4 x | none => []) ++
  (match s.size with | some x => beBytes 4 x | none => []) ++
  (match s.flags with | some x => beBytes 4 x.to_u32 | none => []) ++
  (match s.composition_time_offset with | some x => i32be x | none => [])

/-- The `trun` sample loop: every sample's field-presence mask must equal
`mask` (the first sample's mask), else `InvalidInput`. -/
def trunSampleRows (mask : Nat) : List Sample → Except Err (List Nat)
  | [] => .ok []
  | s :: rest =>
    if s.to_box_flags ≠ mask then .error .invalidInput
    else do
      let r ← trunSampleRows mask rest
      .ok (sampleFieldBytes s ++ r)

/-- 8.8.8 Track Fragment Run Box. -/
structure TrackRunBox where
  data_offset : Option Int
  first_sample_flags : Option SampleFlags
  samples : List Sample
deriving DecidableEq, Repr

/-- `TrackRunBox::default()`. -/
def TrackRunBox.default : TrackRunBox :=
  { data_offset := none, first_sample_flags := none, samples := [] }

/-- `TrackRunBox::box_flags`: presence bits from `data_offset`,
`first_sample_flags` and the first sample (or a default sample). -/
def TrackRunBox.box_flags (t : TrackRunBox) : Nat :=
  (if t.data_offset.isSome then 1 else 0) |||
  (if t.first_sample_flags.isSome then 0x000004 else 0) |||
  (t.samples.head?.getD Sample.default).to_box_flags

/-- `TrackRunBox::write_box_payload`. -/
def TrackRunBox.write_box_payload (t : TrackRunBox) : Except Err (List Nat) := do
  let rows ← (match t.samples with
    | [] => .ok []
    | s :: rest => trunSampleRows s.to_box_flags (s :: rest))
  .ok (beBytes 4 t.samples.length ++
       (match t.data_offset with | some x => i32be x | none => []) ++
       (match t.first_sample_flags with | some x => beBytes 4 x.to_u32 | none => []) ++
       rows)

/-- `TrackRunBox::box_payload_size` (dry run against the byte counter). -/
def TrackRunBox.box_payload_size (t : TrackRunBox) : Except Err Nat := do
  let size ← byteCounterCalculate t.write_box_payload
  .ok (size % 2 ^ 32)

/-- `TrackRunBox::box_size`. -/
def TrackRunBox.box_size (t : TrackRunBox) : Except Err Nat :=
  mp4BoxSize (some 1) (some t.box_flags) t.box_payload_size

/-- `TrackRunBox::write_box`. -/
def TrackRunBox.write_box (t : TrackRunBox) : Except Err (List Nat) :=
  mp4WriteBox [116, 114, 117, 110] (some 1) (some t.box_flags)
    t.box_payload_size t.write_box_payload

/-- 8.8.7 Track Fragment Header Box. -/
structure TrackFragmentHeaderBox where
  track_id : Nat
  duration_is_empty : Bool
  default_base_is_moof : Bool
  base_data_offset : Option Nat
  sample_description_index : Option Nat
  default_sample_duration : Option Nat
  default_sample_size : Option Nat
  default_sample_flags : Option SampleFlags
deriving DecidableEq, Repr

/-- `TrackFragmentHeaderBox::new`. -/
def TrackFragmentHeaderBox.new (track_id : Nat) : TrackFragmentHeaderBox :=
  { track_id, duration_is_empty := false, default_base_is_moof := true,
    base_data_offset := none, sample_description_index := none,
    default_sample_duration := none, default_sample_size := none,
    default_sample_flags := none }

/-- `TrackFragmentHeaderBox::box_flags`. -/
def TrackFragmentHeaderBox.box_flags (t : TrackFragmentHeaderBox) : Nat :=
  (if t.base_data_offset.isSome then 1 else 0) |||
  (if t.sample_description_index.isSome then 0x000002 else 0) |||
  (if t.default_sample_duration.isSome then 0x000008 else 0) |||
  (if t.default_sample_size.isSome then 0x000010 else 0) |||
  (if t.default_sample_flags.isSome then 0x000020 else 0) |||
  (if t.duration_is_empty then 0x010000 else 0) |||
  (if t.default_base_is_moof then 0x020000 else 0)

/-- `TrackFragmentHeaderBox::write_box_payload`. -/
def TrackFragmentHeaderBox.write_box_payload (t : TrackFragmentHeaderBox) :
    Except Err (List Nat) :=
  .ok (beBytes 4 t.track_id ++
       (match t.base_data_offset with | some x => beBytes 8 x | none => []) ++
       (match t.sample_description_index with | some x => beBytes 4 x | none => []) ++
       (match t.default_sample_duration with | some x => beBytes 4 x | none => []) ++
       (match t.default_sample_size with | some x => beBytes 4 x | none => []) ++
       (match t.default_sample_flags with | some x => beBytes 4 x.to_u32 | none => []))

/-- `TrackFragmentHeaderBox::box_payload_size` (dry run). -/
def TrackFragmentHeaderBox.box_payload_size (t : TrackFragmentHeaderBox) :
    Except Err Nat := do
  let size ← byteCounterCalculate t.write_box_payload
  .ok (size % 2 ^ 32)

/-- `TrackFragmentHeaderBox::box_size` (full box via flags alone). -/
def TrackFragmentHeaderBox.box_size (t : TrackFragmentHeaderBox) : Except Err Nat :=
  mp4BoxSize none (some t.box_flags) t.box_payload_size

/-- `TrackFragmentHeaderBox::write_box`. -/
def TrackFragmentHeaderBox.write_box (t : TrackFragmentHeaderBox) :
    Except Err (List Nat) :=
  mp4WriteBox [116, 102, 104, 100] none (some t.box_flags)
    t.box_payload_size t.write_box_payload

/-- 8.8.12 Track fragment decode time (a unit struct; the payload is the
constant `base_media_decode_time = 0`). -/
structure TrackFragmentBaseMediaDecodeTimeBox where
deriving DecidableEq, Repr

/-- `TrackFragmentBaseMediaDecodeTimeBox::box_payload_size`. -/
def TrackFragmentBaseMediaDecodeTimeBox.box_payload_size
    (_ : TrackFragmentBaseMediaDecodeTimeBox) : Except Err Nat := .ok 4

/-- `TrackFragmentBaseMediaDecodeTimeBox::write_box_payload`. -/
def TrackFragmentBaseMediaDecodeTimeBox.write_box_payload
    (_ : TrackFragmentBaseMediaDecodeTimeBox) : Except Err (List Nat) :=
  .ok (beBytes 4 0)

/-- `TrackFragmentBaseMediaDecodeTimeBox::box_size`. -/
def TrackFragmentBaseMediaDecodeTimeBox.box_size
    (t : TrackFragmentBaseMediaDecodeTimeBox) : Except Err Nat :=
  mp4BoxSize (some 0) none t.box_payload_size

/-- `TrackFragmentBaseMediaDecodeTimeBox::write_box`. -/
def TrackFragmentBaseMediaDecodeTimeBox.write_box
    (t : TrackFragmentBaseMediaDecodeTimeBox) : Except Err (List Nat) :=
  mp4WriteBox [116, 102, 100, 116] (some 0) none
    t.box_payload_size t.write_box_payload

/-- 8.8.6 Track Fragment Box. -/
structure TrackFragmentBox where
  tfhd_box : TrackFragmentHeaderBox
  tfdt_box : TrackFragmentBaseMediaDecodeTimeBox
  trun_box : TrackRunBox
deriving DecidableEq, Repr

/-- `TrackFragmentBox::new`. -/
def TrackFragmentBox.new (is_video : Bool) : TrackFragmentBox :=
  { tfhd_box := TrackFragmentHeaderBox.new
      (if is_video then VIDEO_TRACK_ID else AUDIO_TRACK_ID),
    tfdt_box := {},
    trun_box := TrackRunBox.default }

/-- `TrackFragmentBox::box_payload_size`. -/
def TrackFragmentBox.box_payload_size (t : TrackFragmentBox) : Except Err Nat := do
  let a ← t.tfhd_box.box_size
  let b ← t.tfdt_box.box_size
  let c ← t.trun_box.box_size
  .ok ((a + b + c) % 2 ^ 32)

/-- `TrackFragmentBox::write_box_payload`. -/
def TrackFragmentBox.write_box_payload (t : TrackFragmentBox) :
    Except Err (List Nat) := do
  let a ← t.tfhd_box.write_box
  let b ← t.tfdt_box.write_box
  let c ← t.trun_box.write_box
  .ok (a ++ b ++ c)

/-- `TrackFragmentBox::box_size`. -/
def TrackFragmentBox.box_size (t : TrackFragmentBox) : Except Err Nat :=
  mp4BoxSize none none t.box_payload_size

/-- `TrackFragmentBox::write_box`. -/
def TrackFragmentBox.write_box (t : TrackFragmentBox) : Except Err (List Nat) :=
  mp4WriteBox [116, 114, 97, 102] none none
    t.box_payload_size t.write_box_payload

/-- 8.8.5 Movie Fragment Header Box. -/
structure MovieFragmentHeaderBox where
  sequence_number : Nat
deriving DecidableEq, Repr

/-- `MovieFragmentHeaderBox::default()`: sequence number 1. -/
def MovieFragmentHeaderBox.default : MovieFragmentHeaderBox :=
  { sequence_number := 1 }

/-- `MovieFragmentHeaderBox::box_payload_size`. -/
def MovieFragmentHeaderBox.box_payload_size (_ : MovieFragmentHeaderBox) :
    Except Err Nat := .ok 4

/-- `MovieFragmentHeaderBox::write_box_payload`. -/
def MovieFragmentHeaderBox.write_box_payload (m : MovieFragmentHeaderBox) :
    Except Err (List Nat) := .ok (beBytes 4 m.sequence_number)

/-- `MovieFragmentHeaderBox::box_size`. -/
def MovieFragmentHeaderBox.box_size (m : MovieFragmentHeaderBox) : Except Err Nat :=
  mp4BoxSize (some 0) none m.box_payload_size

/-- `MovieFragmentHeaderBox::write_box`. -/
def MovieFragmentHeaderBox.write_box (m : MovieFragmentHeaderBox) :
    Except Err (List Nat) :=
  mp4WriteBox [109, 102, 104, 100] (some 0) none
    m.box_payload_size m.write_box_payload

/-- 8.8.4 Movie Fragment Box. -/
structure MovieFragmentBox where
  mfhd_box : MovieFragmentHeaderBox
  traf_boxes : List TrackFragmentBox
deriving DecidableEq, Repr

/-- `MovieFragmentBox::default()`. -/
def MovieFragmentBox.default : MovieFragmentBox :=
  { mfhd_box := MovieFragmentHeaderBox.default, traf_boxes := [] }

/-- `MovieFragmentBox::box_payload_size`. -/
def MovieFragmentBox.box_payload_size (m : MovieFragmentBox) : Except Err Nat := do
  let a ← m.mfhd_box.box_size
  let b ← boxSizeList TrackFragmentBox.box_size m.traf_boxes
  .ok ((a + b) % 2 ^ 32)

/-- `MovieFragmentBox::write_box_payload` (requires at least one `traf`). -/
def MovieFragmentBox.write_box_payload (m : MovieFragmentBox) :
    Except Err (List Nat) := do
  if m.traf_boxes.isEmpty then .error .invalidInput else do
  let a ← m.mfhd_box.write_box
  let b ← writeBoxList TrackFragmentBox.write_box m.traf_boxes
  .ok (a ++ b)

/-- `MovieFragmentBox::box_size`. -/
def MovieFragmentBox.box_size (m : MovieFragmentBox) : Except Err Nat :=
  mp4BoxSize none none m.box_payload_size

/-- `MovieFragmentBox::write_box`. -/
def MovieFragmentBox.write_box (m : MovieFragmentBox) : Except Err (List Nat) :=
  mp4WriteBox [109, 111, 111, 102] none none
    m.box_payload_size m.write_box_payload

/-- 8.1.1 Media Data Box. -/
structure MediaDataBox where
  data : List Nat
deriving DecidableEq, Repr

/-- `MediaDataBox::box_payload_size`. -/
def MediaDataBox.box_payload_size (m : MediaDataBox) : Except Err Nat :=
  .ok (m.data.length % 2 ^ 32)

/-- `MediaDataBox::write_box_payload`. -/
def MediaDataBox.write_box_payload (m : MediaDataBox) : Except Err (List Nat) :=
  .ok m.data

/-- `MediaDataBox::box_size`. -/
def MediaDataBox.box_size (m : MediaDataBox) : Except Err Nat :=
  mp4BoxSize none none m.box_payload_size

/-- `MediaDataBox::write_box`. -/
def MediaDataBox.write_box (m : MediaDataBox) : Except Err (List Nat) :=
  mp4WriteBox [109, 100, 97, 116] none none
    m.box_payload_size m.write_box_payload

/-- Media segment (`fmp4/media.rs`): one `moof` plus the `mdat` run. -/
structure MediaSegment where
  moof_box : MovieFragmentBox
  mdat_boxes : List MediaDataBox
deriving DecidableEq, Repr

/-- `MediaSegment::default()`. -/
def MediaSegment.default : MediaSegment :=
  { moof_box := MovieFragmentBox.default, mdat_boxes := [] }

/-! ### `fmp4/initialization.rs`: initialization-segment boxes -/

/-- Zero padding (`write_zeroes!`). -/
def zeroes (k : Nat) : List Nat := List.replicate k 0

theorem zeroes_length (k : Nat) : (zeroes k).length = k := List.length_replicate k 0

/-- 4.3 File Type Box (a unit struct; major brand `isom`, minor version
512). -/
structure FileTypeBox where
deriving DecidableEq, Repr

/-- `FileTypeBox::box_payload_size`. -/
def FileTypeBox.box_payload_size (_ : FileTypeBox) : Except Err Nat := .ok 8

/-- `FileTypeBox::write_box_payload`. -/
def FileTypeBox.write_box_payload (_ : FileTypeBox) : Except Err (List Nat) :=
  .ok ([105, 115, 111, 109] ++ beBytes 4 512)

/-- `FileTypeBox::box_size`. -/
def FileTypeBox.box_size (b : FileTypeBox) : Except Err Nat :=
  mp4BoxSize none none b.box_payload_size

/-- `FileTypeBox::write_box`. -/
def FileTypeBox.write_box (b : FileTypeBox) : Except Err (List Nat) :=
  mp4WriteBox [102, 116, 121, 112] none none b.box_payload_size b.write_box_payload

/-- 8.8.2 Movie Extends Header Box. -/
structure MovieExtendsHeaderBox where
  fragment_duration : Nat
deriving DecidableEq, Repr

/-- `MovieExtendsHeaderBox::box_payload_size`. -/
def MovieExtendsHeaderBox.box_payload_size (_ : MovieExtendsHeaderBox) :
    Except Err Nat := .ok 4

/-- `MovieExtendsHeaderBox::write_box_payload`. -/
def MovieExtendsHeaderBox.write_box_payload (b : MovieExtendsHeaderBox) :
    Except Err (List Nat) := .ok (beBytes 4 b.fragment_duration)

/-- `MovieExtendsHeaderBox::box_size`. -/
def MovieExtendsHeaderBox.box_size (b : MovieExtendsHeaderBox) : Except Err Nat :=
  mp4BoxSize (some 0) none b.box_payload_size

/-- `MovieExtendsHeaderBox::write_box`. -/
def MovieExtendsHeaderBox.write_box (b : MovieExtendsHeaderBox) :
    Except Err (List Nat) :=
  mp4WriteBox [109, 101, 104, 100] (some 0) none
    b.box_payload_size b.write_box_payload

/-- 8.8.3 Track Extends Box. -/
structure TrackExtendsBox where
  track_id : Nat
  default_sample_description_index : Nat
  default_sample_duration : Nat
  default_sample_size : Nat
  default_sample_flags : Nat
deriving DecidableEq, Repr

/-- `TrackExtendsBox::new`. -/
def TrackExtendsBox.new (is_video : Bool) : TrackExtendsBox :=
  { track_id := if is_video then VIDEO_TRACK_ID else AUDIO_TRACK_ID,
    default_sample_description_index := 1,
    default_sample_duration := 0,
    default_sample_size := 0,
    default_sample_flags := 0 }

/-- `TrackExtendsBox::box_payload_size` (`4 * 5`). -/
def TrackExtendsBox.box_payload_size (_ : TrackExtendsBox) : Except Err Nat :=
  .ok (4 * 5)

/-- `TrackExtendsBox::write_box_payload`. -/
def TrackExtendsBox.write_box_payload (b : TrackExtendsBox) :
    Except Err (List Nat) :=
  .ok (beBytes 4 b.track_id ++ beBytes 4 b.default_sample_description_index ++
       beBytes 4 b.default_sample_duration ++ beBytes 4 b.default_sample_size ++
       beBytes 4 b.default_sample_flags)

/-- `TrackExtendsBox::box_size`. -/
def TrackExtendsBox.box_size (b : TrackExtendsBox) : Except Err Nat :=
  mp4BoxSize (some 0) none b.box_payload_size

/-- `TrackExtendsBox::write_box`. -/
def TrackExtendsBox.write_box (b : TrackExtendsBox) : Except Err (List Nat) :=
  mp4WriteBox [116, 114, 101, 120] (some 0) none
    b.box_payload_size b.write_box_payload

/-- The identity transformation matrix written by `mvhd` and `tkhd`. -/
def matrixBytes : List Nat :=
  ([0x10000, 0, 0, 0, 0x10000, 0, 0, 0, 0x40000000].map (beBytes 4)).flatten

/-- 8.2.2 Movie Header Box. -/
structure MovieHeaderBox where
  timescale : Nat
  duration : Nat
deriving DecidableEq, Repr

/-- `MovieHeaderBox::default()`. -/
def MovieHeaderBox.default : MovieHeaderBox := { timescale := 1, duration := 1 }

/-- `MovieHeaderBox::write_box_payload`. -/
def MovieHeaderBox.write_box_payload (b : MovieHeaderBox) :
    Except Err (List Nat) :=
  .ok (beBytes 4 0 ++ beBytes 4 0 ++ beBytes 4 b.timescale ++
       beBytes 4 b.duration ++ i32be 0x10000 ++ i16be 256 ++ zeroes 2 ++
       zeroes (4 * 2) ++ matrixBytes ++ zeroes (4 * 6) ++ beBytes 4 0xFFFFFFFF)

/-- `MovieHeaderBox::box_payload_size` (dry run). -/
def MovieHeaderBox.box_payload_size (b : MovieHeaderBox) : Except Err Nat := do
  let size ← byteCounterCalculate b.write_box_payload
  .ok (size % 2 ^ 32)

/-- `MovieHeaderBox::box_size`. -/
def MovieHeaderBox.box_size (b : MovieHeaderBox) : Except Err Nat :=
  mp4BoxSize (some 0) none b.box_payload_size

/-- `MovieHeaderBox::write_box`. -/
def MovieHeaderBox.write_box (b : MovieHeaderBox) : Except Err (List Nat) :=
  mp4WriteBox [109, 118, 104, 100] (some 0) none
    b.box_payload_size b.write_box_payload

/-- 8.3.2 Track Header Box. -/
structure TrackHeaderBox where
  track_id : Nat
  duration : Nat
  volume : Int
  width : Nat
  height : Nat
deriving DecidableEq, Repr

/-- `TrackHeaderBox::new`. -/
def TrackHeaderBox.new (is_video : Bool) : TrackHeaderBox :=
  { track_id := if is_video then VIDEO_TRACK_ID else AUDIO_TRACK_ID,
    duration := 1,
    volume := if is_video then 0 else 256,
    width := 0,
    height := 0 }

/-- `TrackHeaderBox::box_flags`: enabled, in movie, in preview. -/
def TrackHeaderBox.box_flags (_ : TrackHeaderBox) : Nat := 0x000001 ||| 0x000002 ||| 0x000004

/-- `TrackHeaderBox::write_box_payload`. -/
def TrackHeaderBox.write_box_payload (b : TrackHeaderBox) :
    Except Err (List Nat) :=
  .ok (beBytes 4 0 ++ beBytes 4 0 ++ beBytes 4 b.track_id ++ zeroes 4 ++
       beBytes 4 b.duration ++ zeroes (4 * 2) ++ i16be 0 ++ i16be 0 ++
       i16be b.volume ++ zeroes 2 ++ matrixBytes ++
       beBytes 4 b.width ++ beBytes 4 b.height)

/-- `TrackHeaderBox::box_payload_size` (dry run). -/
def TrackHeaderBox.box_payload_size (b : TrackHeaderBox) : Except Err Nat := do
  let size ← byteCounterCalculate b.write_box_payload
  .ok (size % 2 ^ 32)

/-- `TrackHeaderBox::box_size`. -/
def TrackHeaderBox.box_size (b : TrackHeaderBox) : Except Err Nat :=
  mp4BoxSize (some 0) (some b.box_flags) b.box_payload_size

/-- `TrackHeaderBox::write_box`. -/
def TrackHeaderBox.write_box (b : TrackHeaderBox) : Except Err (List Nat) :=
  mp4WriteBox [116, 107, 104, 100] (some 0) (some b.box_flags)
    b.box_payload_size b.write_box_payload

/-- 8.6.6 Edit List Box (single entry; only `media_time` varies). -/
structure EditListBox where
  media_time : Int
deriving DecidableEq, Repr

/-- `EditListBox::default()`. -/
def EditListBox.default : EditListBox := { media_time := 0 }

/-- `EditListBox::box_payload_size` (`4 + 4 + 4 + 2 + 2`). -/
def EditListBox.box_payload_size (_ : EditListBox) : Except Err Nat :=
  .ok (4 + 4 + 4 + 2 + 2)

/-- `EditListBox::write_box_payload`. -/
def EditListBox.write_box_payload (b : EditListBox) : Except Err (List Nat) :=
  .ok (beBytes 4 1 ++ beBytes 4 0 ++ i32be b.media_time ++ i16be 1 ++ i16be 0)

/-- `EditListBox::box_size`. -/
def EditListBox.box_size (b : EditListBox) : Except Err Nat :=
  mp4BoxSize (some 0) none b.box_payload_size

/-- `EditListBox::write_box`. -/
def EditListBox.write_box (b : EditListBox) : Except Err (List Nat) :=
  mp4WriteBox [101, 108, 115, 116] (some 0) none
    b.box_payload_size b.write_box_payload

/-- 8.6.5 Edit Box. -/
structure EditBox where
  elst_box : EditListBox
deriving DecidableEq, Repr

/-- `EditBox::default()`. -/
def EditBox.default : EditBox := { elst_box := EditListBox.default }

/-- `EditBox::box_payload_size`. -/
def EditBox.box_payload_size (b : EditBox) : Except Err Nat :=
  b.elst_box.box_size

/-- `EditBox::write_box_payload`. -/
def EditBox.write_box_payload (b : EditBox) : Except Err (List Nat) :=
  b.elst_box.write_box

/-- `EditBox::box_size`. -/
def EditBox.box_size (b : EditBox) : Except Err Nat :=
  mp4BoxSize none none b.box_payload_size

/-- `EditBox::write_box`. -/
def EditBox.write_box (b : EditBox) : Except Err (List Nat) :=
  mp4WriteBox [101, 100, 116, 115] none none
    b.box_payload_size b.write_box_payload

/-- 8.4.2 Media Header Box. -/
structure MediaHeaderBox where
  timescale : Nat
  duration : Nat
deriving DecidableEq, Repr

/-- `MediaHeaderBox::default()`. -/
def MediaHeaderBox.default : MediaHeaderBox := { timescale := 0, duration := 1 }

/-- `MediaHeaderBox::box_payload_size` (`4 + 4 + 4 + 4 + 2 + 2`). -/
def MediaHeaderBox.box_payload_size (_ : MediaHeaderBox) : Except Err Nat :=
  .ok (4 + 4 + 4 + 4 + 2 + 2)

/-- `MediaHeaderBox::write_box_payload`. -/
def MediaHeaderBox.write_box_payload (b : MediaHeaderBox) :
    Except Err (List Nat) :=
  .ok (beBytes 4 0 ++ beBytes 4 0 ++ beBytes 4 b.timescale ++
       beBytes 4 b.duration ++ beBytes 2 0x55c4 ++ zeroes 2)

/-- `MediaHeaderBox::box_size`. -/
def MediaHeaderBox.box_size (b : MediaHeaderBox) : Except Err Nat :=
  mp4BoxSize (some 0) none b.box_payload_size

/-- `MediaHeaderBox::write_box`. -/
def MediaHeaderBox.write_box (b : MediaHeaderBox) : Except Err (List Nat) :=
  mp4WriteBox [109, 100, 104, 100] (some 0) none
    b.box_payload_size b.write_box_payload

/-- 8.4.3 Handler Reference Box: the handler type and a nul-terminated
name (a `CString`, so `name` holds no interior zero byte). -/
structure HandlerReferenceBox where
  handler_type : List Nat
  name : List Nat
deriving DecidableEq, Repr

/-- `HandlerReferenceBox::new`: `vide`/“Video Handler” or
`soun`/“Sound Handler”. -/
def HandlerReferenceBox.new (is_video : Bool) : HandlerReferenceBox :=
  if is_video then
    { handler_type := [118, 105, 100, 101],
      name := [86, 105, 100, 101, 111, 32, 72, 97, 110, 100, 108, 101, 114] }
  else
    { handler_type := [115, 111, 117, 110],
      name := [83, 111, 117, 110, 100, 32, 72, 97, 110, 100, 108, 101, 114] }

/-- `HandlerReferenceBox::write_box_payload` (name bytes with trailing
nul). -/
def HandlerReferenceBox.write_box_payload (b : HandlerReferenceBox) :
    Except Err (List Nat) :=
  .ok (zeroes 4 ++ b.handler_type ++ zeroes (4 * 3) ++ b.name ++ [0])

/-- `HandlerReferenceBox::box_payload_size` (dry run). -/
def HandlerReferenceBox.box_payload_size (b : HandlerReferenceBox) :
    Except Err Nat := do
  let size ← byteCounterCalculate b.write_box_payload
  .ok (size % 2 ^ 32)

/-- `HandlerReferenceBox::box_size`. -/
def HandlerReferenceBox.box_size (b : HandlerReferenceBox) : Except Err Nat :=
  mp4BoxSize (some 0) none b.box_payload_size

/-- `HandlerReferenceBox::write_box`. -/
def HandlerReferenceBox.write_box (b : HandlerReferenceBox) :
    Except Err (List Nat) :=
  mp4WriteBox [104, 100, 108, 114] (some 0) none
    b.box_payload_size b.write_box_payload

/-- 12.1.2 Video media header (unit struct, flags 1, not versioned). -/
structure VideoMediaHeaderBox where
deriving DecidableEq, Repr

/-- `VideoMediaHeaderBox::box_payload_size` (`2 + 2 * 3`). -/
def VideoMediaHeaderBox.box_payload_size (_ : VideoMediaHeaderBox) :
    Except Err Nat := .ok (2 + 2 * 3)

/-- `VideoMediaHeaderBox::write_box_payload`. -/
def VideoMediaHeaderBox.write_box_payload (_ : VideoMediaHeaderBox) :
    Except Err (List Nat) :=
  .ok (beBytes 2 0 ++ zeroes (2 * 3))

/-- `VideoMediaHeaderBox::box_size`. -/
def VideoMediaHeaderBox.box_size (b : VideoMediaHeaderBox) : Except Err Nat :=
  mp4BoxSize none (some 1) b.box_payload_size

/-- `VideoMediaHeaderBox::write_box`. -/
def VideoMediaHeaderBox.write_box (b : VideoMediaHeaderBox) :
    Except Err (List Nat) :=
  mp4WriteBox [118, 109, 104, 100] none (some 1)
    b.box_payload_size b.write_box_payload

/-- 12.2.2 Sound media header (unit struct, version 0). -/
structure SoundMediaHeaderBox where
deriving DecidableEq, Repr

/-- `SoundMediaHeaderBox::box_payload_size` (`2 + 2`). -/
def SoundMediaHeaderBox.box_payload_size (_ : SoundMediaHeaderBox) :
    Except Err Nat := .ok (2 + 2)

/-- `SoundMediaHeaderBox::write_box_payload`. -/
def SoundMediaHeaderBox.write_box_payload (_ : SoundMediaHeaderBox) :
    Except Err (List Nat) :=
  .ok (i16be 0 ++ zeroes 2)

/-- `SoundMediaHeaderBox::box_size`. -/
def SoundMediaHeaderBox.box_size (b : SoundMediaHeaderBox) : Except Err Nat :=
  mp4BoxSize (some 0) none b.box_payload_size

/-- `SoundMediaHeaderBox::write_box`. -/
def SoundMediaHeaderBox.write_box (b : SoundMediaHeaderBox) :
    Except Err (List Nat) :=
  mp4WriteBox [115, 109, 104, 100] (some 0) none
    b.box_payload_size b.write_box_payload

/-- 8.7.2.2 Data Entry Url Box (unit struct; flags 1, null location). -/
structure DataEntryUrlBox where
deriving DecidableEq, Repr

/-- `DataEntryUrlBox::box_payload_size`. -/
def DataEntryUrlBox.box_payload_size (_ : DataEntryUrlBox) : Except Err Nat :=
  .ok 0

/-- `DataEntryUrlBox::write_box_payload`. -/
def DataEntryUrlBox.write_box_payload (_ : DataEntryUrlBox) :
    Except Err (List Nat) := .ok []

/-- `DataEntryUrlBox::box_size`. -/
def DataEntryUrlBox.box_size (b : DataEntryUrlBox) : Except Err Nat :=
  mp4BoxSize none (some 0x000001) b.box_payload_size

/-- `DataEntryUrlBox::write_box`. -/
def DataEntryUrlBox.write_box (b : DataEntryUrlBox) : Except Err (List Nat) :=
  mp4WriteBox [117, 114, 108, 32] none (some 0x000001)
    b.box_payload_size b.write_box_payload

/-- 8.7.2 Data Reference Box. -/
structure DataReferenceBox where
  url_box : DataEntryUrlBox
deriving DecidableEq, Repr

/-- `DataReferenceBox::default()`. -/
def DataReferenceBox.default : DataReferenceBox := { url_box := {} }

/-- `DataReferenceBox::box_payload_size` (`4` plus the url box). -/
def DataReferenceBox.box_payload_size (b : DataReferenceBox) : Except Err Nat := do
  let u ← b.url_box.box_size
  .ok ((4 + u) % 2 ^ 32)

/-- `DataReferenceBox::write_box_payload` (entry count 1, then the url
box). -/
def DataReferenceBox.write_box_payload (b : DataReferenceBox) :
    Except Err (List Nat) := do
  let u ← b.url_box.write_box
  .ok (beBytes 4 1 ++ u)

/-- `DataReferenceBox::box_size`. -/
def DataReferenceBox.box_size (b : DataReferenceBox) : Except Err Nat :=
  mp4BoxSize (some 0) none b.box_payload_size

/-- `DataReferenceBox::write_box`. -/
def DataReferenceBox.write_box (b : DataReferenceBox) : Except Err (List Nat) :=
  mp4WriteBox [100, 114, 101, 102] (some 0) none
    b.box_payload_size b.write_box_payload

/-- 8.7.1 Data Information Box. -/
structure DataInformationBox where
  dref_box : DataReferenceBox
deriving DecidableEq, Repr

/-- `DataInformationBox::default()`. -/
def DataInformationBox.default : DataInformationBox :=
  { dref_box := DataReferenceBox.default }

/-- `DataInformationBox::box_payload_size`. -/
def DataInformationBox.box_payload_size (b : DataInformationBox) :
    Except Err Nat :=
  b.dref_box.box_size

/-- `DataInformationBox::write_box_payload`. -/
def DataInformationBox.write_box_payload (b : DataInformationBox) :
    Except Err (List Nat) :=
  b.dref_box.write_box

/-- `DataInformationBox::box_size`. -/
def DataInformationBox.box_size (b : DataInformationBox) : Except Err Nat :=
  mp4BoxSize none none b.box_payload_size

/-- `DataInformationBox::write_box`. -/
def DataInformationBox.write_box (b : DataInformationBox) :
    Except Err (List Nat) :=
  mp4WriteBox [100, 105, 110, 102] none none
    b.box_payload_size b.write_box_payload

/-- 8.5.3 Sample Size Box (unit struct, empty table). -/
structure SampleSizeBox where
deriving DecidableEq, Repr

/-- `SampleSizeBox::box_payload_size` (`4 + 4`). -/
def SampleSizeBox.box_payload_size (_ : SampleSizeBox) : Except Err Nat :=
  .ok (4 + 4)

/-- `SampleSizeBox::write_box_payload`. -/
def SampleSizeBox.write_box_payload (_ : SampleSizeBox) : Except Err (List Nat) :=
  .ok (beBytes 4 0 ++ beBytes 4 0)

/-- `SampleSizeBox::box_size`. -/
def SampleSizeBox.box_size (b : SampleSizeBox) : Except Err Nat :=
  mp4BoxSize (some 0) none b.box_payload_size

/-- `SampleSizeBox::write_box`. -/
def SampleSizeBox.write_box (b : SampleSizeBox) : Except Err (List Nat) :=
  mp4WriteBox [115, 116, 115, 122] (some 0) none
    b.box_payload_size b.write_box_payload

/-- 8.6.1.2 Decoding Time To Sample Box (unit struct, empty table). -/
structure TimeToSampleBox where
deriving DecidableEq, Repr

/-- `TimeToSampleBox::box_payload_size`. -/
def TimeToSampleBox.box_payload_size (_ : TimeToSampleBox) : Except Err Nat :=
  .ok 4

/-- `TimeToSampleBox::write_box_payload`. -/
def TimeToSampleBox.write_box_payload (_ : TimeToSampleBox) :
    Except Err (List Nat) := .ok (beBytes 4 0)

/-- `TimeToSampleBox::box_size`. -/
def TimeToSampleBox.box_size (b : TimeToSampleBox) : Except Err Nat :=
  mp4BoxSize (some 0) none b.box_payload_size

/-- `TimeToSampleBox::write_box`. -/
def TimeToSampleBox.write_box (b : TimeToSampleBox) : Except Err (List Nat) :=
  mp4WriteBox [115, 116, 116, 115] (some 0) none
    b.box_payload_size b.write_box_payload

/-- 8.7.5 Chunk Offset Box (unit struct, empty table). -/
structure ChunkOffsetBox where
deriving DecidableEq, Repr

/-- `ChunkOffsetBox::box_payload_size`. -/
def ChunkOffsetBox.box_payload_size (_ : ChunkOffsetBox) : Except Err Nat :=
  .ok 4

/-- `ChunkOffsetBox::write_box_payload`. -/
def ChunkOffsetBox.write_box_payload (_ : ChunkOffsetBox) :
    Except Err (List Nat) := .ok (beBytes 4 0)

/-- `ChunkOffsetBox::box_size`. -/
def ChunkOffsetBox.box_size (b : ChunkOffsetBox) : Except Err Nat :=
  mp4BoxSize (some 0) none b.box_payload_size

/-- `ChunkOffsetBox::write_box`. -/
def ChunkOffsetBox.write_box (b : ChunkOffsetBox) : Except Err (List Nat) :=
  mp4WriteBox [115, 116, 99, 111] (some 0) none
    b.box_payload_size b.write_box_payload

/-- 8.7.4 Sample To Chunk Box (unit struct, empty table). -/
structure SampleToChunkBox where
deriving DecidableEq, Repr

/-- `SampleToChunkBox::box_payload_size`. -/
def SampleToChunkBox.box_payload_size (_ : SampleToChunkBox) : Except Err Nat :=
  .ok 4

/-- `SampleToChunkBox::write_box_payload`. -/
def SampleToChunkBox.write_box_payload (_ : SampleToChunkBox) :
    Except Err (List Nat) := .ok (beBytes 4 0)

/-- `SampleToChunkBox::box_size`. -/
def SampleToChunkBox.box_size (b : SampleToChunkBox) : Except Err Nat :=
  mp4BoxSize (some 0) none b.box_payload_size

/-- `SampleToChunkBox::write_box`. -/
def SampleToChunkBox.write_box (b : SampleToChunkBox) : Except Err (List Nat) :=
  mp4WriteBox [115, 116, 115, 99] (some 0) none
    b.box_payload_size b.write_box_payload

/-- Box that contains an AVC Decoder Configuration Record (`avcC`). -/
structure AvcConfigurationBox where
  configuration : AvcDecoderConfigurationRecord
deriving DecidableEq, Repr

/-- `AvcConfigurationBox::box_payload_size` (dry run over the record's own
writer). -/
def AvcConfigurationBox.box_payload_size (b : AvcConfigurationBox) :
    Except Err Nat := do
  let size ← byteCounterCalculate b.configuration.write_to
  .ok (size % 2 ^ 32)

/-- `AvcConfigurationBox::write_box_payload`. -/
def AvcConfigurationBox.write_box_payload (b : AvcConfigurationBox) :
    Except Err (List Nat) :=
  b.configuration.write_to

/-- `AvcConfigurationBox::box_size`. -/
def AvcConfigurationBox.box_size (b : AvcConfigurationBox) : Except Err Nat :=
  mp4BoxSize none none b.box_payload_size

/-- `AvcConfigurationBox::write_box`. -/
def AvcConfigurationBox.write_box (b : AvcConfigurationBox) :
    Except Err (List Nat) :=
  mp4WriteBox [97, 118, 99, 67] none none
    b.box_payload_size b.write_box_payload

/-- Sample entry for AVC (`avc1`). -/
structure AvcSampleEntry where
  width : Nat
  height : Nat
  avcc_box : AvcConfigurationBox
deriving DecidableEq, Repr

/-- `AvcSampleEntry::write_box_payload_without_avcc`. -/
def AvcSampleEntry.write_box_payload_without_avcc (b : AvcSampleEntry) :
    Except Err (List Nat) :=
  .ok (zeroes 6 ++ beBytes 2 1 ++ zeroes 16 ++ beBytes 2 b.width ++
       beBytes 2 b.height ++ beBytes 4 0x480000 ++ beBytes 4 0x480000 ++
       zeroes 4 ++ beBytes 2 1 ++ zeroes 32 ++ beBytes 2 0x18 ++ i16be (-1))

/-- `AvcSampleEntry::box_payload_size` (dry run of the avcC-less prefix plus
the avcC box size). -/
def AvcSampleEntry.box_payload_size (b : AvcSampleEntry) : Except Err Nat := do
  let p ← byteCounterCalculate b.write_box_payload_without_avcc
  let a ← b.avcc_box.box_size
  .ok ((p % 2 ^ 32 + a) % 2 ^ 32)

/-- `AvcSampleEntry::write_box_payload`. -/
def AvcSampleEntry.write_box_payload (b : AvcSampleEntry) :
    Except Err (List Nat) := do
  let p ← b.write_box_payload_without_avcc
  let a ← b.avcc_box.write_box
  .ok (p ++ a)

/-- `AvcSampleEntry::box_size`. -/
def AvcSampleEntry.box_size (b : AvcSampleEntry) : Except Err Nat :=
  mp4BoxSize none none b.box_payload_size

/-- `AvcSampleEntry::write_box`. -/
def AvcSampleEntry.write_box (b : AvcSampleEntry) : Except Err (List Nat) :=
  mp4WriteBox [97, 118, 99, 49] none none
    b.box_payload_size b.write_box_payload

/-- MPEG-4 ES Descriptor Box (`esds`). -/
structure Mpeg4EsDescriptorBox where
  profile : AacProfile
  frequency : SamplingFrequency
  channel_configuration : ChannelConfiguration
deriving DecidableEq, Repr

/-- `Mpeg4EsDescriptorBox::write_box_payload`: ES descriptor, decoder
configuration descriptor, the two-byte AudioSpecificConfig word
`((profile + 1) << 11) | (frequency_index << 7) | (channels << 3)` and the
SL configuration descriptor. -/
def Mpeg4EsDescriptorBox.write_box_payload (b : Mpeg4EsDescriptorBox) :
    Except Err (List Nat) :=
  .ok ([0x03, 25] ++ beBytes 2 0 ++ [0] ++
       [0x04, 17, 0x40, (5 <<< 2) ||| 1] ++ beBytes 3 0 ++ beBytes 4 0 ++
       beBytes 4 0 ++
       [0x05, 2] ++
       beBytes 2 (((b.profile.toNat + 1) <<< 11) |||
                  (b.frequency.as_index <<< 7) |||
                  (b.channel_configuration.toNat <<< 3)) ++
       [0x06, 1, 2])

/-- `Mpeg4EsDescriptorBox::box_payload_size` (dry run). -/
def Mpeg4EsDescriptorBox.box_payload_size (b : Mpeg4EsDescriptorBox) :
    Except Err Nat := do
  let size ← byteCounterCalculate b.write_box_payload
  .ok (size % 2 ^ 32)

/-- `Mpeg4EsDescriptorBox::box_size`. -/
def Mpeg4EsDescriptorBox.box_size (b : Mpeg4EsDescriptorBox) : Except Err Nat :=
  mp4BoxSize (some 0) none b.box_payload_size

/-- `Mpeg4EsDescriptorBox::write_box`. -/
def Mpeg4EsDescriptorBox.write_box (b : Mpeg4EsDescriptorBox) :
    Except Err (List Nat) :=
  mp4WriteBox [101, 115, 100, 115] (some 0) none
    b.box_payload_size b.write_box_payload

/-- Sample entry for AAC (`mp4a`). -/
structure AacSampleEntry where
  esds_box : Mpeg4EsDescriptorBox
deriving DecidableEq, Repr

/-- `AacSampleEntry::write_box_payload_without_esds`: only mono and stereo
channel configurations are supported and the sample rate must fit `u16`. -/
def AacSampleEntry.write_box_payload_without_esds (b : AacSampleEntry) :
    Except Err (List Nat) :=
  let channels := b.esds_box.channel_configuration.toNat
  let sampleRate := b.esds_box.frequency.as_u32
  if ¬ (channels = 1 ∨ channels = 2) then .error .unsupported
  else if ¬ (sampleRate ≤ 0xFFFF) then .error .invalidInput
  else
    .ok (zeroes 6 ++ beBytes 2 1 ++ zeroes 8 ++ beBytes 2 channels ++
         beBytes 2 16 ++ zeroes 4 ++ beBytes 2 sampleRate ++ zeroes 2)

/-- `AacSampleEntry::box_payload_size`. -/
def AacSampleEntry.box_payload_size (b : AacSampleEntry) : Except Err Nat := do
  let p ← byteCounterCalculate b.write_box_payload_without_esds
  let e ← b.esds_box.box_size
  .ok ((p % 2 ^ 32 + e) % 2 ^ 32)

/-- `AacSampleEntry::write_box_payload`. -/
def AacSampleEntry.write_box_payload (b : AacSampleEntry) :
    Except Err (List Nat) := do
  let p ← b.write_box_payload_without_esds
  let e ← b.esds_box.write_box
  .ok (p ++ e)

/-- `AacSampleEntry::box_size`. -/
def AacSampleEntry.box_size (b : AacSampleEntry) : Except Err Nat :=
  mp4BoxSize none none b.box_payload_size

/-- `AacSampleEntry::write_box`. -/
def AacSampleEntry.write_box (b : AacSampleEntry) : Except Err (List Nat) :=
  mp4WriteBox [109, 112, 52, 97] none none
    b.box_payload_size b.write_box_payload

/-- 8.5.2.2 Sample Entry: the `Avc`/`Aac` sum with dispatching
`box_size`/`write_box`. -/
inductive SampleEntry where
  | avc (entry : AvcSampleEntry)
  | aac (entry : AacSampleEntry)
deriving DecidableEq, Repr

/-- `SampleEntry::box_size`. -/
def SampleEntry.box_size : SampleEntry → Except Err Nat
  | .avc x => x.box_size
  | .aac x => x.box_size

/-- `SampleEntry::write_box`. -/
def SampleEntry.write_box : SampleEntry → Except Err (List Nat)
  | .avc x => x.write_box
  | .aac x => x.write_box

/-- 8.5.2 Sample Description Box. -/
structure SampleDescriptionBox where
  sample_entries : List SampleEntry
deriving DecidableEq, Repr

/-- `SampleDescriptionBox::default()`. -/
def SampleDescriptionBox.default : SampleDescriptionBox := { sample_entries := [] }

/-- `SampleDescriptionBox::box_payload_size`. -/
def SampleDescriptionBox.box_payload_size (b : SampleDescriptionBox) :
    Except Err Nat := do
  let e ← boxSizeList SampleEntry.box_size b.sample_entries
  .ok ((4 + e) % 2 ^ 32)

/-- `SampleDescriptionBox::write_box_payload` (requires at least one
entry). -/
def SampleDescriptionBox.write_box_payload (b : SampleDescriptionBox) :
    Except Err (List Nat) := do
  if b.sample_entries.isEmpty then .error .invalidInput else do
  let e ← writeBoxList SampleEntry.write_box b.sample_entries
  .ok (beBytes 4 b.sample_entries.length ++ e)

/-- `SampleDescriptionBox::box_size`. -/
def SampleDescriptionBox.box_size (b : SampleDescriptionBox) : Except Err Nat :=
  mp4BoxSize (some 0) none b.box_payload_size

/-- `SampleDescriptionBox::write_box`. -/
def SampleDescriptionBox.write_box (b : SampleDescriptionBox) :
    Except Err (List Nat) :=
  mp4WriteBox [115, 116, 115, 100] (some 0) none
    b.box_payload_size b.write_box_payload

/-- 8.5.1 Sample Table Box. -/
structure SampleTableBox where
  stsd_box : SampleDescriptionBox
  stts_box : TimeToSampleBox
  stsc_box : SampleToChunkBox
  stsz_box : SampleSizeBox
  stco_box : ChunkOffsetBox
deriving DecidableEq, Repr

/-- `SampleTableBox::default()`. -/
def SampleTableBox.default : SampleTableBox :=
  { stsd_box := SampleDescriptionBox.default, stts_box := {}, stsc_box := {},
    stsz_box := {}, stco_box := {} }

/-- `SampleTableBox::box_payload_size`. -/
def SampleTableBox.box_payload_size (b : SampleTableBox) : Except Err Nat := do
  let a ← b.stsd_box.box_size
  let c ← b.stts_box.box_size
  let d ← b.stsc_box.box_size
  let e ← b.stsz_box.box_size
  let f ← b.stco_box.box_size
  .ok ((a + c + d + e + f) % 2 ^ 32)

/-- `SampleTableBox::write_box_payload`. -/
def SampleTableBox.write_box_payload (b : SampleTableBox) :
    Except Err (List Nat) := do
  let a ← b.stsd_box.write_box
  let c ← b.stts_box.write_box
  let d ← b.stsc_box.write_box
  let e ← b.stsz_box.write_box
  let f ← b.stco_box.write_box
  .ok (a ++ c ++ d ++ e ++ f)

/-- `SampleTableBox::box_size`. -/
def SampleTableBox.box_size (b : SampleTableBox) : Except Err Nat :=
  mp4BoxSize none none b.box_payload_size

/-- `SampleTableBox::write_box`. -/
def SampleTableBox.write_box (b : SampleTableBox) : Except Err (List Nat) :=
  mp4WriteBox [115, 116, 98, 108] none none
    b.box_payload_size b.write_box_payload

/-- 8.4.4 Media Information Box. -/
structure MediaInformationBox where
  vmhd_box : Option VideoMediaHeaderBox
  smhd_box : Option SoundMediaHeaderBox
  dinf_box : DataInformationBox
  stbl_box : SampleTableBox
deriving DecidableEq, Repr

/-- `MediaInformationBox::new`. -/
def MediaInformationBox.new (is_video : Bool) : MediaInformationBox :=
  { vmhd_box := if is_video then some {} else none,
    smhd_box := if is_video then none else some {},
    dinf_box := DataInformationBox.default,
    stbl_box := SampleTableBox.default }

/-- `MediaInformationBox::box_payload_size`. -/
def MediaInformationBox.box_payload_size (b : MediaInformationBox) :
    Except Err Nat := do
  let v ← optBoxSize VideoMediaHeaderBox.box_size b.vmhd_box
  let s ← optBoxSize SoundMediaHeaderBox.box_size b.smhd_box
  let d ← b.dinf_box.box_size
  let t ← b.stbl_box.box_size
  .ok ((v + s + d + t) % 2 ^ 32)

/-- `MediaInformationBox::write_box_payload`. -/
def MediaInformationBox.write_box_payload (b : MediaInformationBox) :
    Except Err (List Nat) := do
  let v ← writeOptBox VideoMediaHeaderBox.write_box b.vmhd_box
  let s ← writeOptBox SoundMediaHeaderBox.write_box b.smhd_box
  let d ← b.dinf_box.write_box
  let t ← b.stbl_box.write_box
  .ok (v ++ s ++ d ++ t)

/-- `MediaInformationBox::box_size`. -/
def MediaInformationBox.box_size (b : MediaInformationBox) : Except Err Nat :=
  mp4BoxSize none none b.box_payload_size

/-- `MediaInformationBox::write_box`. -/
def MediaInformationBox.write_box (b : MediaInformationBox) :
    Except Err (List Nat) :=
  mp4WriteBox [109, 105, 110, 102] none none
    b.box_payload_size b.write_box_payload

/-- 8.4.1 Media Box. -/
structure MediaBox where
  mdhd_box : MediaHeaderBox
  hdlr_box : HandlerReferenceBox
  minf_box : MediaInformationBox
deriving DecidableEq, Repr

/-- `MediaBox::new`. -/
def MediaBox.new (is_video : Bool) : MediaBox :=
  { mdhd_box := MediaHeaderBox.default,
    hdlr_box := HandlerReferenceBox.new is_video,
    minf_box := MediaInformationBox.new is_video }

/-- `MediaBox::box_payload_size`. -/
def MediaBox.box_payload_size (b : MediaBox) : Except Err Nat := do
  let a ← b.mdhd_box.box_size
  let c ← b.hdlr_box.box_size
  let d ← b.minf_box.box_size
  .ok ((a + c + d) % 2 ^ 32)

/-- `MediaBox::write_box_payload`. -/
def MediaBox.write_box_payload (b : MediaBox) : Except Err (List Nat) := do
  let a ← b.mdhd_box.write_box
  let c ← b.hdlr_box.write_box
  let d ← b.minf_box.write_box
  .ok (a ++ c ++ d)

/-- `MediaBox::box_size`. -/
def MediaBox.box_size (b : MediaBox) : Except Err Nat :=
  mp4BoxSize none none b.box_payload_size

/-- `MediaBox::write_box`. -/
def MediaBox.write_box (b : MediaBox) : Except Err (List Nat) :=
  mp4WriteBox [109, 100, 105, 97] none none
    b.box_payload_size b.write_box_payload

/-- 8.3.1 Track Box. -/
structure TrackBox where
  tkhd_box : TrackHeaderBox
  edts_box : EditBox
  mdia_box : MediaBox
deriving DecidableEq, Repr

/-- `TrackBox::new`. -/
def TrackBox.new (is_video : Bool) : TrackBox :=
  { tkhd_box := TrackHeaderBox.new is_video,
    edts_box := EditBox.default,
    mdia_box := MediaBox.new is_video }

/-- `TrackBox::box_payload_size`. -/
def TrackBox.box_payload_size (b : TrackBox) : Except Err Nat := do
  let a ← b.tkhd_box.box_size
  let c ← b.edts_box.box_size
  let d ← b.mdia_box.box_size
  .ok ((a + c + d) % 2 ^ 32)

/-- `TrackBox::write_box_payload`. -/
def TrackBox.write_box_payload (b : TrackBox) : Except Err (List Nat) := do
  let a ← b.tkhd_box.write_box
  let c ← b.edts_box.write_box
  let d ← b.mdia_box.write_box
  .ok (a ++ c ++ d)

/-- `TrackBox::box_size`. -/
def TrackBox.box_size (b : TrackBox) : Except Err Nat :=
  mp4BoxSize none none b.box_payload_size

/-- `TrackBox::write_box`. -/
def TrackBox.write_box (b : TrackBox) : Except Err (List Nat) :=
  mp4WriteBox [116, 114, 97, 107] none none
    b.box_payload_size b.write_box_payload

/-- 8.8.1 Movie Extends Box. -/
structure MovieExtendsBox where
  mehd_box : Option MovieExtendsHeaderBox
  trex_boxes : List TrackExtendsBox
deriving DecidableEq, Repr

/-- `MovieExtendsBox::default()`. -/
def MovieExtendsBox.default : MovieExtendsBox :=
  { mehd_box := none, trex_boxes := [] }

/-- `MovieExtendsBox::box_payload_size`. -/
def MovieExtendsBox.box_payload_size (b : MovieExtendsBox) : Except Err Nat := do
  let m ← optBoxSize MovieExtendsHeaderBox.box_size b.mehd_box
  let t ← boxSizeList TrackExtendsBox.box_size b.trex_boxes
  .ok ((m + t) % 2 ^ 32)

/-- `MovieExtendsBox::write_box_payload` (requires at least one `trex`). -/
def MovieExtendsBox.write_box_payload (b : MovieExtendsBox) :
    Except Err (List Nat) := do
  if b.trex_boxes.isEmpty then .error .invalidInput else do
  let m ← writeOptBox MovieExtendsHeaderBox.write_box b.mehd_box
  let t ← writeBoxList TrackExtendsBox.write_box b.trex_boxes
  .ok (m ++ t)

/-- `MovieExtendsBox::box_size`. -/
def MovieExtendsBox.box_size (b : MovieExtendsBox) : Except Err Nat :=
  mp4BoxSize none none b.box_payload_size

/-- `MovieExtendsBox::write_box`. -/
def MovieExtendsBox.write_box (b : MovieExtendsBox) : Except Err (List Nat) :=
  mp4WriteBox [109, 118, 101, 120] none none
    b.box_payload_size b.write_box_payload

/-- 8.2.1 Movie Box. -/
structure MovieBox where
  mvhd_box : MovieHeaderBox
  trak_boxes : List TrackBox
  mvex_box : MovieExtendsBox
deriving DecidableEq, Repr

/-- `MovieBox::default()`. -/
def MovieBox.default : MovieBox :=
  { mvhd_box := MovieHeaderBox.default, trak_boxes := [],
    mvex_box := MovieExtendsBox.default }

/-- `MovieBox::box_payload_size`. -/
def MovieBox.box_payload_size (b : MovieBox) : Except Err Nat := do
  let m ← b.mvhd_box.box_size
  let t ← boxSizeList TrackBox.box_size b.trak_boxes
  let x ← b.mvex_box.box_size
  .ok ((m + t + x) % 2 ^ 32)

/-- `MovieBox::write_box_payload` (requires at least one `trak`). -/
def MovieBox.write_box_payload (b : MovieBox) : Except Err (List Nat) := do
  if b.trak_boxes.isEmpty then .error .invalidInput else do
  let m ← b.mvhd_box.write_box
  let t ← writeBoxList TrackBox.write_box b.trak_boxes
  let x ← b.mvex_box.write_box
  .ok (m ++ t ++ x)

/-- `MovieBox::box_size`. -/
def MovieBox.box_size (b : MovieBox) : Except Err Nat :=
  mp4BoxSize none none b.box_payload_size

/-- `MovieBox::write_box`. -/
def MovieBox.write_box (b : MovieBox) : Except Err (List Nat) :=
  mp4WriteBox [109, 111, 111, 118] none none
    b.box_payload_size b.write_box_payload

/-- Initialization segment (`fmp4/initialization.rs`): `ftyp` then
`moov`. -/
structure InitializationSegment where
  ftyp_box : FileTypeBox
  moov_box : MovieBox
deriving DecidableEq, Repr

/-- `InitializationSegment::default()`. -/
def InitializationSegment.default : InitializationSegment :=
  { ftyp_box := {}, moov_box := MovieBox.default }

/-! ### `mpeg2_ts.rs`: the TS-to-fMP4 assembler

The MPEG-TS packet decoder and PES reassembler live in the external
`mpeg2ts` crate; per spec §1/§6 they are abstracted as a pull-style source
yielding, per PES packet, a video/audio classification of the stream id, the
stream type registered for it (`None` when the PMT bookkeeping has no entry,
which `read_avc_aac_stream` turns into `InvalidInput`), optional 33-bit
PTS/DTS and the payload bytes. -/

/-- Modelled from the spec: `mpeg2ts::time::Timestamp::RESOLUTION`, the
90 kHz TS clock frequency of the external crate (spec §4.3.5). -/
def timestampRESOLUTION : Nat := 90000

/-- Modelled from the spec: `mpeg2ts::time::Timestamp::MAX`, described by
spec §4.3.4 as the 33-bit TS clock modulus `2^33` that the wrap-handling
rebase adds. -/
def timestampMAX : Nat := 2 ^ 33

/-- The two PMT stream types the assembler accepts, plus a stand-in for
every other registered type. -/
inductive StreamType where
  | h264
  | adtsAac
  | otherType
deriving DecidableEq, Repr

/-- One PES packet as surfaced by the external demuxer. -/
structure PesPacket where
  is_video : Bool
  is_audio : Bool
  stream_type : Option StreamType
  pts : Option Nat
  dts : Option Nat
  data : List Nat
deriving DecidableEq, Repr

/-- `Option` into `Except` (`track_assert_some!`). -/
def okOr (o : Option α) (e : Err) : Except Err α :=
  match o with
  | some x => .ok x
  | none => .error e

/-- Intermediate video stream (`mpeg2_ts.rs`). -/
structure AvcStream where
  configuration : AvcDecoderConfigurationRecord
  width : Nat
  height : Nat
  samples : List Sample
  data : List Nat
deriving DecidableEq, Repr

/-- `AvcStream::duration`: checked `u32` sum of the sample durations; a
missing duration or an overflowing sum is `InvalidInput`. -/
def AvcStream.duration (s : AvcStream) : Except Err Nat :=
  s.samples.foldlM
    (fun acc smp => do
      let d ← okOr smp.duration .invalidInput
      if acc + d < 2 ^ 32 then .ok (acc + d) else .error .invalidInput)
    0

/-- `AvcStream::start_time`: the first sample's composition time offset, or
0. -/
def AvcStream.start_time (s : AvcStream) : Int :=
  ((s.samples.head?).bind Sample.composition_time_offset).getD 0

/-- Intermediate audio stream (`mpeg2_ts.rs`). -/
structure AacStream where
  adts_header : AdtsHeader
  samples : List Sample
  data : List Nat
deriving DecidableEq, Repr

/-- `AacStream::duration`: checked `1024 * sample count` on `u32`. -/
def AacStream.duration (s : AacStream) : Except Err Nat :=
  if SAMPLES_IN_FRAME * s.samples.length < 2 ^ 32 then
    .ok (SAMPLES_IN_FRAME * s.samples.length)
  else .error .invalidInput

/-- One step of the SPS/PPS scan over the first video PES: an SPS NAL
parses a summary (from the bytes after the NAL header byte) and records the
raw unit, a PPS NAL records the raw unit, anything else is skipped; each
later occurrence overwrites the previous one within this PES. -/
def scanSpsPps
    (acc : Option (List Nat) × Option (List Nat) × Option SequenceParameterSet)
    (nal : List Nat) :
    Except Err (Option (List Nat) × Option (List Nat) × Option SequenceParameterSet) := do
  let u ← NalUnit.read_from nal
  match u.nal_unit_type with
  | .sequenceParameterSet => do
    let s ← SequenceParameterSet.read_from (nal.drop 1)
    .ok (some nal, acc.2.1, some s)
  | .pictureParameterSet => .ok (acc.1, some nal, acc.2.2)
  | _ => .ok acc

/-- Length-prefixed concatenation of a PES packet's NAL units (4-byte
big-endian length, then the unit, start codes discarded). -/
def lengthPrefixedNalBytes (units : List (List Nat)) : List Nat :=
  (units.map (fun u => beBytes 4 u.length ++ u)).flatten

/-- The ADTS frame loop over one audio PES payload: parse a header, record
one sample of size `frame_length - 7` and append that many payload bytes.
The Rust code slices `&bytes[..sample_size]` without a bounds check, so a
declared payload running past the end of the PES payload is an
out-of-range slice: a panic, not an `Err`. -/
def audioFramesFuel : Nat → AacStream → List Nat → Except Err AacStream
  | 0, st, bytes => if bytes = [] then .ok st else .error .other
  | fuel + 1, st, bytes =>
    if bytes = [] then .ok st
    else
      match AdtsHeader.read_from bytes with
      | .error e => .error e
      | .ok (h, rest) =>
        if h.raw_data_blocks_len ≤ rest.length then
          audioFramesFuel fuel
            { st with
              samples := st.samples ++
                [{ duration := none, size := some h.raw_data_blocks_len,
                   flags := none, composition_time_offset := none }],
              data := st.data ++ rest.take h.raw_data_blocks_len }
            (rest.drop h.raw_data_blocks_len)
        else .error .panicked

/-- The ADTS frame loop with its fuel supplied: every iteration of the Rust
`while` consumes at least the 7 header bytes (`adts_read_from_length`), so
`length + 1` fuel is never exhausted and the fuel-out branch is
unreachable. -/
def audioFrames (st : AacStream) (bytes : List Nat) : Except Err AacStream :=
  audioFramesFuel (bytes.length + 1) st bytes

/-- Assembler state threaded through the PES intake loop. -/
structure IntakeState where
  avc : Option AvcStream
  aac : Option AacStream
  avc_timestamps : List (Nat × Nat)
  avc_timestamp_offset : Nat
deriving DecidableEq, Repr

/-- Initial assembler state. -/
def IntakeState.initial : IntakeState :=
  { avc := none, aac := none, avc_timestamps := [], avc_timestamp_offset := 0 }

/-- One iteration of the `read_avc_aac_stream` PES loop. -/
def intakeStep (s : IntakeState) (pes : PesPacket) : Except Err IntakeState := do
  let stream_type ← okOr pes.stream_type .invalidInput
  if pes.is_video then do
    if stream_type ≠ .h264 then .error .unsupported else do
    let pts ← okOr pes.pts .invalidInput
    let dts := pes.dts.getD pts
    let i := s.avc_timestamps.length
    let offset := if i = 0 then pts else s.avc_timestamp_offset
    let timestamp := if pts < offset then pts + timestampMAX else pts
    let avc0 ← (match s.avc with
      | some a => .ok a
      | none => do
        let units ← byteStreamFormatNalUnits pes.data
        let scans ← units.foldlM scanSpsPps (none, none, none)
        let sum ← okOr scans.2.2 .invalidInput
        let sps ← okOr scans.1 .invalidInput
        let pps ← okOr scans.2.1 .invalidInput
        .ok { configuration :=
                { profile_idc := sum.profile_idc,
                  constraint_set_flag := sum.constraint_set_flag,
                  level_idc := sum.level_idc,
                  sequence_parameter_set := sps,
                  picture_parameter_set := pps },
              width := sum.width, height := sum.height,
              samples := [], data := [] })
    let units ← byteStreamFormatNalUnits pes.data
    let appended := lengthPrefixedNalBytes units
    let sample_size := appended.length % 2 ^ 32
    let cto := i32OfInt ((pts : Int) - (dts : Int))
    let avc1 :=
      { avc0 with
        data := avc0.data ++ appended,
        samples := avc0.samples ++
          [{ duration := none, size := some sample_size, flags := none,
             composition_time_offset := some cto }] }
    .ok { s with
          avc := some avc1,
          avc_timestamps := s.avc_timestamps ++ [(timestamp - offset, i)],
          avc_timestamp_offset := if i = 0 then pts else s.avc_timestamp_offset }
  else do
    if ¬ pes.is_audio then .error .invalidInput else do
    if stream_type ≠ .adtsAac then .error .unsupported else do
    let aac0 ← (match s.aac with
      | some a => .ok a
      | none => do
        let (h, _) ← AdtsHeader.read_from pes.data
        .ok { adts_header := h, samples := [], data := [] })
    let aac1 ← audioFrames aac0 pes.data
    .ok { s with aac := some aac1 }

/-- Lexicographic order on `(timestamp, index)` pairs, as `Bool`, matching
`Vec::sort`'s `Ord` on `(u64, usize)`. -/
def tsLe (a b : Nat × Nat) : Bool :=
  a.1 < b.1 || (a.1 = b.1 && a.2 ≤ b.2)

/-- Insertion of one pair into a `tsLe`-sorted list, keeping an earlier
equal element in front. -/
def insertTs (a : Nat × Nat) : List (Nat × Nat) → List (Nat × Nat)
  | [] => [a]
  | b :: bs => if tsLe a b then a :: b :: bs else b :: insertTs a bs

/-- `Vec::sort` on the `(timestamp, index)` pairs: a stable sort under the
total lexicographic order.  Insertion sort is stable and `tsLe` is total and
antisymmetric, so any correct stable sort (Rust's merge sort included)
produces this exact list; on the assembler's input the second components
are pairwise distinct, so every correct sort agrees regardless of
stability. -/
def sortTs : List (Nat × Nat) → List (Nat × Nat)
  | [] => []
  | a :: as => insertTs a (sortTs as)

/-- In-place update of the element at one index (out-of-range leaves the
list unchanged; the assembler only uses indices drawn from
`avc_timestamps`, which parallel the sample positions). -/
def modifyIdx (f : α → α) : Nat → List α → List α
  | _, [] => []
  | 0, x :: xs => f x :: xs
  | n + 1, x :: xs => x :: modifyIdx f n xs

/-- Sets a sample's duration. -/
def setSampleDuration (d : Nat) (s : Sample) : Sample :=
  { s with duration := some d }

/-- One assignment of the duration-resolution loop: the sample at the later
pair's decode index receives the timestamp difference, truncated to
`u32`. -/
def assignStep (smps : List Sample) (pr : (Nat × Nat) × (Nat × Nat)) : List Sample :=
  modifyIdx (setSampleDuration ((pr.2.1 - pr.1.1) % 2 ^ 32)) pr.2.2 smps

/-- The assignment loop of the duration resolution, over every consecutive
pair of the sorted timestamp list. -/
def assignSortedDurations (sorted : List (Nat × Nat)) (samples : List Sample) :
    List Sample :=
  (sorted.zip sorted.tail).foldl assignStep samples

/-- The epilogue of `read_avc_aac_stream`: both streams must exist; the
timestamp pairs are sorted (`Vec::sort`, a stable sort under the total
lexicographic order — any correct sort gives the same list), consecutive
differences become durations, and sample 0 finally receives
`max(0, start_time())`. -/
def finalizeStreams (s : IntakeState) : Except Err (AvcStream × AacStream) := do
  let avc ← okOr s.avc .invalidInput
  let aac ← okOr s.aac .invalidInput
  let sorted := sortTs s.avc_timestamps
  let avc1 := { avc with samples := assignSortedDurations sorted avc.samples }
  let avc2 :=
    if avc1.samples.isEmpty then avc1
    else { avc1 with
           samples := modifyIdx (setSampleDuration (max 0 avc1.start_time).toNat) 0
             avc1.samples }
  .ok (avc2, aac)

/-- `read_avc_aac_stream`: drain the PES source, then resolve the video
durations. -/
def read_avc_aac_stream (pkts : List PesPacket) :
    Except Err (AvcStream × AacStream) := do
  let s ← pkts.foldlM intakeStep IntakeState.initial
  finalizeStreams s

/-- `make_initialization_segment`. -/
def make_initialization_segment (avc : AvcStream) (aac : AacStream) :
    Except Err InitializationSegment := do
  let video_duration ← avc.duration
  let audio_duration ← aac.duration
  let seg0 := InitializationSegment.default
  let seg1 :=
    if video_duration < audio_duration then
      { seg0 with moov_box :=
          { seg0.moov_box with
            mvhd_box := { timescale := SAMPLES_IN_FRAME, duration := audio_duration },
            mvex_box := { seg0.moov_box.mvex_box with
                          mehd_box := some { fragment_duration := audio_duration } } } }
    else
      { seg0 with moov_box :=
          { seg0.moov_box with
            mvhd_box := { timescale := timestampRESOLUTION, duration := video_duration },
            mvex_box := { seg0.moov_box.mvex_box with
                          mehd_box := some { fragment_duration := video_duration } } } }
  let vtrack0 := TrackBox.new true
  let vtrack :=
    { vtrack0 with
      tkhd_box := { vtrack0.tkhd_box with
                    width := ((avc.width % 2 ^ 32) <<< 16) % 2 ^ 32,
                    height := ((avc.height % 2 ^ 32) <<< 16) % 2 ^ 32,
                    duration := video_duration },
      edts_box := { elst_box := { media_time := avc.start_time } },
      mdia_box := { vtrack0.mdia_box with
                    mdhd_box := { timescale := timestampRESOLUTION,
                                  duration := video_duration } } }
  let avcEntry : AvcSampleEntry :=
    { width := avc.width % 2 ^ 16, height := avc.height % 2 ^ 16,
      avcc_box := { configuration := avc.configuration } }
  let vtrack :=
    { vtrack with mdia_box :=
        { vtrack.mdia_box with minf_box :=
            { vtrack.mdia_box.minf_box with stbl_box :=
                { vtrack.mdia_box.minf_box.stbl_box with stsd_box :=
                    { sample_entries :=
                        vtrack.mdia_box.minf_box.stbl_box.stsd_box.sample_entries ++
                          [SampleEntry.avc avcEntry] } } } } }
  let atrack0 := TrackBox.new false
  let atrack :=
    { atrack0 with
      tkhd_box := { atrack0.tkhd_box with duration := audio_duration },
      mdia_box := { atrack0.mdia_box with
                    mdhd_box := { timescale := aac.adts_header.sampling_frequency.as_u32,
                                  duration := audio_duration } } }
  let aacEntry : AacSampleEntry :=
    { esds_box := { profile := aac.adts_header.profile,
                    frequency := aac.adts_header.sampling_frequency,
                    channel_configuration := aac.adts_header.channel_configuration } }
  let atrack :=
    { atrack with mdia_box :=
        { atrack.mdia_box with minf_box :=
            { atrack.mdia_box.minf_box with stbl_box :=
                { atrack.mdia_box.minf_box.stbl_box with stsd_box :=
                    { sample_entries :=
                        atrack.mdia_box.minf_box.stbl_box.stsd_box.sample_entries ++
                          [SampleEntry.aac aacEntry] } } } } }
  .ok { seg1 with moov_box :=
          { seg1.moov_box with
            trak_boxes := seg1.moov_box.trak_boxes ++ [vtrack, atrack],
            mvex_box := { seg1.moov_box.mvex_box with
                          trex_boxes := seg1.moov_box.mvex_box.trex_boxes ++
                            [TrackExtendsBox.new true, TrackExtendsBox.new false] } } }

/-- Overwrites one `traf`'s `trun.data_offset`. -/
def setTrafDataOffset (off : Int) (t : TrackFragmentBox) : TrackFragmentBox :=
  { t with trun_box := { t.trun_box with data_offset := some off } }

/-- Patches the `data_offset` of the `trun` inside the `traf` at `idx`. -/
def patchTrafDataOffset (m : MovieFragmentBox) (idx : Nat) (off : Int) :
    MovieFragmentBox :=
  { m with traf_boxes := modifyIdx (setTrafDataOffset off) idx m.traf_boxes }

/-- `make_media_segment`: builds the two `traf`s, dry-run-serializes the
`moof` to a byte counter, patches the video `trun.data_offset` to
`count as i32 + 8`, continues the counter over the first (video) `mdat`,
and patches the audio `trun.data_offset` likewise. -/
def make_media_segment (avc : AvcStream) (aac : AacStream) :
    Except Err MediaSegment := do
  let traf0base := TrackFragmentBox.new true
  let traf0 :=
    { traf0base with
      tfhd_box := { traf0base.tfhd_box with
                    default_sample_flags := some
                      { is_leading := 0, sample_depends_on := 1,
                        sample_is_depdended_on := 0, sample_has_redundancy := 0,
                        sample_padding_value := 0,
                        sample_is_non_sync_sample := true,
                        sample_degradation_priority := 0 } },
      trun_box := { traf0base.trun_box with
                    data_offset := some 0,
                    first_sample_flags := some
                      { is_leading := 0, sample_depends_on := 2,
                        sample_is_depdended_on := 0, sample_has_redundancy := 0,
                        sample_padding_value := 0,
                        sample_is_non_sync_sample := false,
                        sample_degradation_priority := 0 },
                    samples := avc.samples } }
  let traf1base := TrackFragmentBox.new false
  let traf1 :=
    { traf1base with
      tfhd_box := { traf1base.tfhd_box with
                    default_sample_duration := some SAMPLES_IN_FRAME },
      trun_box := { traf1base.trun_box with
                    data_offset := some 0,
                    samples := aac.samples } }
  let moof : MovieFragmentBox :=
    { mfhd_box := MovieFragmentHeaderBox.default, traf_boxes := [traf0, traf1] }
  let counted ← moof.write_box
  let moof1 := patchTrafDataOffset moof 0 (i32OfInt (i32OfNat counted.length + 8))
  let mdat0 : MediaDataBox := { data := avc.data }
  let mdatBytes ← mdat0.write_box
  let count2 := counted.length + mdatBytes.length
  let moof2 := patchTrafDataOffset moof1 1 (i32OfInt (i32OfNat count2 + 8))
  .ok { moof_box := moof2, mdat_boxes := [mdat0, { data := aac.data }] }

/-- `to_fmp4`: intake, then the initialization segment, then the media
segment. -/
def to_fmp4 (pkts : List PesPacket) :
    Except Err (InitializationSegment × MediaSegment) := do
  let (avc, aac) ← read_avc_aac_stream pkts
  let ini ← make_initialization_segment avc aac
  let med ← make_media_segment avc aac
  .ok (ini, med)

/-! ### Concrete example inputs used by the theorems below -/

/-- A minimal SPS NAL unit: header byte `0x67` (type 7), profile 66,
constraint flags 0, level 30, then the bit stream
`1 1 1 1 1 0 1 1` = all leading `ue` fields 0,
`pic_order_cnt_type = 0`, `pic_width_in_mbs_minus_1 = 0`,
`pic_height_in_map_units_minus_1 = 0`. -/
def spsNalExample : List Nat := [0x67, 66, 0, 30, 0xFB]

/-- A one-byte PPS NAL unit (header `0x68`, type 8). -/
def ppsNalExample : List Nat := [0x68]

/-- First video PES payload: Annex-B stream carrying the SPS then the PPS. -/
def firstVideoData : List Nat := [0, 0, 1] ++ spsNalExample ++ [0, 0, 1] ++ ppsNalExample

/-- A later video PES payload: a single IDR-slice NAL unit. -/
def idrData : List Nat := [0, 0, 1, 0x65]

/-- A 7-byte ADTS header: sync `0xFFF`, MPEG-4, layer 0, CRC absent, AAC LC,
48 kHz, 2 channels, `frame_length = 8`, one raw data block. -/
def adtsHeaderBytes : List Nat := [0xFF, 0xF1, 0x4C, 0x80, 0x01, 0x00, 0x00]

/-- A complete one-frame audio PES payload: the header plus its single
payload byte. -/
def goodAudioData : List Nat := adtsHeaderBytes ++ [0xAB]

/-- A video PES packet carrying H.264 with the given PTS/DTS. -/
def videoPes (pts dts : Nat) (d : List Nat) : PesPacket :=
  { is_video := true, is_audio := false, stream_type := some .h264,
    pts := some pts, dts := some dts, data := d }

/-- An audio PES packet carrying ADTS AAC. -/
def audioPes (d : List Nat) : PesPacket :=
  { is_video := false, is_audio := true, stream_type := some .adtsAac,
    pts := some 0, dts := none, data := d }

/-- Spec scenario S3: two video PES in decode order `(PTS 3003, DTS 0)` then
`(PTS 0, DTS 1501)`, plus one valid audio PES. -/
def reorderPkts : List PesPacket :=
  [videoPes 3003 0 firstVideoData, videoPes 0 1501 idrData, audioPes goodAudioData]

/-- Spec scenario S4: two video PES around a PTS wrap
(`2 ^ 33 - 1500` then `1500`), plus one valid audio PES. -/
def wrapPkts : List PesPacket :=
  [videoPes (2 ^ 33 - 1500) (2 ^ 33 - 1500) firstVideoData,
   videoPes 1500 1500 idrData, audioPes goodAudioData]

/-- A fully well-formed input: two video PES in plain decode order and one
audio PES. -/
def straightPkts : List PesPacket :=
  [videoPes 3003 0 firstVideoData, videoPes 6006 3003 idrData, audioPes goodAudioData]

/-- An audio PES payload that is exactly one ADTS header whose declared
frame length (8, i.e. one payload byte) runs past the end of the payload. -/
def truncatedAudioPkts : List PesPacket :=
  [videoPes 3003 0 firstVideoData, audioPes adtsHeaderBytes]

/-- The ADTS header of `adtsHeaderBytes`, as parsed. -/
def exampleAdtsHeader : AdtsHeader :=
  { profile := .lc, sampling_frequency := .hz48000, privateFlag := false,
    channel_configuration := .twoChannels, frame_len := 8, buffer_fullness := 0 }

/-- The decoder configuration extracted from `spsNalExample` /
`ppsNalExample`. -/
def exampleAvcConfig : AvcDecoderConfigurationRecord :=
  { profile_idc := 66, constraint_set_flag := 0, level_idc := 30,
    sequence_parameter_set := spsNalExample,
    picture_parameter_set := ppsNalExample }

/-- A one-sample video stream of total duration 100 (shorter than one audio
frame). -/
def shortVideoStream : AvcStream :=
  { configuration := exampleAvcConfig, width := 16, height := 16,
    samples := [{ duration := some 100, size := some 14, flags := none,
                  composition_time_offset := some 0 }],
    data := beBytes 4 5 ++ spsNalExample ++ beBytes 4 1 ++ ppsNalExample }

/-- A one-frame 48 kHz audio stream (duration 1024). -/
def oneFrameAacStream : AacStream :=
  { adts_header := exampleAdtsHeader,
    samples := [{ duration := none, size := some 1, flags := none,
                  composition_time_offset := none }],
    data := [0xAB] }

/-- A two-sample video stream with unresolved durations, as left by the
intake loop. -/
def twoSampleAvcIn : AvcStream :=
  { configuration := exampleAvcConfig, width := 16, height := 16,
    samples :=
      [{ duration := none, size := some 14, flags := none, composition_time_offset := some 0 },
       { duration := none, size := some 5, flags := none, composition_time_offset := some 0 }],
    data := List.replicate 19 0 }

/-- An assembler state ready for finalization: both streams present and two
rebased video timestamps. -/
def twoSampleState : IntakeState :=
  { avc := some twoSampleAvcIn, aac := some oneFrameAacStream,
    avc_timestamps := [(0, 0), (3003, 1)], avc_timestamp_offset := 0 }

/-- Assembly of `k` NAL units, each prefixed by a 4-byte (`true`) or 3-byte
(`false`) start code, as the spec's splitter property describes. -/
def startCode (four : Bool) : List Nat :=
  if four then [0, 0, 0, 1] else [0, 0, 1]

/-- Annex-B byte stream assembled from start-code/NAL-unit pairs. -/
def annexB : List (Bool × List Nat) → List Nat
  | [] => []
  | (f, n) :: rest => startCode f ++ n ++ annexB rest

/-- Occurrence of the 3-byte start code anywhere in a byte list (a 4-byte
start code contains a 3-byte one, so this also rules those out). -/
def hasSC : List Nat → Bool
  | [] => false
  | b :: rest => ([0, 0, 1] : List Nat).isPrefixOf (b :: rest) || hasSC rest

/-! ## Supporting lemmas -/

theorem modifyIdx_length (f : α → α) (i : Nat) (l : List α) :
    (modifyIdx f i l).length = l.length := by
  induction l generalizing i with
  | nil => cases i <;> rfl
  | cons x xs ih =>
    cases i with
    | zero => simp [modifyIdx]
    | succ i => simp [modifyIdx, ih]

theorem modifyIdx_getElem_ne (f : α → α) {i j : Nat} (l : List α) (hij : i ≠ j) :
    (modifyIdx f i l)[j]? = l[j]? := by
  induction l generalizing i j with
  | nil => cases i <;> rfl
  | cons x xs ih =>
    cases i with
    | zero =>
      cases j with
      | zero => exact absurd rfl hij
      | succ j => simp [modifyIdx]
    | succ i =>
      cases j with
      | zero => simp [modifyIdx]
      | succ j => simpa [modifyIdx] using ih (i := i) (j := j) (fun hc => hij (by omega))

theorem modifyIdx_getElem_eq (f : α → α) (i : Nat) (l : List α) :
    (modifyIdx f i l)[i]? = (l[i]?).map f := by
  induction l generalizing i with
  | nil => simp [modifyIdx]
  | cons x xs ih =>
    cases i with
    | zero => simp [modifyIdx]
    | succ i => simpa [modifyIdx] using ih i

theorem modifyIdx_map (f : α → α) (g : α → β) (hf : ∀ x, g (f x) = g x)
    (i : Nat) (l : List α) : (modifyIdx f i l).map g = l.map g := by
  induction l generalizing i with
  | nil => cases i <;> rfl
  | cons x xs ih =>
    cases i with
    | zero => simp [modifyIdx, hf]
    | succ i => simp [modifyIdx, ih]

theorem insertTs_perm (a : Nat × Nat) (l : List (Nat × Nat)) :
    (insertTs a l).Perm (a :: l) := by
  induction l with
  | nil => simp [insertTs]
  | cons b bs ih =>
    rw [insertTs]
    split
    · exact List.Perm.refl _
    · exact ((ih.cons b).trans (List.Perm.swap a b bs))

theorem sortTs_perm (l : List (Nat × Nat)) : (sortTs l).Perm l := by
  induction l with
  | nil => simp [sortTs]
  | cons a as ih => exact (insertTs_perm a (sortTs as)).trans (ih.cons a)

theorem nodup_getElem?_ne {l : List α} (h : l.Nodup) {m n : Nat} (hmn : m ≠ n)
    {a : α} (hm : l[m]? = some a) (hn : l[n]? = some a) : False := by
  rcases Nat.lt_or_ge m n with h1 | h1
  · exact (List.nodup_iff_getElem?_ne_getElem?.mp h m n h1
      (List.getElem?_eq_some.mp hn).1) (hm.trans hn.symm)
  · have h2 : n < m := by omega
    exact (List.nodup_iff_getElem?_ne_getElem?.mp h n m h2
      (List.getElem?_eq_some.mp hm).1) (hn.trans hm.symm)

theorem foldl_assign_untouched {pairs : List ((Nat × Nat) × (Nat × Nat))}
    (samples : List Sample) {j : Nat}
    (h : ∀ pr ∈ pairs, pr.2.2 ≠ j) :
    (pairs.foldl assignStep samples)[j]? = samples[j]? := by
  induction pairs generalizing samples with
  | nil => rfl
  | cons p ps ih =>
    rw [List.foldl_cons, ih _ (fun pr hpr => h pr (List.mem_cons_of_mem _ hpr))]
    exact modifyIdx_getElem_ne _ _ (h p (List.mem_cons_self _ _))

theorem foldl_assign_length (pairs : List ((Nat × Nat) × (Nat × Nat)))
    (samples : List Sample) :
    (pairs.foldl assignStep samples).length = samples.length := by
  induction pairs generalizing samples with
  | nil => rfl
  | cons p ps ih =>
    rw [List.foldl_cons, ih]
    exact modifyIdx_length _ _ _

theorem foldl_assign_map (pairs : List ((Nat × Nat) × (Nat × Nat)))
    (samples : List Sample) (g : Sample → β)
    (hg : ∀ d x, g (setSampleDuration d x) = g x) :
    (pairs.foldl assignStep samples).map g = samples.map g := by
  induction pairs generalizing samples with
  | nil => rfl
  | cons p ps ih =>
    rw [List.foldl_cons, ih]
    exact modifyIdx_map _ _ (hg _) _ _

theorem foldl_assign_hit {pairs : List ((Nat × Nat) × (Nat × Nat))} {k : Nat}
    {p : (Nat × Nat) × (Nat × Nat)} (samples : List Sample)
    (hk : pairs[k]? = some p)
    (hothers : ∀ m pr, m ≠ k → pairs[m]? = some pr → pr.2.2 ≠ p.2.2) :
    (pairs.foldl assignStep samples)[p.2.2]? =
      (samples[p.2.2]?).map (setSampleDuration ((p.2.1 - p.1.1) % 2 ^ 32)) := by
  obtain ⟨hklen, hkval⟩ := List.getElem?_eq_some.mp hk
  have hdecomp : pairs = pairs.take k ++ p :: pairs.drop (k + 1) := by
    conv_lhs => rw [← List.take_append_drop k pairs]
    rw [List.drop_eq_getElem_cons hklen, hkval]
  have hpre : ∀ pr ∈ pairs.take k, pr.2.2 ≠ p.2.2 := by
    intro pr hpr
    obtain ⟨m, hm⟩ := List.mem_iff_getElem?.mp hpr
    rw [List.getElem?_take] at hm
    by_cases hmk : m < k
    · exact hothers m pr (by omega) (by simpa [hmk] using hm)
    · simp [hmk] at hm
  have hpost : ∀ pr ∈ pairs.drop (k + 1), pr.2.2 ≠ p.2.2 := by
    intro pr hpr
    obtain ⟨m, hm⟩ := List.mem_iff_getElem?.mp hpr
    rw [List.getElem?_drop] at hm
    exact hothers (k + 1 + m) pr (by omega) hm
  conv_lhs => rw [hdecomp]
  rw [List.foldl_append, List.foldl_cons]
  rw [foldl_assign_untouched _ hpost]
  show (modifyIdx (setSampleDuration ((p.2.1 - p.1.1) % 2 ^ 32)) p.2.2 _)[p.2.2]? = _
  rw [modifyIdx_getElem_eq]
  rw [foldl_assign_untouched _ hpre]

/-- Sample-size bookkeeping for the video stream: every recorded sample has
a size, and the stored sizes (each truncated to `u32`) sum to the buffer
length up to that truncation: the sum never exceeds the buffer length and
agrees with it modulo `2 ^ 32`. -/
def avcSizesOk : Option AvcStream → Prop
  | none => True
  | some a =>
    (∀ smp ∈ a.samples, smp.size.isSome) ∧
    (a.samples.map (fun smp => smp.size.getD 0)).sum ≤ a.data.length ∧
    (a.samples.map (fun smp => smp.size.getD 0)).sum % 2 ^ 32 =
      a.data.length % 2 ^ 32

/-- Sample-size bookkeeping for the audio stream: every recorded sample has
a size and the sizes sum exactly to the buffer length. -/
def aacSizesOk : Option AacStream → Prop
  | none => True
  | some a =>
    (∀ smp ∈ a.samples, smp.size.isSome) ∧
    (a.samples.map (fun smp => smp.size.getD 0)).sum = a.data.length

theorem audioFramesFuel_sizes {fuel : Nat} {st : AacStream} {bytes : List Nat}
    {st' : AacStream} (h : audioFramesFuel fuel st bytes = .ok st')
    (hst : aacSizesOk (some st)) : aacSizesOk (some st') := by
  induction fuel generalizing st bytes with
  | zero =>
    rw [audioFramesFuel] at h
    split at h
    · simp only [Except.ok.injEq] at h; subst h; exact hst
    · simp at h
  | succ fuel ih =>
    rw [audioFramesFuel] at h
    split at h
    · simp only [Except.ok.injEq] at h; subst h; exact hst
    · split at h
      · simp at h
      · split at h
        · refine ih h ?_
          obtain ⟨h1, h2⟩ := hst
          refine ⟨?_, ?_⟩
          · intro smp hsmp
            rcases List.mem_append.mp hsmp with hsmp | hsmp
            · exact h1 smp hsmp
            · simp at hsmp
              subst hsmp
              rfl
          · next hle =>
            simp only [List.map_append, List.sum_append, List.length_append,
              List.length_take]
            simp [h2, Nat.min_eq_left hle]
        · simp at h

theorem avc_append_sizesOk {a : AvcStream} (h0 : avcSizesOk (some a))
    (app : List Nat) (cto : Option Int) :
    avcSizesOk (some { a with
      data := a.data ++ app,
      samples := a.samples ++
        [{ duration := none, size := some (app.length % 2 ^ 32), flags := none,
           composition_time_offset := cto }] }) := by
  obtain ⟨h1, h2, h3⟩ := h0
  refine ⟨?_, ?_, ?_⟩
  · intro smp hsmp
    rcases List.mem_append.mp hsmp with hsmp | hsmp
    · exact h1 smp hsmp
    · simp at hsmp
      subst hsmp
      rfl
  · simp only [List.map_append, List.sum_append, List.length_append,
      List.map_cons, List.map_nil, List.sum_cons, List.sum_nil, Option.getD_some]
    have hmle : app.length % 2 ^ 32 ≤ app.length := Nat.mod_le _ _
    omega
  · simp only [List.map_append, List.sum_append, List.length_append,
      List.map_cons, List.map_nil, List.sum_cons, List.sum_nil, Option.getD_some]
    omega

theorem intakeStep_sizes {s : IntakeState} {pes : PesPacket} {s' : IntakeState}
    (h : intakeStep s pes = .ok s')
    (ha : avcSizesOk s.avc) (hb : aacSizesOk s.aac) :
    avcSizesOk s'.avc ∧ aacSizesOk s'.aac := by
  rw [intakeStep] at h
  cases hst : pes.stream_type with
  | none => rw [hst] at h; simp [okOr, Bind.bind, Except.bind] at h
  | some st =>
    rw [hst] at h
    simp only [okOr, Bind.bind, Except.bind] at h
    by_cases hv : pes.is_video
    · simp only [hv, if_true] at h
      split at h
      · simp at h
      · cases hp : pes.pts with
        | none => rw [hp] at h; simp at h
        | some pts =>
          rw [hp] at h
          simp only [] at h
          cases hsavc : s.avc with
          | some a =>
            rw [hsavc] at h
            simp only [] at h
            split at h
            · simp at h
            · next x units hunits =>
              simp only [Except.ok.injEq] at h
              subst h
              exact ⟨avc_append_sizesOk (hsavc ▸ ha) _ _, hb⟩
          | none =>
            rw [hsavc] at h
            simp only [Bind.bind, Except.bind] at h
            split at h
            · simp at h
            · next x avc0 havc0 =>
              split at havc0
              · simp at havc0
              · split at havc0
                · simp at havc0
                · split at havc0
                  · simp at havc0
                  · split at havc0
                    · simp at havc0
                    · split at havc0
                      · simp at havc0
                      · simp only [Except.ok.injEq] at havc0
                        subst havc0
                        split at h
                        · simp at h
                        · next y units hunits =>
                          simp only [Except.ok.injEq] at h
                          subst h
                          refine ⟨?_, hb⟩
                          refine ⟨?_, ?_, ?_⟩
                          · intro smp hsmp
                            simp at hsmp
                            subst hsmp
                            rfl
                          · simp only [List.nil_append, List.map_cons, List.map_nil,
                              List.sum_cons, List.sum_nil, Option.getD_some]
                            omega
                          · simp only [List.nil_append, List.map_cons, List.map_nil,
                              List.sum_cons, List.sum_nil, Option.getD_some]
                            omega
    · simp only [hv, if_false, Bool.false_eq_true] at h
      split at h
      · simp at h
      · split at h
        · simp at h
        · cases hsaac : s.aac with
          | some a =>
            rw [hsaac] at h
            simp only [] at h
            split at h
            · simp at h
            · next aac1 haac1 =>
              simp only [Except.ok.injEq] at h
              subst h
              exact ⟨ha, audioFramesFuel_sizes haac1 (hsaac ▸ hb)⟩
          | none =>
            rw [hsaac] at h
            simp only [Bind.bind, Except.bind] at h
            split at h
            · simp at h
            · next x aac0 haac0 =>
              split at haac0
              · simp at haac0
              · simp only [Except.ok.injEq] at haac0
                subst haac0
                split at h
                · simp at h
                · next aac1 haac1 =>
                  simp only [Except.ok.injEq] at h
                  subst h
                  refine ⟨ha, audioFramesFuel_sizes haac1 ?_⟩
                  refine ⟨?_, ?_⟩ <;> simp

theorem foldlM_intake_sizes {pkts : List PesPacket} {s0 sN : IntakeState}
    (h : pkts.foldlM intakeStep s0 = .ok sN)
    (ha : avcSizesOk s0.avc) (hb : aacSizesOk s0.aac) :
    avcSizesOk sN.avc ∧ aacSizesOk sN.aac := by
  induction pkts generalizing s0 with
  | nil =>
    simp only [List.foldlM_nil, pure, Except.pure, Except.ok.injEq] at h
    subst h
    exact ⟨ha, hb⟩
  | cons p ps ih =>
    rw [List.foldlM_cons] at h
    cases hstep : intakeStep s0 p with
    | error e => rw [hstep] at h; simp [Bind.bind, Except.bind] at h
    | ok s1 =>
      rw [hstep] at h
      simp only [Bind.bind, Except.bind] at h
      obtain ⟨h1, h2⟩ := intakeStep_sizes hstep ha hb
      exact ih h h1 h2

theorem modifyIdx_setDuration_map (d i : Nat) (l : List Sample) :
    (modifyIdx (setSampleDuration d) i l).map Sample.size = l.map Sample.size :=
  modifyIdx_map (setSampleDuration d) Sample.size (fun _ => rfl) i l

theorem avcSizesOk_of_map_eq {a b : AvcStream} (h0 : avcSizesOk (some a))
    (hmap : b.samples.map Sample.size = a.samples.map Sample.size)
    (hdata : b.data = a.data) :
    avcSizesOk (some b) := by
  obtain ⟨h1, h2, h3⟩ := h0
  have hmapd : ∀ (l : List Sample), l.map (fun smp => smp.size.getD 0) =
      (l.map Sample.size).map (fun o => o.getD 0) := fun l => by
    rw [List.map_map]; rfl
  have hsum : (b.samples.map (fun smp => smp.size.getD 0)).sum =
      (a.samples.map (fun smp => smp.size.getD 0)).sum := by
    rw [hmapd, hmapd, hmap]
  have hall : ∀ smp ∈ b.samples, smp.size.isSome := by
    intro smp hsmp
    have hmem : smp.size ∈ b.samples.map Sample.size :=
      List.mem_map_of_mem _ hsmp
    rw [hmap] at hmem
    obtain ⟨smp2, hsmp2, heq⟩ := List.mem_map.mp hmem
    exact heq ▸ h1 smp2 hsmp2
  exact ⟨hall, by rw [hsum, hdata]; exact h2, by rw [hsum, hdata]; exact h3⟩

theorem finalizeStreams_sizes {s : IntakeState} {avc : AvcStream} {aac : AacStream}
    (h : finalizeStreams s = .ok (avc, aac))
    (ha : avcSizesOk s.avc) (hb : aacSizesOk s.aac) :
    avcSizesOk (some avc) ∧ aacSizesOk (some aac) := by
  rw [finalizeStreams] at h
  cases hs1 : s.avc with
  | none => rw [hs1] at h; simp [okOr, Bind.bind, Except.bind] at h
  | some a =>
    cases hs2 : s.aac with
    | none => rw [hs1, hs2] at h; simp [okOr, Bind.bind, Except.bind] at h
    | some b =>
      rw [hs1, hs2] at h
      simp only [okOr, Bind.bind, Except.bind, Except.ok.injEq, Prod.mk.injEq] at h
      obtain ⟨h1, h2⟩ := h
      subst h2
      rw [hs1] at ha
      rw [hs2] at hb
      refine ⟨?_, hb⟩
      have hsamples1 : (assignSortedDurations (sortTs s.avc_timestamps) a.samples).map
          Sample.size = a.samples.map Sample.size := by
        rw [assignSortedDurations]
        exact foldl_assign_map _ _ _ (fun d x => rfl)
      refine avcSizesOk_of_map_eq ha ?_ ?_
      · rw [← h1]
        split
        · exact hsamples1
        · simp only []
          rw [modifyIdx_setDuration_map]
          exact hsamples1
      · rw [← h1]
        split <;> rfl

/-! ### Data-offset patching: the serialized moof length is unchanged -/

theorem i32OfNat_small {n : Nat} (h : n < 2 ^ 31) : i32OfNat n = (n : Int) := by
  rw [i32OfNat]
  have h1 : n % 2 ^ 32 = n := Nat.mod_eq_of_lt (by omega)
  rw [h1, if_pos h]

theorem i32OfInt_small {x : Int} (h0 : 0 ≤ x) (h : x < 2 ^ 31) : i32OfInt x = x := by
  rw [i32OfInt]
  have h1 : x % 2 ^ 32 = x := Int.emod_eq_of_lt h0 (by omega)
  rw [h1, if_pos h]

theorem trun_patch_payload_map (d off : Int) (fsf : Option SampleFlags)
    (smps : List Sample) :
    (TrackRunBox.write_box_payload ⟨some off, fsf, smps⟩).map List.length =
      (TrackRunBox.write_box_payload ⟨some d, fsf, smps⟩).map List.length := by
  cases smps with
  | nil =>
    simp [TrackRunBox.write_box_payload, Bind.bind, Except.bind, Except.map,
      i32be_length, beBytes_length]
  | cons s rest =>
    cases htr : trunSampleRows s.to_box_flags (s :: rest) with
    | error e =>
      simp [TrackRunBox.write_box_payload, Bind.bind, Except.bind, htr, Except.map]
    | ok rows =>
      simp [TrackRunBox.write_box_payload, Bind.bind, Except.bind, htr, Except.map,
        i32be_length, beBytes_length]

theorem trun_patch_box_size (d off : Int) (fsf : Option SampleFlags)
    (smps : List Sample) :
    TrackRunBox.box_size ⟨some off, fsf, smps⟩ =
      TrackRunBox.box_size ⟨some d, fsf, smps⟩ := by
  have h := trun_patch_payload_map d off fsf smps
  have hfl : TrackRunBox.box_flags ⟨some off, fsf, smps⟩ =
      TrackRunBox.box_flags ⟨some d, fsf, smps⟩ := rfl
  simp only [TrackRunBox.box_size, TrackRunBox.box_payload_size, byteCounterCalculate]
  rw [h, hfl]

theorem mp4WriteBox_len_congr {btype : List Nat} {v f1 f2 : Option Nat}
    {ps : Except Err Nat} {pw1 pw2 : Except Err (List Nat)}
    (hf : f1.isSome = f2.isSome)
    (hpw : pw1.map List.length = pw2.map List.length) :
    (mp4WriteBox btype v f1 ps pw1).map List.length =
      (mp4WriteBox btype v f2 ps pw2).map List.length := by
  cases hp : ps with
  | error e => simp [mp4WriteBox, mp4BoxSize, hp, Bind.bind, Except.bind, Except.map]
  | ok p =>
    cases h1 : pw1 with
    | error e =>
      cases h2 : pw2 with
      | error e2 =>
        rw [h1, h2] at hpw
        simp only [Except.map, Except.error.injEq] at hpw
        subst hpw
        simp [mp4WriteBox, mp4BoxSize, hp, Bind.bind, Except.bind, Except.map, hf]
      | ok b2 => rw [h1, h2] at hpw; simp [Except.map] at hpw
    | ok b1 =>
      cases h2 : pw2 with
      | error e2 => rw [h1, h2] at hpw; simp [Except.map] at hpw
      | ok b2 =>
        rw [h1, h2] at hpw
        simp only [Except.map, Except.ok.injEq] at hpw
        simp [mp4WriteBox, mp4BoxSize, hp, h1, h2, Bind.bind, Except.bind, Except.map,
          beBytes_length, hpw, hf, apply_ite List.length]

theorem trun_patch_write_map (d off : Int) (fsf : Option SampleFlags)
    (smps : List Sample) :
    (TrackRunBox.write_box ⟨some off, fsf, smps⟩).map List.length =
      (TrackRunBox.write_box ⟨some d, fsf, smps⟩).map List.length := by
  have hpw := trun_patch_payload_map d off fsf smps
  have hps : TrackRunBox.box_payload_size ⟨some off, fsf, smps⟩ =
      TrackRunBox.box_payload_size ⟨some d, fsf, smps⟩ := by
    simp only [TrackRunBox.box_payload_size, byteCounterCalculate]
    rw [hpw]
  simp only [TrackRunBox.write_box]
  rw [hps]
  exact mp4WriteBox_len_congr rfl hpw

theorem traf_patch_payload_size (tfhd : TrackFragmentHeaderBox)
    (tfdt : TrackFragmentBaseMediaDecodeTimeBox) (d off : Int)
    (fsf : Option SampleFlags) (smps : List Sample) :
    TrackFragmentBox.box_payload_size ⟨tfhd, tfdt, ⟨some off, fsf, smps⟩⟩ =
      TrackFragmentBox.box_payload_size ⟨tfhd, tfdt, ⟨some d, fsf, smps⟩⟩ := by
  simp only [TrackFragmentBox.box_payload_size]
  rw [trun_patch_box_size d off fsf smps]

theorem traf_patch_box_size (tfhd : TrackFragmentHeaderBox)
    (tfdt : TrackFragmentBaseMediaDecodeTimeBox) (d off : Int)
    (fsf : Option SampleFlags) (smps : List Sample) :
    TrackFragmentBox.box_size ⟨tfhd, tfdt, ⟨some off, fsf, smps⟩⟩ =
      TrackFragmentBox.box_size ⟨tfhd, tfdt, ⟨some d, fsf, smps⟩⟩ := by
  simp only [TrackFragmentBox.box_size]
  rw [traf_patch_payload_size tfhd tfdt d off fsf smps]

theorem traf_patch_payload_map (tfhd : TrackFragmentHeaderBox)
    (tfdt : TrackFragmentBaseMediaDecodeTimeBox) (d off : Int)
    (fsf : Option SampleFlags) (smps : List Sample) :
    (TrackFragmentBox.write_box_payload ⟨tfhd, tfdt, ⟨some off, fsf, smps⟩⟩).map
        List.length =
      (TrackFragmentBox.write_box_payload ⟨tfhd, tfdt, ⟨some d, fsf, smps⟩⟩).map
        List.length := by
  have h4 := trun_patch_write_map d off fsf smps
  simp only [TrackFragmentBox.write_box_payload, Bind.bind, Except.bind]
  cases TrackFragmentHeaderBox.write_box tfhd with
  | error e => rfl
  | ok a =>
    cases TrackFragmentBaseMediaDecodeTimeBox.write_box tfdt with
    | error e => rfl
    | ok b =>
      cases h1 : TrackRunBox.write_box ⟨some off, fsf, smps⟩ with
      | error e =>
        rw [h1] at h4
        cases h2 : TrackRunBox.write_box ⟨some d, fsf, smps⟩ with
        | error e2 =>
          rw [h2] at h4
          simp only [Except.map, Except.error.injEq] at h4
          subst h4
          rfl
        | ok c2 => rw [h2] at h4; simp [Except.map] at h4
      | ok c1 =>
        rw [h1] at h4
        cases h2 : TrackRunBox.write_box ⟨some d, fsf, smps⟩ with
        | error e2 => rw [h2] at h4; simp [Except.map] at h4
        | ok c2 =>
          rw [h2] at h4
          simp only [Except.map, Except.ok.injEq] at h4
          simp [Except.map, h4]

theorem traf_patch_write_map (tfhd : TrackFragmentHeaderBox)
    (tfdt : TrackFragmentBaseMediaDecodeTimeBox) (d off : Int)
    (fsf : Option SampleFlags) (smps : List Sample) :
    (TrackFragmentBox.write_box ⟨tfhd, tfdt, ⟨some off, fsf, smps⟩⟩).map List.length =
      (TrackFragmentBox.write_box ⟨tfhd, tfdt, ⟨some d, fsf, smps⟩⟩).map List.length := by
  simp only [TrackFragmentBox.write_box]
  rw [traf_patch_payload_size tfhd tfdt d off fsf smps]
  exact mp4WriteBox_len_congr rfl (traf_patch_payload_map tfhd tfdt d off fsf smps)

theorem moof_patch_write_map (mfhd : MovieFragmentHeaderBox)
    (tA tA2 tB tB2 : TrackFragmentBox)
    (hAs : tA2.box_size = tA.box_size) (hBs : tB2.box_size = tB.box_size)
    (hA : tA2.write_box.map List.length = tA.write_box.map List.length)
    (hB : tB2.write_box.map List.length = tB.write_box.map List.length) :
    (MovieFragmentBox.write_box ⟨mfhd, [tA2, tB2]⟩).map List.length =
      (MovieFragmentBox.write_box ⟨mfhd, [tA, tB]⟩).map List.length := by
  have hps : MovieFragmentBox.box_payload_size ⟨mfhd, [tA2, tB2]⟩ =
      MovieFragmentBox.box_payload_size ⟨mfhd, [tA, tB]⟩ := by
    simp only [MovieFragmentBox.box_payload_size, boxSizeList, hAs, hBs]
  have hpw : (MovieFragmentBox.write_box_payload ⟨mfhd, [tA2, tB2]⟩).map List.length =
      (MovieFragmentBox.write_box_payload ⟨mfhd, [tA, tB]⟩).map List.length := by
    simp only [MovieFragmentBox.write_box_payload, writeBoxList, Bind.bind, Except.bind,
      List.isEmpty_cons, Bool.false_eq_true, if_false]
    cases MovieFragmentHeaderBox.write_box mfhd with
    | error e => rfl
    | ok a =>
      cases h1 : TrackFragmentBox.write_box tA2 with
      | error e =>
        rw [h1] at hA
        cases h2 : TrackFragmentBox.write_box tA with
        | error e2 =>
          rw [h2] at hA
          simp only [Except.map, Except.error.injEq] at hA
          subst hA
          rfl
        | ok c2 => rw [h2] at hA; simp [Except.map] at hA
      | ok c1 =>
        rw [h1] at hA
        cases h2 : TrackFragmentBox.write_box tA with
        | error e2 => rw [h2] at hA; simp [Except.map] at hA
        | ok c2 =>
          rw [h2] at hA
          simp only [Except.map, Except.ok.injEq] at hA
          cases h3 : TrackFragmentBox.write_box tB2 with
          | error e =>
            rw [h3] at hB
            cases h4 : TrackFragmentBox.write_box tB with
            | error e2 =>
              rw [h4] at hB
              simp only [Except.map, Except.error.injEq] at hB
              subst hB
              rfl
            | ok d2 => rw [h4] at hB; simp [Except.map] at hB
          | ok d1 =>
            rw [h3] at hB
            cases h4 : TrackFragmentBox.write_box tB with
            | error e2 => rw [h4] at hB; simp [Except.map] at hB
            | ok d2 =>
              rw [h4] at hB
              simp only [Except.map, Except.ok.injEq] at hB
              simp [Except.map, hA, hB]
  simp only [MovieFragmentBox.write_box]
  rw [hps]
  exact mp4WriteBox_len_congr rfl hpw

/-! ### Size/write agreement for every concrete box -/

theorem pure_agrees {L : List Nat} {n : Nat} (hn : L.length = n)
    (hlt : n < 2 ^ 32) : sizeAgrees (.ok n) (.ok L) := by
  intro bs h
  cases h
  rw [hn, Nat.mod_eq_of_lt hlt]

theorem pure_agreesMod {L : List Nat} {n : Nat}
    (hn : n % 2 ^ 32 = L.length % 2 ^ 32) : sizeAgreesMod (.ok n) (.ok L) := by
  intro bs h
  cases h
  exact ⟨n, rfl, hn⟩

theorem guard_agrees {s : Except Err Nat} {w : Except Err (List Nat)} {c : Prop}
    [Decidable c] (h : sizeAgrees s w) :
    sizeAgrees s (if c then .error Err.invalidInput else w) := by
  intro bs hb
  split at hb
  · simp at hb
  · exact h bs hb

theorem seq2_agrees {sa sb : Except Err Nat} {wa wb : Except Err (List Nat)}
    (ha : sizeAgreesMod sa wa) (hb : sizeAgreesMod sb wb) :
    sizeAgrees (do let x ← sa; let y ← sb; .ok ((x + y) % 2 ^ 32))
               (do let x ← wa; let y ← wb; .ok (x ++ y)) := by
  intro bs h
  cases hwa : wa with
  | error e => rw [hwa] at h; simp [Bind.bind, Except.bind] at h
  | ok a =>
    rw [hwa] at h
    cases hwb : wb with
    | error e => rw [hwb] at h; simp [Bind.bind, Except.bind] at h
    | ok b2 =>
      rw [hwb] at h
      simp only [Bind.bind, Except.bind, Except.ok.injEq] at h
      obtain ⟨n1, hs1, hm1⟩ := ha a hwa
      obtain ⟨n2, hs2, hm2⟩ := hb b2 hwb
      rw [hs1, hs2]
      simp only [Bind.bind, Except.bind, Except.ok.injEq, ← h, List.length_append]
      omega

theorem seq3_agrees {sa sb sc : Except Err Nat}
    {wa wb wc : Except Err (List Nat)}
    (ha : sizeAgreesMod sa wa) (hb : sizeAgreesMod sb wb)
    (hc : sizeAgreesMod sc wc) :
    sizeAgrees (do let x ← sa; let y ← sb; let z ← sc; .ok ((x + y + z) % 2 ^ 32))
               (do let x ← wa; let y ← wb; let z ← wc; .ok (x ++ y ++ z)) := by
  intro bs h
  cases hwa : wa with
  | error e => rw [hwa] at h; simp [Bind.bind, Except.bind] at h
  | ok a =>
    rw [hwa] at h
    cases hwb : wb with
    | error e => rw [hwb] at h; simp [Bind.bind, Except.bind] at h
    | ok b2 =>
      rw [hwb] at h
      cases hwc : wc with
      | error e => rw [hwc] at h; simp [Bind.bind, Except.bind] at h
      | ok c2 =>
        rw [hwc] at h
        simp only [Bind.bind, Except.bind, Except.ok.injEq] at h
        obtain ⟨n1, hs1, hm1⟩ := ha a hwa
        obtain ⟨n2, hs2, hm2⟩ := hb b2 hwb
        obtain ⟨n3, hs3, hm3⟩ := hc c2 hwc
        rw [hs1, hs2, hs3]
        simp only [Bind.bind, Except.bind, Except.ok.injEq, ← h, List.length_append]
        omega

theorem seq4_agrees {sa sb sc sd : Except Err Nat}
    {wa wb wc wd : Except Err (List Nat)}
    (ha : sizeAgreesMod sa wa) (hb : sizeAgreesMod sb wb)
    (hc : sizeAgreesMod sc wc) (hd : sizeAgreesMod sd wd) :
    sizeAgrees
      (do let x ← sa; let y ← sb; let z ← sc; let u ← sd;
          .ok ((x + y + z + u) % 2 ^ 32))
      (do let x ← wa; let y ← wb; let z ← wc; let u ← wd; .ok (x ++ y ++ z ++ u)) := by
  intro bs h
  cases hwa : wa with
  | error e => rw [hwa] at h; simp [Bind.bind, Except.bind] at h
  | ok a =>
    rw [hwa] at h
    cases hwb : wb with
    | error e => rw [hwb] at h; simp [Bind.bind, Except.bind] at h
    | ok b2 =>
      rw [hwb] at h
      cases hwc : wc with
      | error e => rw [hwc] at h; simp [Bind.bind, Except.bind] at h
      | ok c2 =>
        rw [hwc] at h
        cases hwd : wd with
        | error e => rw [hwd] at h; simp [Bind.bind, Except.bind] at h
        | ok d2 =>
          rw [hwd] at h
          simp only [Bind.bind, Except.bind, Except.ok.injEq] at h
          obtain ⟨n1, hs1, hm1⟩ := ha a hwa
          obtain ⟨n2, hs2, hm2⟩ := hb b2 hwb
          obtain ⟨n3, hs3, hm3⟩ := hc c2 hwc
          obtain ⟨n4, hs4, hm4⟩ := hd d2 hwd
          rw [hs1, hs2, hs3, hs4]
          simp only [Bind.bind, Except.bind, Except.ok.injEq, ← h,
            List.length_append]
          omega

theorem seq5_agrees {sa sb sc sd se : Except Err Nat}
    {wa wb wc wd we : Except Err (List Nat)}
    (ha : sizeAgreesMod sa wa) (hb : sizeAgreesMod sb wb)
    (hc : sizeAgreesMod sc wc) (hd : sizeAgreesMod sd wd)
    (he : sizeAgreesMod se we) :
    sizeAgrees
      (do let x ← sa; let y ← sb; let z ← sc; let u ← sd; let v ← se;
          .ok ((x + y + z + u + v) % 2 ^ 32))
      (do let x ← wa; let y ← wb; let z ← wc; let u ← wd; let v ← we;
          .ok (x ++ y ++ z ++ u ++ v)) := by
  intro bs h
  cases hwa : wa with
  | error e => rw [hwa] at h; simp [Bind.bind, Except.bind] at h
  | ok a =>
    rw [hwa] at h
    cases hwb : wb with
    | error e => rw [hwb] at h; simp [Bind.bind, Except.bind] at h
    | ok b2 =>
      rw [hwb] at h
      cases hwc : wc with
      | error e => rw [hwc] at h; simp [Bind.bind, Except.bind] at h
      | ok c2 =>
        rw [hwc] at h
        cases hwd : wd with
        | error e => rw [hwd] at h; simp [Bind.bind, Except.bind] at h
        | ok d2 =>
          rw [hwd] at h
          cases hwe : we with
          | error e => rw [hwe] at h; simp [Bind.bind, Except.bind] at h
          | ok e2 =>
            rw [hwe] at h
            simp only [Bind.bind, Except.bind, Except.ok.injEq] at h
            obtain ⟨n1, hs1, hm1⟩ := ha a hwa
            obtain ⟨n2, hs2, hm2⟩ := hb b2 hwb
            obtain ⟨n3, hs3, hm3⟩ := hc c2 hwc
            obtain ⟨n4, hs4, hm4⟩ := hd d2 hwd
            obtain ⟨n5, hs5, hm5⟩ := he e2 hwe
            rw [hs1, hs2, hs3, hs4, hs5]
            simp only [Bind.bind, Except.bind, Except.ok.injEq, ← h,
              List.length_append]
            omega

theorem entry_seq_agrees {sb : Except Err Nat} {wa wb : Except Err (List Nat)}
    (hb : sizeAgreesMod sb wb) :
    sizeAgrees
      (do let p ← byteCounterCalculate wa; let a ← sb;
          .ok ((p % 2 ^ 32 + a) % 2 ^ 32))
      (do let p ← wa; let a ← wb; .ok (p ++ a)) := by
  intro bs h
  cases hwa : wa with
  | error e => rw [hwa] at h; simp [Bind.bind, Except.bind] at h
  | ok p0 =>
    rw [hwa] at h
    cases hwb : wb with
    | error e => rw [hwb] at h; simp [Bind.bind, Except.bind] at h
    | ok a0 =>
      rw [hwb] at h
      simp only [Bind.bind, Except.bind, Except.ok.injEq] at h
      obtain ⟨n2, hs2, hm2⟩ := hb a0 hwb
      have hcount : byteCounterCalculate (Except.ok p0 : Except Err (List Nat)) =
          .ok p0.length := rfl
      rw [hcount, hs2]
      simp only [Bind.bind, Except.bind, Except.ok.injEq, ← h, List.length_append]
      omega

theorem ftyp_agrees (b : FileTypeBox) : sizeAgrees b.box_size b.write_box :=
  mp4Box_agrees rfl (pure_agrees (by decide) (by norm_num))

theorem mehd_agrees (b : MovieExtendsHeaderBox) :
    sizeAgrees b.box_size b.write_box :=
  mp4Box_agrees rfl
    (pure_agrees (beBytes_length 4 b.fragment_duration) (by norm_num))

theorem trex_agrees (b : TrackExtendsBox) : sizeAgrees b.box_size b.write_box :=
  mp4Box_agrees rfl (pure_agrees (by simp [beBytes_length]) (by norm_num))

theorem mvhd_agrees (b : MovieHeaderBox) : sizeAgrees b.box_size b.write_box :=
  mp4Box_agrees rfl (dryRun_agrees _)

theorem tkhd_agrees (b : TrackHeaderBox) : sizeAgrees b.box_size b.write_box :=
  mp4Box_agrees rfl (dryRun_agrees _)

theorem elst_agrees (b : EditListBox) : sizeAgrees b.box_size b.write_box :=
  mp4Box_agrees rfl
    (pure_agrees (by simp [beBytes_length, i32be_length, i16be_length]) (by norm_num))

theorem edts_agrees (b : EditBox) : sizeAgrees b.box_size b.write_box :=
  mp4Box_agrees rfl (elst_agrees b.elst_box)

theorem mdhd_agrees (b : MediaHeaderBox) : sizeAgrees b.box_size b.write_box :=
  mp4Box_agrees rfl
    (pure_agrees (by simp [beBytes_length, zeroes_length]) (by norm_num))

theorem hdlr_agrees (b : HandlerReferenceBox) : sizeAgrees b.box_size b.write_box :=
  mp4Box_agrees rfl (dryRun_agrees _)

theorem vmhd_agrees (b : VideoMediaHeaderBox) : sizeAgrees b.box_size b.write_box :=
  mp4Box_agrees rfl
    (pure_agrees (by simp [beBytes_length, zeroes_length]) (by norm_num))

theorem smhd_agrees (b : SoundMediaHeaderBox) : sizeAgrees b.box_size b.write_box :=
  mp4Box_agrees rfl
    (pure_agrees (by simp [i16be_length, zeroes_length]) (by norm_num))

theorem url_agrees (b : DataEntryUrlBox) : sizeAgrees b.box_size b.write_box :=
  mp4Box_agrees rfl (pure_agrees rfl (by norm_num))

theorem dref_agrees (b : DataReferenceBox) : sizeAgrees b.box_size b.write_box :=
  mp4Box_agrees rfl
    (seq2_agrees (pure_agreesMod (by simp [beBytes_length]))
      (agrees_toMod (url_agrees b.url_box)))

theorem dinf_agrees (b : DataInformationBox) : sizeAgrees b.box_size b.write_box :=
  mp4Box_agrees rfl (dref_agrees b.dref_box)

theorem stsz_agrees (b : SampleSizeBox) : sizeAgrees b.box_size b.write_box :=
  mp4Box_agrees rfl (pure_agrees (by simp [beBytes_length]) (by norm_num))

theorem stts_agrees (b : TimeToSampleBox) : sizeAgrees b.box_size b.write_box :=
  mp4Box_agrees rfl (pure_agrees (beBytes_length 4 0) (by norm_num))

theorem stco_agrees (b : ChunkOffsetBox) : sizeAgrees b.box_size b.write_box :=
  mp4Box_agrees rfl (pure_agrees (beBytes_length 4 0) (by norm_num))

theorem stsc_agrees (b : SampleToChunkBox) : sizeAgrees b.box_size b.write_box :=
  mp4Box_agrees rfl (pure_agrees (beBytes_length 4 0) (by norm_num))

theorem avcc_agrees (b : AvcConfigurationBox) : sizeAgrees b.box_size b.write_box :=
  mp4Box_agrees rfl (dryRun_agrees _)

theorem avcEntry_agrees (b : AvcSampleEntry) : sizeAgrees b.box_size b.write_box :=
  mp4Box_agrees rfl (entry_seq_agrees (agrees_toMod (avcc_agrees b.avcc_box)))

theorem esds_agrees (b : Mpeg4EsDescriptorBox) : sizeAgrees b.box_size b.write_box :=
  mp4Box_agrees rfl (dryRun_agrees _)

theorem aacEntry_agrees (b : AacSampleEntry) : sizeAgrees b.box_size b.write_box :=
  mp4Box_agrees rfl (entry_seq_agrees (agrees_toMod (esds_agrees b.esds_box)))

theorem sampleEntry_agrees (s : SampleEntry) : sizeAgrees s.box_size s.write_box := by
  cases s with
  | avc x => exact avcEntry_agrees x
  | aac x => exact aacEntry_agrees x

theorem stsd_agrees (b : SampleDescriptionBox) : sizeAgrees b.box_size b.write_box :=
  mp4Box_agrees rfl
    (guard_agrees (seq2_agrees
      (pure_agreesMod (by simp [beBytes_length]))
      (boxList_agrees (fun a _ => sampleEntry_agrees a))))

theorem stbl_agrees (b : SampleTableBox) : sizeAgrees b.box_size b.write_box :=
  mp4Box_agrees rfl
    (seq5_agrees (agrees_toMod (stsd_agrees b.stsd_box))
      (agrees_toMod (stts_agrees b.stts_box))
      (agrees_toMod (stsc_agrees b.stsc_box))
      (agrees_toMod (stsz_agrees b.stsz_box))
      (agrees_toMod (stco_agrees b.stco_box)))

theorem minf_agrees (b : MediaInformationBox) : sizeAgrees b.box_size b.write_box :=
  mp4Box_agrees rfl
    (seq4_agrees (optBox_agrees (fun a _ => vmhd_agrees a))
      (optBox_agrees (fun a _ => smhd_agrees a))
      (agrees_toMod (dinf_agrees b.dinf_box))
      (agrees_toMod (stbl_agrees b.stbl_box)))

theorem mdia_agrees (b : MediaBox) : sizeAgrees b.box_size b.write_box :=
  mp4Box_agrees rfl
    (seq3_agrees (agrees_toMod (mdhd_agrees b.mdhd_box))
      (agrees_toMod (hdlr_agrees b.hdlr_box))
      (agrees_toMod (minf_agrees b.minf_box)))

theorem trak_agrees (b : TrackBox) : sizeAgrees b.box_size b.write_box :=
  mp4Box_agrees rfl
    (seq3_agrees (agrees_toMod (tkhd_agrees b.tkhd_box))
      (agrees_toMod (edts_agrees b.edts_box))
      (agrees_toMod (mdia_agrees b.mdia_box)))

theorem mvex_agrees (b : MovieExtendsBox) : sizeAgrees b.box_size b.write_box :=
  mp4Box_agrees rfl
    (guard_agrees (seq2_agrees (optBox_agrees (fun a _ => mehd_agrees a))
      (boxList_agrees (fun a _ => trex_agrees a))))

theorem moov_agrees (b : MovieBox) : sizeAgrees b.box_size b.write_box :=
  mp4Box_agrees rfl
    (guard_agrees (seq3_agrees (agrees_toMod (mvhd_agrees b.mvhd_box))
      (boxList_agrees (fun a _ => trak_agrees a))
      (agrees_toMod (mvex_agrees b.mvex_box))))

theorem mfhd_agrees (b : MovieFragmentHeaderBox) : sizeAgrees b.box_size b.write_box :=
  mp4Box_agrees rfl (pure_agrees (beBytes_length 4 b.sequence_number) (by norm_num))

theorem tfhd_agrees (b : TrackFragmentHeaderBox) : sizeAgrees b.box_size b.write_box :=
  mp4Box_agrees rfl (dryRun_agrees _)

theorem tfdt_agrees (b : TrackFragmentBaseMediaDecodeTimeBox) :
    sizeAgrees b.box_size b.write_box :=
  mp4Box_agrees rfl (pure_agrees (beBytes_length 4 0) (by norm_num))

theorem trun_agrees (b : TrackRunBox) : sizeAgrees b.box_size b.write_box :=
  mp4Box_agrees rfl (dryRun_agrees _)

theorem traf_agrees (b : TrackFragmentBox) : sizeAgrees b.box_size b.write_box :=
  mp4Box_agrees rfl
    (seq3_agrees (agrees_toMod (tfhd_agrees b.tfhd_box))
      (agrees_toMod (tfdt_agrees b.tfdt_box))
      (agrees_toMod (trun_agrees b.trun_box)))

theorem moof_agrees (b : MovieFragmentBox) : sizeAgrees b.box_size b.write_box :=
  mp4Box_agrees rfl
    (guard_agrees (seq2_agrees (agrees_toMod (mfhd_agrees b.mfhd_box))
      (boxList_agrees (fun a _ => traf_agrees a))))

theorem mdat_agrees (b : MediaDataBox) : sizeAgrees b.box_size b.write_box :=
  mp4Box_agrees rfl (fun bs h => by cases h; rfl)

/-- The sum of every concrete box type of the `fmp4` module, with the
dispatching `box_size`/`write_box` of the `Mp4Box` trait. -/
inductive FmpBox where
  | ftyp (b : FileTypeBox)
  | mvhd (b : MovieHeaderBox)
  | tkhd (b : TrackHeaderBox)
  | elst (b : EditListBox)
  | edts (b : EditBox)
  | mdhd (b : MediaHeaderBox)
  | hdlr (b : HandlerReferenceBox)
  | vmhd (b : VideoMediaHeaderBox)
  | smhd (b : SoundMediaHeaderBox)
  | url (b : DataEntryUrlBox)
  | dref (b : DataReferenceBox)
  | dinf (b : DataInformationBox)
  | stsz (b : SampleSizeBox)
  | stts (b : TimeToSampleBox)
  | stco (b : ChunkOffsetBox)
  | stsc (b : SampleToChunkBox)
  | avcc (b : AvcConfigurationBox)
  | avcEntry (b : AvcSampleEntry)
  | esds (b : Mpeg4EsDescriptorBox)
  | aacEntry (b : AacSampleEntry)
  | sampleEntry (b : SampleEntry)
  | stsd (b : SampleDescriptionBox)
  | stbl (b : SampleTableBox)
  | minf (b : MediaInformationBox)
  | mdia (b : MediaBox)
  | trak (b : TrackBox)
  | mehd (b : MovieExtendsHeaderBox)
  | trex (b : TrackExtendsBox)
  | mvex (b : MovieExtendsBox)
  | moov (b : MovieBox)
  | mfhd (b : MovieFragmentHeaderBox)
  | tfhd (b : TrackFragmentHeaderBox)
  | tfdt (b : TrackFragmentBaseMediaDecodeTimeBox)
  | trun (b : TrackRunBox)
  | traf (b : TrackFragmentBox)
  | moof (b : MovieFragmentBox)
  | mdat (b : MediaDataBox)
deriving DecidableEq, Repr

/-- Dispatch of `Mp4Box::box_size` over the box sum. -/
def FmpBox.box_size : FmpBox → Except Err Nat
  | .ftyp b => b.box_size
  | .mvhd b => b.box_size
  | .tkhd b => b.box_size
  | .elst b => b.box_size
  | .edts b => b.box_size
  | .mdhd b => b.box_size
  | .hdlr b => b.box_size
  | .vmhd b => b.box_size
  | .smhd b => b.box_size
  | .url b => b.box_size
  | .dref b => b.box_size
  | .dinf b => b.box_size
  | .stsz b => b.box_size
  | .stts b => b.box_size
  | .stco b => b.box_size
  | .stsc b => b.box_size
  | .avcc b => b.box_size
  | .avcEntry b => b.box_size
  | .esds b => b.box_size
  | .aacEntry b => b.box_size
  | .sampleEntry b => b.box_size
  | .stsd b => b.box_size
  | .stbl b => b.box_size
  | .minf b => b.box_size
  | .mdia b => b.box_size
  | .trak b => b.box_size
  | .mehd b => b.box_size
  | .trex b => b.box_size
  | .mvex b => b.box_size
  | .moov b => b.box_size
  | .mfhd b => b.box_size
  | .tfhd b => b.box_size
  | .tfdt b => b.box_size
  | .trun b => b.box_size
  | .traf b => b.box_size
  | .moof b => b.box_size
  | .mdat b => b.box_size

/-- Dispatch of `Mp4Box::write_box` over the box sum. -/
def FmpBox.write_box : FmpBox → Except Err (List Nat)
  | .ftyp b => b.write_box
  | .mvhd b => b.write_box
  | .tkhd b => b.write_box
  | .elst b => b.write_box
  | .edts b => b.write_box
  | .mdhd b => b.write_box
  | .hdlr b => b.write_box
  | .vmhd b => b.write_box
  | .smhd b => b.write_box
  | .url b => b.write_box
  | .dref b => b.write_box
  | .dinf b => b.write_box
  | .stsz b => b.write_box
  | .stts b => b.write_box
  | .stco b => b.write_box
  | .stsc b => b.write_box
  | .avcc b => b.write_box
  | .avcEntry b => b.write_box
  | .esds b => b.write_box
  | .aacEntry b => b.write_box
  | .sampleEntry b => b.write_box
  | .stsd b => b.write_box
  | .stbl b => b.write_box
  | .minf b => b.write_box
  | .mdia b => b.write_box
  | .trak b => b.write_box
  | .mehd b => b.write_box
  | .trex b => b.write_box
  | .mvex b => b.write_box
  | .moov b => b.write_box
  | .mfhd b => b.write_box
  | .tfhd b => b.write_box
  | .tfdt b => b.write_box
  | .trun b => b.write_box
  | .traf b => b.write_box
  | .moof b => b.write_box
  | .mdat b => b.write_box

/-! ### Annex-B splitter: boundary structure under the no-embedded-start-code
side conditions -/

theorem nalUnitsFromFuel_nil (f : Nat) : nalUnitsFromFuel f [] = [] := by
  cases f with
  | zero => rfl
  | succ f => rw [nalUnitsFromFuel, if_pos rfl]

theorem take_len_append (N X : List Nat) : (N ++ X).take N.length = N := by
  induction N with
  | nil => rfl
  | cons a as ih => rw [List.cons_append, List.length_cons, List.take_succ_cons, ih]

theorem drop_len_add (N X : List Nat) (k : Nat) :
    (N ++ X).drop (N.length + k) = X.drop k := by
  induction N with
  | nil => simp
  | cons a as ih =>
    rw [List.cons_append, List.length_cons]
    have hcomm : as.length + 1 + k = as.length + k + 1 := by omega
    rw [hcomm, List.drop_succ_cons]
    exact ih

theorem nalBoundary_sc3 (M : List Nat) : nalBoundary ([0, 0, 1] ++ M) = (0, 3) := by
  show nalBoundary (0 :: 0 :: 1 :: M) = (0, 3)
  rw [nalBoundary, if_neg (by simp [List.isPrefixOf]), if_pos (by simp [List.isPrefixOf])]

theorem nalBoundary_sc4 (M : List Nat) : nalBoundary ([0, 0, 0, 1] ++ M) = (0, 4) := by
  show nalBoundary (0 :: 0 :: 0 :: 1 :: M) = (0, 4)
  rw [nalBoundary, if_pos (by simp [List.isPrefixOf])]

theorem nalBoundary_append (N T : List Nat) (sc : Nat)
    (hsc : hasSC N = false) (hlast : N.getLast? ≠ some 0)
    (hT : nalBoundary T = (0, sc)) :
    nalBoundary (N ++ T) = (N.length, N.length + sc) := by
  induction N with
  | nil => simpa using hT
  | cons x xs ih =>
    rw [hasSC, Bool.or_eq_false_iff] at hsc
    obtain ⟨hpre, hsc2⟩ := hsc
    have hnp3 : ¬(([0, 0, 1] : List Nat).isPrefixOf (x :: (xs ++ T)) = true) := by
      intro hcontra
      cases xs with
      | nil =>
        simp only [List.getLast?_singleton, Ne, Option.some.injEq] at hlast
        simp [List.isPrefixOf, beq_iff_eq] at hcontra
        exact hlast hcontra.1.symm
      | cons y ys =>
        cases ys with
        | nil =>
          simp only [List.getLast?_cons_cons, List.getLast?_singleton, Ne,
            Option.some.injEq] at hlast
          simp [List.isPrefixOf, beq_iff_eq] at hcontra
          exact hlast hcontra.2.1.symm
        | cons z zs =>
          simp [List.isPrefixOf, beq_iff_eq] at hcontra hpre
          exact hpre hcontra.1 hcontra.2.1 hcontra.2.2
    have hnp4 : ¬(([0, 0, 0, 1] : List Nat).isPrefixOf (x :: (xs ++ T)) = true) := by
      intro hcontra
      cases xs with
      | nil =>
        simp only [List.getLast?_singleton, Ne, Option.some.injEq] at hlast
        simp [List.isPrefixOf, beq_iff_eq] at hcontra
        exact hlast hcontra.1.symm
      | cons y ys =>
        cases ys with
        | nil =>
          simp only [List.getLast?_cons_cons, List.getLast?_singleton, Ne,
            Option.some.injEq] at hlast
          simp [List.isPrefixOf, beq_iff_eq] at hcontra
          exact hlast hcontra.2.1.symm
        | cons z zs =>
          cases zs with
          | nil =>
            simp only [List.getLast?_cons_cons, List.getLast?_singleton, Ne,
              Option.some.injEq] at hlast
            simp [List.isPrefixOf, beq_iff_eq] at hcontra
            exact hlast hcontra.2.2.1.symm
          | cons w ws =>
            rw [hasSC, Bool.or_eq_false_iff] at hsc2
            have hpre2 := hsc2.1
            simp [List.isPrefixOf, beq_iff_eq] at hcontra hpre2
            exact hpre2 hcontra.2.1 hcontra.2.2.1 hcontra.2.2.2
    cases xs with
    | nil =>
      simp only [List.nil_append] at hnp3 hnp4 ⊢
      rw [List.cons_append, List.nil_append, nalBoundary, if_neg hnp4, if_neg hnp3]
      simp [hT]
      omega
    | cons y ys =>
      have hlast2 : (y :: ys).getLast? ≠ some 0 := by
        rwa [List.getLast?_cons_cons] at hlast
      have hb := ih hsc2 hlast2
      rw [List.cons_append, nalBoundary, if_neg hnp4, if_neg hnp3, hb]
      simp only [List.length_cons, Prod.mk.injEq]
      exact ⟨trivial, by omega⟩

theorem nalUnitsFromFuel_annexB (items : List (Bool × List Nat)) :
    ∀ (N : List Nat) (fuel : Nat),
      (N ++ annexB items).length < fuel →
      N ≠ [] → hasSC N = false → N.getLast? ≠ some 0 →
      (∀ p ∈ items, p.2 ≠ [] ∧ hasSC p.2 = false ∧ p.2.getLast? ≠ some 0) →
      nalUnitsFromFuel fuel (N ++ annexB items) = N :: items.map Prod.snd := by
  induction items with
  | nil =>
    intro N fuel hfuel hne hsc hlast _
    simp only [annexB, List.append_nil] at hfuel ⊢
    cases fuel with
    | zero => omega
    | succ f =>
      rw [nalUnitsFromFuel, if_neg hne]
      have hb := nalBoundary_append N [] 0 hsc hlast rfl
      rw [List.append_nil] at hb
      rw [hb]
      simp [nalUnitsFromFuel_nil]
  | cons p rest ih =>
    intro N fuel hfuel hne hsc hlast hcond
    obtain ⟨fl, u⟩ := p
    obtain ⟨hu1, hu2, hu3⟩ := hcond (fl, u) (List.mem_cons_self _ _)
    have hcond2 : ∀ q ∈ rest, q.2 ≠ [] ∧ hasSC q.2 = false ∧ q.2.getLast? ≠ some 0 :=
      fun q hq => hcond q (List.mem_cons_of_mem _ hq)
    have hT : nalBoundary (startCode fl ++ (u ++ annexB rest)) =
        (0, if fl then 4 else 3) := by
      cases fl
      · exact nalBoundary_sc3 _
      · exact nalBoundary_sc4 _
    simp only [annexB, List.append_assoc] at hfuel ⊢
    cases fuel with
    | zero => omega
    | succ f =>
      have hbytes : N ++ (startCode fl ++ (u ++ annexB rest)) ≠ [] := by
        cases N with
        | nil => exact absurd rfl hne
        | cons a as => simp
      rw [nalUnitsFromFuel, if_neg hbytes]
      have hb := nalBoundary_append N (startCode fl ++ (u ++ annexB rest))
        (if fl then 4 else 3) hsc hlast hT
      rw [hb]
      have hdrop : (N ++ (startCode fl ++ (u ++ annexB rest))).drop
          (N.length + (if fl then 4 else 3)) = u ++ annexB rest := by
        rw [drop_len_add]
        cases fl <;> simp [startCode]
      have hlen2 : (u ++ annexB rest).length < f := by
        cases fl <;> simp [startCode, List.length_append] at hfuel ⊢ <;> omega
      simp only [take_len_append, hdrop]
      rw [ih u f hlen2 hu1 hu2 hu3 hcond2]
      simp

theorem moof_patch2_len (mfhd : MovieFragmentHeaderBox)
    (tfhd0 : TrackFragmentHeaderBox) (tfdt0 : TrackFragmentBaseMediaDecodeTimeBox)
    (fsf0 : Option SampleFlags) (smps0 : List Sample)
    (tfhd1 : TrackFragmentHeaderBox) (tfdt1 : TrackFragmentBaseMediaDecodeTimeBox)
    (fsf1 : Option SampleFlags) (smps1 : List Sample)
    (d0 d1 off0 off1 : Int) {counted moofBytes : List Nat}
    (hcount : MovieFragmentBox.write_box ⟨mfhd,
        [⟨tfhd0, tfdt0, ⟨some d0, fsf0, smps0⟩⟩,
         ⟨tfhd1, tfdt1, ⟨some d1, fsf1, smps1⟩⟩]⟩ = .ok counted)
    (hm : MovieFragmentBox.write_box ⟨mfhd,
        [⟨tfhd0, tfdt0, ⟨some off0, fsf0, smps0⟩⟩,
         ⟨tfhd1, tfdt1, ⟨some off1, fsf1, smps1⟩⟩]⟩ = .ok moofBytes) :
    moofBytes.length = counted.length := by
  have hmap := moof_patch_write_map mfhd
    ⟨tfhd0, tfdt0, ⟨some d0, fsf0, smps0⟩⟩ ⟨tfhd0, tfdt0, ⟨some off0, fsf0, smps0⟩⟩
    ⟨tfhd1, tfdt1, ⟨some d1, fsf1, smps1⟩⟩ ⟨tfhd1, tfdt1, ⟨some off1, fsf1, smps1⟩⟩
    (traf_patch_box_size tfhd0 tfdt0 d0 off0 fsf0 smps0)
    (traf_patch_box_size tfhd1 tfdt1 d1 off1 fsf1 smps1)
    (traf_patch_write_map tfhd0 tfdt0 d0 off0 fsf0 smps0)
    (traf_patch_write_map tfhd1 tfdt1 d1 off1 fsf1 smps1)
  rw [hcount, hm] at hmap
  simpa [Except.map] using hmap

/-! ## Claim theorems -/

/-- C2 (counterexample): with a video duration of 100 and an audio duration
of 1024 (one 48 kHz AAC frame), `make_initialization_segment` sets
`mvhd.timescale` to `aac::SAMPLES_IN_FRAME = 1024`, not to the ADTS
sampling frequency 48000 the claim asserts. -/
theorem c2_counterexample :
    (make_initialization_segment shortVideoStream oneFrameAacStream).map
        (fun s => s.moov_box.mvhd_box.timescale) = .ok 1024 ∧
      (1024 : Nat) ≠ oneFrameAacStream.adts_header.sampling_frequency.as_u32 := by
  exact ⟨by decide, by decide⟩

/-- C2 (amended): when both durations are computed, the longer one governs
`mvhd`: if the audio duration exceeds the video duration then
`mvhd.timescale = SAMPLES_IN_FRAME = 1024` (the AAC samples-per-frame
constant, not the sampling frequency) and `mvhd.duration` and
`mehd.fragment_duration` are the audio duration; otherwise
`mvhd.timescale = 90000` and both durations are the video duration. -/
theorem c2_mvhd_governed_by_longer_duration
    (avc : AvcStream) (aac : AacStream) (seg : InitializationSegment)
    (vd ad : Nat)
    (h : make_initialization_segment avc aac = .ok seg)
    (hv : avc.duration = .ok vd) (ha : aac.duration = .ok ad) :
    (if vd < ad then
      seg.moov_box.mvhd_box.timescale = SAMPLES_IN_FRAME ∧
      seg.moov_box.mvhd_box.duration = ad ∧
      seg.moov_box.mvex_box.mehd_box = some { fragment_duration := ad }
    else
      seg.moov_box.mvhd_box.timescale = timestampRESOLUTION ∧
      seg.moov_box.mvhd_box.duration = vd ∧
      seg.moov_box.mvex_box.mehd_box = some { fragment_duration := vd }) := by
  rw [make_initialization_segment, hv, ha] at h
  simp only [Bind.bind, Except.bind, Except.ok.injEq] at h
  subst h
  by_cases hlt : vd < ad <;>
    simp [hlt, InitializationSegment.default, MovieBox.default,
      MovieExtendsBox.default]

/-- C2 (witness): the amended statement at the concrete streams of the
counterexample (video duration 100, audio duration 1024). -/
theorem c2_mvhd_governed_witness :
    (make_initialization_segment shortVideoStream oneFrameAacStream).map
        (fun s => (s.moov_box.mvhd_box.timescale, s.moov_box.mvhd_box.duration,
                   s.moov_box.mvex_box.mehd_box)) =
      .ok (SAMPLES_IN_FRAME, 1024, some { fragment_duration := 1024 }) := by
  cases hseg : make_initialization_segment shortVideoStream oneFrameAacStream with
  | error e =>
    have hok : (make_initialization_segment shortVideoStream oneFrameAacStream).isOk = true := by
      decide
    rw [hseg] at hok
    simp [Except.isOk, Except.toBool] at hok
  | ok seg =>
    have hmain := c2_mvhd_governed_by_longer_duration shortVideoStream oneFrameAacStream
      seg 100 1024 hseg (by decide) (by decide)
    simp only [show (100 < 1024) = True by simp, if_true] at hmain
    simp [Except.map, hmain.1, hmain.2.1, hmain.2.2]

/-- C4 (counterexample): on spec scenario S3 — video PES
`(PTS 3003, DTS 0)` then `(PTS 0, DTS 1501)` — the claim demands duration
3003 at decode index 1 and duration 0 at decode index 0.  The code instead
rebases the second PTS through the wrap branch (`0 < 3003` triggers
`+ 2 ^ 33`) and assigns each sorted gap to the *later* pair's index, so
decode index 0 ends with duration 3003 and decode index 1 with
`(2 ^ 33 - 3003) % 2 ^ 32 = 4294964293`. -/
theorem c4_counterexample :
    ¬ ((read_avc_aac_stream reorderPkts).map
          (fun p => p.1.samples.map Sample.duration) =
        .ok [some 0, some 3003]) := by
  decide

/-- C4 (amended): after timing resolution the sample at the decode index of
the later sorted pair receives that pair's timestamp gap (as `u32`), and
decode index 0 is then overwritten with `max(0, start_time())`; on scenario
S3 the second PES's PTS is rebased through the wrap branch, so decode index
0 ends with duration `3003` and decode index 1 with
`(2 ^ 33 - 3003) % 2 ^ 32`. -/
theorem c4_reorder_durations :
    (read_avc_aac_stream reorderPkts).map
        (fun p => p.1.samples.map Sample.duration) =
      .ok [some 3003, some ((2 ^ 33 - 3003) % 2 ^ 32)] := by
  decide

/-- C6: the claim says `to_fmp4` never panics and that an ADTS frame whose
declared payload runs past the end of the PES payload yields an error.  The
audio loop slices `&bytes[..frame_length - 7]` with no bounds check, so the
input below — a valid video PES followed by an audio PES that is exactly
one ADTS header declaring one payload byte that is not there — makes the
conversion abort with an out-of-range slice panic rather than return an
error. -/
theorem c6_adts_slice_panics :
    to_fmp4 truncatedAudioPkts = .error .panicked := by
  decide

/-- C3: after intake, durations are resolved from the sorted
`(rebased PTS, decode index)` pairs: for every consecutive sorted pair
`(t₁, j)`, `(t₂, i)` the sample at decode index `i` receives duration
`t₂ - t₁` (as `u32`), and afterwards the sample at decode index 0 receives
`max(0, start_time())`, where `start_time()` is the first decode-order
sample's composition time offset (or 0 when absent).  The hypotheses state
what the intake loop guarantees: decode indices are pairwise distinct and
in range. -/
theorem c3_duration_resolution
    (s : IntakeState) (avc : AvcStream) (aac : AacStream)
    (res : AvcStream × AacStream)
    (h : finalizeStreams s = .ok res)
    (havc : s.avc = some avc) (haac : s.aac = some aac)
    (hnd : (s.avc_timestamps.map Prod.snd).Nodup)
    (hbound : ∀ pr ∈ s.avc_timestamps, pr.2 < avc.samples.length)
    (h0 : 0 < avc.samples.length)
    (k t₁ t₂ j i : Nat)
    (hk : (sortTs s.avc_timestamps)[k]? = some (t₁, j))
    (hk1 : (sortTs s.avc_timestamps)[k + 1]? = some (t₂, i))
    (hi : i ≠ 0) :
    (res.1.samples[i]?).map Sample.duration = some (some ((t₂ - t₁) % 2 ^ 32)) ∧
    (res.1.samples[0]?).map Sample.duration =
      some (some (max 0 avc.start_time).toNat) := by
  -- the sorted list inherits distinct indices and in-range indices
  have hperm := sortTs_perm s.avc_timestamps
  have hndSorted : ((sortTs s.avc_timestamps).map Prod.snd).Nodup :=
    ((hperm.map Prod.snd).nodup_iff).mpr hnd
  have hboundSorted : ∀ pr ∈ sortTs s.avc_timestamps, pr.2 < avc.samples.length :=
    fun pr hpr => hbound pr (hperm.mem_iff.mp hpr)
  -- unfold finalization
  rw [finalizeStreams, havc, haac] at h
  simp only [okOr, Bind.bind, Except.bind, Except.ok.injEq] at h
  set sorted := sortTs s.avc_timestamps with hsortedDef
  set samples1 := assignSortedDurations sorted avc.samples with hs1
  have hlen1 : samples1.length = avc.samples.length := by
    rw [hs1, assignSortedDurations]
    exact foldl_assign_length _ _
  have hne1 : samples1.isEmpty = false := by
    cases hempty : samples1 with
    | nil => rw [hempty] at hlen1; simp at hlen1; omega
    | cons a as => simp
  simp only [hne1, Bool.false_eq_true, if_false] at h
  have hres1 : res.1.samples = modifyIdx
      (setSampleDuration
        (max 0 (AvcStream.start_time { avc with samples := samples1 })).toNat)
      0 samples1 := by
    rw [← h]
  -- the zip pair at position k and the uniqueness of its target index
  have hpair : (sorted.zip sorted.tail)[k]? = some ((t₁, j), (t₂, i)) := by
    apply List.getElem?_zip_eq_some.mpr
    exact ⟨hk, by rw [List.getElem?_tail]; exact hk1⟩
  have hothers : ∀ m pr, m ≠ k → (sorted.zip sorted.tail)[m]? = some pr →
      pr.2.2 ≠ ((t₁, j), (t₂, i)).2.2 := by
    intro m pr hmk hm hcontra
    obtain ⟨hm1, hm2⟩ := List.getElem?_zip_eq_some.mp hm
    rw [List.getElem?_tail] at hm2
    have hmap1 : (sorted.map Prod.snd)[m + 1]? = some i := by
      rw [List.getElem?_map, hm2]
      simpa using hcontra
    have hmap2 : (sorted.map Prod.snd)[k + 1]? = some i := by
      rw [List.getElem?_map, hk1]; rfl
    exact nodup_getElem?_ne hndSorted (by omega) hmap1 hmap2
  -- sample i < length
  have hiMem : (t₂, i) ∈ sorted := List.mem_iff_getElem?.mpr ⟨k + 1, hk1⟩
  have hiLt : i < avc.samples.length := hboundSorted _ hiMem
  obtain ⟨smpI, hsmpI⟩ : ∃ x, avc.samples[i]? = some x := by
    cases hx : avc.samples[i]? with
    | none => rw [List.getElem?_eq_none_iff] at hx; omega
    | some x => exact ⟨x, rfl⟩
  -- value assigned at index i by the sort loop
  have hAtI : samples1[i]? = some (setSampleDuration ((t₂ - t₁) % 2 ^ 32) smpI) := by
    rw [hs1, assignSortedDurations, foldl_assign_hit avc.samples hpair hothers]
    simp [hsmpI]
  constructor
  · -- the final overwrite touches index 0 only
    rw [hres1, modifyIdx_getElem_ne _ _ (fun hc => hi hc.symm), hAtI]
    simp [setSampleDuration]
  · -- index 0 receives max(0, start_time)
    have h0len : 0 < samples1.length := by omega
    obtain ⟨smp0, hsmp0⟩ : ∃ x, samples1[0]? = some x := by
      cases hx : samples1[0]? with
      | none => rw [List.getElem?_eq_none_iff] at hx; omega
      | some x => exact ⟨x, rfl⟩
    rw [hres1, modifyIdx_getElem_eq, hsmp0]
    -- start_time is preserved by the duration assignments
    have hcto : samples1.map Sample.composition_time_offset =
        avc.samples.map Sample.composition_time_offset := by
      rw [hs1, assignSortedDurations]
      exact foldl_assign_map _ _ _ (fun d x => rfl)
    have hstart : AvcStream.start_time { avc with samples := samples1 } =
        avc.start_time := by
      rw [AvcStream.start_time, AvcStream.start_time]
      have h1 : samples1.head?.map Sample.composition_time_offset =
          avc.samples.head?.map Sample.composition_time_offset := by
        rw [List.head?_eq_getElem?, List.head?_eq_getElem?,
          ← List.getElem?_map, ← List.getElem?_map, hcto]
      cases ha : samples1.head? with
      | none =>
        rw [ha] at h1
        cases hb : avc.samples.head? with
        | none => simp
        | some b => rw [hb] at h1; simp at h1
      | some a =>
        rw [ha] at h1
        cases hb : avc.samples.head? with
        | none => rw [hb] at h1; simp at h1
        | some b =>
          rw [hb] at h1
          simp at h1
          simp [h1]
    simp [setSampleDuration, hstart]

/-- C3 (witness): the resolution statement at a concrete two-sample state
(timestamps `[(0, 0), (3003, 1)]`, both composition offsets 0). -/
theorem c3_duration_resolution_witness :
    (finalizeStreams twoSampleState).map
        (fun p => ((p.1.samples[1]?).map Sample.duration,
                   (p.1.samples[0]?).map Sample.duration)) =
      .ok (some (some 3003), some (some 0)) := by
  cases hres : finalizeStreams twoSampleState with
  | error e =>
    have hok : (finalizeStreams twoSampleState).isOk = true := by decide
    rw [hres] at hok
    simp [Except.isOk, Except.toBool] at hok
  | ok res =>
    have hmain := c3_duration_resolution twoSampleState twoSampleAvcIn
      oneFrameAacStream res hres (by decide) (by decide) (by decide)
      (by decide) (by decide) 0 0 3003 0 1 (by decide) (by decide) (by decide)
    have h1 : (max 0 twoSampleAvcIn.start_time).toNat = 0 := by decide
    rw [h1] at hmain
    simp [Except.map, hmain.1, hmain.2]

/-- The assembler state after the first PES of `wrapPkts` (the video PES
whose PTS is `2 ^ 33 - 1500`). -/
def wrapFirstState : IntakeState :=
  match intakeStep IntakeState.initial (videoPes (2 ^ 33 - 1500) (2 ^ 33 - 1500) firstVideoData) with
  | .ok s => s
  | .error _ => IntakeState.initial

/-- C5: the reordering key pushed for a video PES is the PTS rebased against
the stored offset (the first video PES's PTS): `pts - first_pts` when
`first_pts ≤ pts`, and `pts + 2 ^ 33 - first_pts` (the TS clock modulus,
`Timestamp::MAX`) otherwise; in particular, for first PTS `2 ^ 33 - 1500`
and second PTS `1500` the stored keys are 0 and 3000 and the second
sample's slot receives duration 3000. -/
theorem c5_pts_rebase (s : IntakeState) (pes : PesPacket) (pts fp : Nat)
    (s' : IntakeState)
    (h : intakeStep s pes = .ok s')
    (hv : pes.is_video = true) (hp : pes.pts = some pts)
    (hne : s.avc_timestamps ≠ []) (hfp : s.avc_timestamp_offset = fp) :
    s'.avc_timestamps = s.avc_timestamps ++
      [((if pts < fp then pts + timestampMAX - fp else pts - fp),
        s.avc_timestamps.length)] ∧
    (wrapPkts.foldlM intakeStep IntakeState.initial).map IntakeState.avc_timestamps =
      .ok [(0, 0), (3000, 1)] ∧
    (read_avc_aac_stream wrapPkts).map (fun p => p.1.samples.map Sample.duration) =
      .ok [some 0, some 3000] := by
  refine ⟨?_, by decide, by decide⟩
  rw [intakeStep] at h
  cases hst : pes.stream_type with
  | none => rw [hst] at h; simp [okOr, Bind.bind, Except.bind] at h
  | some st =>
    rw [hst] at h
    simp only [okOr, Bind.bind, Except.bind, hv, if_true, hp] at h
    by_cases hty : st = StreamType.h264
    · subst hty
      simp only [ne_eq, not_true_eq_false, reduceIte] at h
      have hlen0 : s.avc_timestamps.length ≠ 0 := fun hc => hne (List.length_eq_zero.mp hc)
      simp only [hlen0, if_false, hfp] at h
      split at h
      · exact absurd h (by simp)
      split at h
      · exact absurd h (by simp)
      simp only [Except.ok.injEq] at h
      subst h
      by_cases hw : pts < fp <;> simp [hw]
    · simp [hty] at h

/-- C5 (witness): the general rebase statement applied to the state after
the first `wrapPkts` PES and the second (wrapped) video PES. -/
theorem c5_pts_rebase_witness :
    (intakeStep wrapFirstState (videoPes 1500 1500 idrData)).map
        IntakeState.avc_timestamps = .ok [(0, 0), (3000, 1)] := by
  cases hstep : intakeStep wrapFirstState (videoPes 1500 1500 idrData) with
  | error e =>
    have hok : (intakeStep wrapFirstState (videoPes 1500 1500 idrData)).isOk = true := by
      decide
    rw [hstep] at hok
    simp [Except.isOk, Except.toBool] at hok
  | ok s' =>
    have hmain := (c5_pts_rebase wrapFirstState (videoPes 1500 1500 idrData)
      1500 (2 ^ 33 - 1500) s' hstep (by decide) (by decide) (by decide) (by decide)).1
    have hlist : wrapFirstState.avc_timestamps = [(0, 0)] := by decide
    rw [hlist] at hmain
    simp only [Except.map, hmain]
    simp only [timestampMAX]
    norm_num

/-- C8 (amended): for every concrete box type of the `fmp4` module and every
value `B` of that type, whenever `write_box` succeeds, the box's `box_size`
computation (analytic or dry-run) returns the number of emitted bytes reduced
modulo `2^32` — the sizes are `u32` in the source — and hence the exact byte
count for every box that serializes below `2^32` bytes. -/
theorem c8_box_size_counts_write (B : FmpBox) (bs : List Nat)
    (h : B.write_box = .ok bs) : B.box_size = .ok (bs.length % 2 ^ 32) := by
  cases B with
  | ftyp b => exact ftyp_agrees b bs h
  | mvhd b => exact mvhd_agrees b bs h
  | tkhd b => exact tkhd_agrees b bs h
  | elst b => exact elst_agrees b bs h
  | edts b => exact edts_agrees b bs h
  | mdhd b => exact mdhd_agrees b bs h
  | hdlr b => exact hdlr_agrees b bs h
  | vmhd b => exact vmhd_agrees b bs h
  | smhd b => exact smhd_agrees b bs h
  | url b => exact url_agrees b bs h
  | dref b => exact dref_agrees b bs h
  | dinf b => exact dinf_agrees b bs h
  | stsz b => exact stsz_agrees b bs h
  | stts b => exact stts_agrees b bs h
  | stco b => exact stco_agrees b bs h
  | stsc b => exact stsc_agrees b bs h
  | avcc b => exact avcc_agrees b bs h
  | avcEntry b => exact avcEntry_agrees b bs h
  | esds b => exact esds_agrees b bs h
  | aacEntry b => exact aacEntry_agrees b bs h
  | sampleEntry b => exact sampleEntry_agrees b bs h
  | stsd b => exact stsd_agrees b bs h
  | stbl b => exact stbl_agrees b bs h
  | minf b => exact minf_agrees b bs h
  | mdia b => exact mdia_agrees b bs h
  | trak b => exact trak_agrees b bs h
  | mehd b => exact mehd_agrees b bs h
  | trex b => exact trex_agrees b bs h
  | mvex b => exact mvex_agrees b bs h
  | moov b => exact moov_agrees b bs h
  | mfhd b => exact mfhd_agrees b bs h
  | tfhd b => exact tfhd_agrees b bs h
  | tfdt b => exact tfdt_agrees b bs h
  | trun b => exact trun_agrees b bs h
  | traf b => exact traf_agrees b bs h
  | moof b => exact moof_agrees b bs h
  | mdat b => exact mdat_agrees b bs h

/-- C8 (witness): the `ftyp` box writes exactly its 16 declared bytes and
`box_size` indeed returns 16. -/
theorem c8_box_size_counts_write_witness :
    FmpBox.write_box (.ftyp {}) =
      .ok [0, 0, 0, 16, 102, 116, 121, 112, 105, 115, 111, 109, 0, 0, 2, 0] ∧
    FmpBox.box_size (.ftyp {}) = .ok 16 :=
  ⟨by decide, by
    have h := c8_box_size_counts_write (.ftyp {})
      [0, 0, 0, 16, 102, 116, 121, 112, 105, 115, 111, 109, 0, 0, 2, 0] (by decide)
    simpa using h⟩

theorem mdat_write_box_eq (L : List Nat) :
    MediaDataBox.write_box { data := L } =
      .ok (beBytes 4 ((8 + L.length % 2 ^ 32) % 2 ^ 32) ++
        ([109, 100, 97, 116] ++ L)) := by
  simp only [MediaDataBox.write_box, mp4WriteBox, mp4BoxSize,
    MediaDataBox.box_payload_size, MediaDataBox.write_box_payload,
    Bind.bind, Except.bind, Option.isSome_none, Bool.or_self,
    Bool.false_eq_true, if_false, Except.ok.injEq, List.append_nil,
    List.append_assoc, List.cons_append, List.nil_append]

theorem exceptMap_ok_len (L : List Nat) :
    (Except.ok L : Except Err (List Nat)).map List.length = .ok L.length := rfl

theorem mdat_box_size_eq (L : List Nat) :
    MediaDataBox.box_size { data := L } =
      .ok ((8 + L.length % 2 ^ 32) % 2 ^ 32) := by
  simp only [MediaDataBox.box_size, mp4BoxSize, MediaDataBox.box_payload_size,
    Bind.bind, Except.bind, Option.isSome_none, Bool.or_self,
    Bool.false_eq_true, if_false]

/-- C8 (counterexample): a `2^32`-byte mdat box refutes the exact statement:
its serialization has `2^32 + 8` bytes, but `box_size` computes in `u32` and
wraps to 8. -/
theorem c8_counterexample :
    MediaDataBox.box_size { data := List.replicate (2 ^ 32) 0 } = .ok 8 ∧
    (MediaDataBox.write_box { data := List.replicate (2 ^ 32) 0 }).map
      List.length = .ok (2 ^ 32 + 8) ∧
    (2 ^ 32 + 8 : Nat) ≠ 8 := by
  refine ⟨?_, ?_, by norm_num⟩
  · rw [mdat_box_size_eq, List.length_replicate]
    norm_num
  · rw [mdat_write_box_eq, exceptMap_ok_len, List.length_append,
      List.length_append, beBytes_length, List.length_replicate]
    norm_num

/-- C9 (amended): for every Annex-B stream assembled from start-code/NAL-unit
pairs in which every unit is non-empty, contains no embedded 3-byte start-code
pattern `00 00 01`, and does not end in a zero byte, the splitter returns
exactly the input NAL units, byte for byte, with start codes excluded. -/
theorem c9_annexb_round_trip (items : List (Bool × List Nat))
    (hne : items ≠ [])
    (hcond : ∀ p ∈ items, p.2 ≠ [] ∧ hasSC p.2 = false ∧ p.2.getLast? ≠ some 0) :
    byteStreamFormatNalUnits (annexB items) = .ok (items.map Prod.snd) := by
  cases items with
  | nil => exact absurd rfl hne
  | cons p rest =>
    obtain ⟨fl, u⟩ := p
    obtain ⟨hu1, hu2, hu3⟩ := hcond (fl, u) (List.mem_cons_self _ _)
    have hcond2 : ∀ q ∈ rest, q.2 ≠ [] ∧ hasSC q.2 = false ∧ q.2.getLast? ≠ some 0 :=
      fun q hq => hcond q (List.mem_cons_of_mem _ hq)
    have hmain := nalUnitsFromFuel_annexB rest u ((u ++ annexB rest).length + 1)
      (by omega) hu1 hu2 hu3 hcond2
    cases fl with
    | false =>
      rw [show annexB ((false, u) :: rest) = 0 :: 0 :: 1 :: (u ++ annexB rest) from by
        simp [annexB, startCode]]
      rw [byteStreamFormatNalUnits, if_pos (by simp [List.isPrefixOf])]
      rw [show (0 :: 0 :: 1 :: (u ++ annexB rest)).drop 3 = u ++ annexB rest from rfl]
      rw [nalUnitsFrom, hmain]
      simp
    | true =>
      rw [show annexB ((true, u) :: rest) = 0 :: 0 :: 0 :: 1 :: (u ++ annexB rest) from by
        simp [annexB, startCode]]
      rw [byteStreamFormatNalUnits, if_neg (by simp [List.isPrefixOf]),
        if_pos (by simp [List.isPrefixOf])]
      rw [show (0 :: 0 :: 0 :: 1 :: (u ++ annexB rest)).drop 4 = u ++ annexB rest from rfl]
      rw [nalUnitsFrom, hmain]
      simp

/-- C9 (witness): the round trip applied to two units `[103, 1]` (behind a
3-byte start code) and `[104]` (behind a 4-byte start code). -/
theorem c9_annexb_round_trip_witness :
    byteStreamFormatNalUnits (annexB [(false, [103, 1]), (true, [104])]) =
      .ok [[103, 1], [104]] :=
  c9_annexb_round_trip [(false, [103, 1]), (true, [104])] (by decide) (by decide)

/-- C9 (counterexample): a single NAL unit that itself contains a start
code refutes the unconditional splitter round trip: assembling `k = 1` unit
`[0, 0, 0, 1]` behind a 3-byte start code yields the stream
`[0, 0, 1, 0, 0, 0, 1]`, which the splitter cuts into one empty slice
instead of the original unit. -/
theorem c9_counterexample :
    byteStreamFormatNalUnits (annexB [(false, [0, 0, 0, 1])]) ≠
      .ok [[0, 0, 0, 1]] ∧
    byteStreamFormatNalUnits (annexB [(false, [0, 0, 0, 1])]) = .ok [[]] := by
  exact ⟨by decide, by decide⟩

/-- C1: in every successfully built media segment, the video traf's
`trun.data_offset` is the serialized moof size plus 8 and the audio traf's
is the serialized moof size plus the serialized video mdat size plus 8
(sizes small enough for the `as i32` casts to be exact). -/
theorem c1_trun_data_offsets (avc : AvcStream) (aac : AacStream)
    (seg : MediaSegment) (moofBytes mdatBytes : List Nat)
    (h : make_media_segment avc aac = .ok seg)
    (hm : seg.moof_box.write_box = .ok moofBytes)
    (hd : (seg.mdat_boxes.getD 0 ⟨[]⟩).write_box = .ok mdatBytes)
    (hsmall : moofBytes.length + mdatBytes.length + 8 < 2 ^ 31) :
    seg.moof_box.traf_boxes.map (fun t => t.trun_box.data_offset) =
      [some ((moofBytes.length : Int) + 8),
       some ((moofBytes.length : Int) + (mdatBytes.length : Int) + 8)] := by
  rw [make_media_segment] at h
  simp only [Bind.bind, Except.bind] at h
  split at h
  next e heq => exact absurd h (by simp)
  next counted hcount =>
    split at h
    next e heq => exact absurd h (by simp)
    next mb hmb =>
      simp only [Except.ok.injEq] at h
      subst h
      simp only [patchTrafDataOffset, modifyIdx, setTrafDataOffset] at hm ⊢
      simp only [List.getD_cons_zero] at hd
      rw [hmb] at hd
      simp only [Except.ok.injEq] at hd
      subst hd
      have hlen := moof_patch2_len _ _ _ _ _ _ _ _ _ _ _ _ _ hcount hm
      simp only [List.map_cons, List.map_nil]
      rw [← hlen]
      rw [i32OfNat_small (n := moofBytes.length) (by omega),
          i32OfNat_small (n := moofBytes.length + mb.length) (by omega),
          i32OfInt_small (by omega) (by push_cast; omega),
          i32OfInt_small (by omega) (by push_cast; omega)]
      push_cast
      rfl

set_option maxRecDepth 8000 in
set_option maxHeartbeats 1600000 in
/-- C1 (witness): on the one-sample example streams the moof serializes to
172 bytes and the video mdat to 22 bytes, and the two data offsets are
180 = 172 + 8 and 202 = 172 + 22 + 8. -/
theorem c1_trun_data_offsets_witness :
    (make_media_segment shortVideoStream oneFrameAacStream).map (fun seg =>
      seg.moof_box.traf_boxes.map (fun t => t.trun_box.data_offset)) =
      .ok [some 180, some 202] := by
  cases hres : make_media_segment shortVideoStream oneFrameAacStream with
  | error e =>
    have hok : (make_media_segment shortVideoStream oneFrameAacStream).isOk = true := by
      decide
    rw [hres] at hok
    simp [Except.isOk, Except.toBool] at hok
  | ok seg =>
    cases hmres : seg.moof_box.write_box with
    | error e =>
      have hq : ((make_media_segment shortVideoStream oneFrameAacStream).bind
          (fun s => s.moof_box.write_box)).isOk = true := by decide
      rw [hres] at hq
      simp only [Except.bind] at hq
      rw [hmres] at hq
      simp [Except.isOk, Except.toBool] at hq
    | ok moofBytes =>
      have hlenM : moofBytes.length = 172 := by
        have hq : ((make_media_segment shortVideoStream oneFrameAacStream).bind
            (fun s => s.moof_box.write_box)).map List.length = .ok 172 := by decide
        rw [hres] at hq
        simp only [Except.bind] at hq
        rw [hmres] at hq
        simpa [Except.map] using hq
      cases hdres : (seg.mdat_boxes.getD 0 ⟨[]⟩).write_box with
      | error e =>
        have hq : ((make_media_segment shortVideoStream oneFrameAacStream).bind
            (fun s => (s.mdat_boxes.getD 0 ⟨[]⟩).write_box)).isOk = true := by decide
        rw [hres] at hq
        simp only [Except.bind] at hq
        rw [hdres] at hq
        simp [Except.isOk, Except.toBool] at hq
      | ok mdatBytes =>
        have hlenD : mdatBytes.length = 22 := by
          have hq : ((make_media_segment shortVideoStream oneFrameAacStream).bind
              (fun s => (s.mdat_boxes.getD 0 ⟨[]⟩).write_box)).map List.length =
              .ok 22 := by decide
          rw [hres] at hq
          simp only [Except.bind] at hq
          rw [hdres] at hq
          simpa [Except.map] using hq
        have hmain := c1_trun_data_offsets shortVideoStream oneFrameAacStream seg
          moofBytes mdatBytes hres hmres hdres (by rw [hlenM, hlenD]; norm_num)
        simp only [Except.map, Except.ok.injEq]
        rw [hmain, hlenM, hlenD]
        norm_num

/-- C10: whenever `read_avc_aac_stream` returns successfully (and the video
buffer fits in a `u32`, as the stored sizes are cast `as u32`), every
recorded sample of both streams has its `size` field present and, for each
stream, the sum of the sample sizes equals the length of that stream's
accumulated byte buffer, so the trun sample sizes exactly tile the payload
of the corresponding mdat box. -/
theorem c10_sample_sizes_tile_mdat (pkts : List PesPacket) (avc : AvcStream)
    (aac : AacStream) (h : read_avc_aac_stream pkts = .ok (avc, aac))
    (hfit : avc.data.length < 2 ^ 32) :
    ((∀ smp ∈ avc.samples, smp.size.isSome) ∧
      (avc.samples.map (fun smp => smp.size.getD 0)).sum = avc.data.length) ∧
    (∀ smp ∈ aac.samples, smp.size.isSome) ∧
      (aac.samples.map (fun smp => smp.size.getD 0)).sum = aac.data.length := by
  rw [read_avc_aac_stream] at h
  cases hf : pkts.foldlM intakeStep IntakeState.initial with
  | error e => rw [hf] at h; simp [Bind.bind, Except.bind] at h
  | ok sN =>
    rw [hf] at h
    simp only [Bind.bind, Except.bind] at h
    have hinit1 : avcSizesOk IntakeState.initial.avc := by
      rw [show IntakeState.initial.avc = none from rfl]; trivial
    have hinit2 : aacSizesOk IntakeState.initial.aac := by
      rw [show IntakeState.initial.aac = none from rfl]; trivial
    obtain ⟨hA, hB⟩ := foldlM_intake_sizes hf hinit1 hinit2
    obtain ⟨⟨h1, h2, h3⟩, h4, h5⟩ := finalizeStreams_sizes h hA hB
    exact ⟨⟨h1, by omega⟩, h4, h5⟩

/-- C10 (witness): on the three-packet stream `straightPkts` the video
sample sizes are `[14, 5]`, summing to the 19-byte video buffer, and the
audio sample size `[1]` sums to the 1-byte audio buffer. -/
theorem c10_sample_sizes_tile_mdat_witness :
    (read_avc_aac_stream straightPkts).map (fun p =>
      ((p.1.samples.map (fun smp => smp.size.getD 0)).sum, p.1.data.length,
       (p.2.samples.map (fun smp => smp.size.getD 0)).sum, p.2.data.length)) =
      .ok (19, 19, 1, 1) := by
  cases hres : read_avc_aac_stream straightPkts with
  | error e =>
    have hok : (read_avc_aac_stream straightPkts).isOk = true := by decide
    rw [hres] at hok
    simp [Except.isOk, Except.toBool] at hok
  | ok p =>
    obtain ⟨avc, aac⟩ := p
    have hv : avc.data.length = 19 := by
      have hm : (read_avc_aac_stream straightPkts).map
          (fun q => q.1.data.length) = .ok 19 := by decide
      rw [hres] at hm
      simpa [Except.map] using hm
    have ha : aac.data.length = 1 := by
      have hm : (read_avc_aac_stream straightPkts).map
          (fun q => q.2.data.length) = .ok 1 := by decide
      rw [hres] at hm
      simpa [Except.map] using hm
    have hmain := c10_sample_sizes_tile_mdat straightPkts avc aac hres
      (by rw [hv]; norm_num)
    simp only [Except.map, Except.ok.injEq, Prod.mk.injEq]
    exact ⟨hmain.1.2.trans hv, hv, hmain.2.2.trans ha, ha⟩

end MseFmp4
